import Mathlib

/-!
# MediaElch: scrape jobs, MusicBrainz merge and response cache

Shallow embedding of
* `src/scrapers/tv_show/imdb/ImdbTvEpisodeScrapeJob.cpp`
* `src/scrapers/music/MusicBrainz.cpp`
* `src/export/ExportTemplateLoader.cpp` (`unpackTemplate`, `validateChecksum`,
  `mergeTemplates`)
* `src/ui/tv_show/TvShowWidget.cpp` (`onSaveAll`)
* `src/movies/file_searcher/MovieFileSearcher.h` (the load queue, whose
  member functions are modelled from the spec)

Asynchronous code is embedded by explicit state passing: a call that hands a
callback to a collaborator returns the continuation that is now pending, and
the callback body is a function of its own that is applied when the
collaborator answers.  Every observable action (a fetch, a parser call, an
emitted signal) is appended to a trace, oldest first.
-/

namespace MediaElch

/-! ## ScraperError -/

/-- Modelled from the spec: the declaration of `ScraperError::Type` is not part
of the sources at hand.  The spec lists the kinds NetworkError, ConfigError,
ParseError and NotFound, and calls the empty state "no-error". -/
inductive ScraperErrorType
  | NoError
  | NetworkError
  | ConfigError
  | ParseError
  | NotFound
  deriving DecidableEq, Repr

/-- Modelled from the spec: `ScraperError` is a kind plus a human-readable
message (the fields `error` and `message` that the job writes). -/
structure ScraperError where
  error : ScraperErrorType
  message : String
  deriving DecidableEq, Repr

/-- The default-constructed `ScraperError`, written `{}` in the source. -/
def ScraperError.empty : ScraperError := ⟨ScraperErrorType.NoError, ""⟩

/-- Modelled from the spec: `ScraperError::hasError()`; the empty state is
success, every other kind is an error. -/
def ScraperError.hasError (e : ScraperError) : Bool :=
  e.error != ScraperErrorType.NoError

/-! ## ImdbTvEpisodeScrapeJob -/

/-- An IMDb identifier as handed to `ImdbId(QString)`. -/
structure ImdbId where
  toString : String
  deriving DecidableEq, Repr

/-- The `identifier` member of `EpisodeScrapeJob::Config`. -/
structure EpisodeIdentifier where
  showIdentifier : String
  seasonNumber : Int
  episodeNumber : Int
  episodeIdentifier : String
  deriving DecidableEq, Repr

/-- Modelled from the spec: `EpisodeIdentifier::hasEpisodeIdentifier()` is not
part of the sources at hand; a direct episode identifier is present when the
string holding it is not empty. -/
def EpisodeIdentifier.hasEpisodeIdentifier (i : EpisodeIdentifier) : Bool :=
  !i.episodeIdentifier.isEmpty

/-- The value of `EpisodeScrapeJob::Config` read by the job. -/
structure Config where
  identifier : EpisodeIdentifier
  locale : String
  deriving DecidableEq, Repr

/-- The episode that the job populates: the fields written by the job itself
(`setSeason`, `setEpisode`), the identifier it reads back (`imdbId`) and the
details a parser may fill in. -/
structure TvShowEpisode where
  season : Int
  episode : Int
  imdbId : ImdbId
  title : String
  overview : String
  deriving DecidableEq, Repr

/-- The collaborators of the job whose code is not part of the sources at hand:
`ImdbId::isValid` and the two functions of `ImdbTvEpisodeParser`.  They are
parameters of the embedding. -/
structure ImdbCollaborators where
  isValid : ImdbId → Bool
  parseIdFromSeason : TvShowEpisode → String → TvShowEpisode
  parseInfos : TvShowEpisode → String → TvShowEpisode

/-- Observable actions of a job, in the order they happen. -/
inductive Event
  | loadSeason (locale : String) (showId : ImdbId) (season : Int)
  | loadTitle (locale : String) (episodeId : ImdbId)
  | parseIdFromSeason (html : String)
  | parseInfos (html : String)
  | sigFinished (job : Nat) (error : ScraperError)
  deriving DecidableEq, Repr

/-- The callback that `ImdbApi` still has to invoke, if any. -/
inductive Pending
  | idle
  | seasonCallback
  | titleCallback
  deriving DecidableEq, Repr

/-- State of an `ImdbTvEpisodeScrapeJob`.  `objectId` stands for the address of
the object (`this`). -/
structure Job where
  objectId : Nat
  config : Config
  m_error : ScraperError
  episode : TvShowEpisode
  trace : List Event

/-- An episode as the job's constructor makes it: nothing set, no IMDb ID. -/
def TvShowEpisode.fresh : TvShowEpisode := ⟨0, 0, ⟨""⟩, "", ""⟩

/-- A job as left by the constructor: no error, a fresh episode, nothing done. -/
def Job.create (objectId : Nat) (config : Config) : Job :=
  ⟨objectId, config, ScraperError.empty, TvShowEpisode.fresh, []⟩

/-- The episode handed to `parseIdFromSeason`: the fresh episode after
`setSeason` and `setEpisode` with the numbers of the configuration. -/
def Job.discoveryEpisode (config : Config) : TvShowEpisode :=
  { TvShowEpisode.fresh with
    season := config.identifier.seasonNumber
    episode := config.identifier.episodeNumber }

/-- The statement `emit sigFinished(this)`. -/
def Job.emitSigFinished (j : Job) : Job :=
  { j with trace := j.trace ++ [Event.sigFinished j.objectId j.m_error] }

/-- Body of the callback given to `m_api.loadTitle` in `loadEpisode`. -/
def Job.onLoadTitle (c : ImdbCollaborators) (j : Job) (html : String) (error : ScraperError) : Job :=
  if error.hasError then
    Job.emitSigFinished { j with m_error := error }
  else if html.isEmpty then
    Job.emitSigFinished { j with
      m_error := ⟨ScraperErrorType.NetworkError,
        "Loaded IMDb content is empty. Cannot load requested episode."⟩ }
  else
    Job.emitSigFinished { j with
      episode := c.parseInfos j.episode html
      trace := j.trace ++ [Event.parseInfos html] }

/-- `ImdbTvEpisodeScrapeJob::loadEpisode`. -/
def Job.loadEpisode (c : ImdbCollaborators) (j : Job) (episodeId : ImdbId) : Job × Pending :=
  if !c.isValid episodeId then
    (Job.emitSigFinished { j with
      m_error := ⟨ScraperErrorType.ConfigError,
        "IMDb ID is invalid! Cannot load requested episode."⟩ }, Pending.idle)
  else
    ({ j with trace := j.trace ++ [Event.loadTitle j.config.locale episodeId] },
      Pending.titleCallback)

/-- Body of the callback given to `m_api.loadSeason` in `loadSeason`. -/
def Job.onLoadSeason (c : ImdbCollaborators) (j : Job) (html : String) (error : ScraperError) :
    Job × Pending :=
  if error.hasError then
    (Job.emitSigFinished { j with m_error := error }, Pending.idle)
  else
    let j1 : Job := { j with
      episode := c.parseIdFromSeason j.episode html
      trace := j.trace ++ [Event.parseIdFromSeason html] }
    if !c.isValid j1.episode.imdbId then
      (Job.emitSigFinished { j1 with
        m_error := ⟨ScraperErrorType.ConfigError,
          "IMDb ID could not be loaded from season page! Cannot load requested episode."⟩ },
        Pending.idle)
    else
      Job.loadEpisode c j1 j1.episode.imdbId

/-- `ImdbTvEpisodeScrapeJob::loadSeason`. -/
def Job.loadSeason (c : ImdbCollaborators) (j : Job) : Job × Pending :=
  let showId : ImdbId := ⟨j.config.identifier.showIdentifier⟩
  if !c.isValid showId then
    (Job.emitSigFinished { j with
      m_error := ⟨ScraperErrorType.ConfigError,
        "Neither IMDb show ID nor episode ID are valid! Cannot load requested episode."⟩ },
      Pending.idle)
  else
    ({ j with
        episode := { j.episode with
          season := j.config.identifier.seasonNumber
          episode := j.config.identifier.episodeNumber }
        trace := j.trace ++
          [Event.loadSeason j.config.locale showId j.config.identifier.seasonNumber] },
      Pending.seasonCallback)

/-- `ImdbTvEpisodeScrapeJob::start`. -/
def Job.start (c : ImdbCollaborators) (j : Job) : Job × Pending :=
  if j.config.identifier.hasEpisodeIdentifier then
    Job.loadEpisode c j ⟨j.config.identifier.episodeIdentifier⟩
  else
    Job.loadSeason c j

/-- One answer of the API: the pending callback, if there is one, is invoked
once with the given page text and error. -/
def Job.deliver (c : ImdbCollaborators) (s : Job × Pending) (reply : String × ScraperError) :
    Job × Pending :=
  match s.2 with
  | Pending.idle => s
  | Pending.seasonCallback => Job.onLoadSeason c s.1 reply.1 reply.2
  | Pending.titleCallback => (Job.onLoadTitle c s.1 reply.1 reply.2, Pending.idle)

/-- A whole run: `start()` is called once on a fresh job and the API answers
the fetches in turn from `replies`, invoking each callback once.  When the
answers run out the job is left waiting. -/
def Job.run (c : ImdbCollaborators) (objectId : Nat) (config : Config)
    (replies : List (String × ScraperError)) : Job × Pending :=
  replies.foldl (Job.deliver c) (Job.start c (Job.create objectId config))

/-- Whether an event is the discovery fetch. -/
def Event.isLoadSeason : Event → Bool
  | Event.loadSeason _ _ _ => true
  | _ => false

/-- Whether an event is the detail fetch. -/
def Event.isLoadTitle : Event → Bool
  | Event.loadTitle _ _ => true
  | _ => false

/-- Whether an event is a network fetch of either sort. -/
def Event.isFetch (e : Event) : Bool := e.isLoadSeason || e.isLoadTitle

/-- Whether an event is a call into `ImdbTvEpisodeParser`. -/
def Event.isParserCall : Event → Bool
  | Event.parseIdFromSeason _ => true
  | Event.parseInfos _ => true
  | _ => false

/-- Whether an event is the terminal signal. -/
def Event.isSigFinished : Event → Bool
  | Event.sigFinished _ _ => true
  | _ => false

/-- Stand-in collaborators for concrete runs: an ID is valid when it is `tt`
followed by at least seven digits, the season parser takes a page that is
itself such an ID as the episode ID, the details parser stores the page as the
overview. -/
def sampleCollaborators : ImdbCollaborators where
  isValid := fun i =>
    match i.toString.data with
    | 't' :: 't' :: ds => decide (7 ≤ ds.length) && ds.all Char.isDigit
    | _ => false
  parseIdFromSeason := fun ep html =>
    match html.data with
    | 't' :: 't' :: ds =>
      if decide (7 ≤ ds.length) && ds.all Char.isDigit then { ep with imdbId := ⟨html⟩ } else ep
    | _ => ep
  parseInfos := fun ep html => { ep with overview := html }

/-- A configuration with a direct, valid episode identifier. -/
def directConfig : Config := ⟨⟨"tt0096697", 4, 2, "tt0701142"⟩, "en"⟩

/-- A configuration with a show identifier and season/episode numbers only. -/
def discoveryConfig : Config := ⟨⟨"tt0096697", 4, 2, ""⟩, "en"⟩

/-- The answer handed to the callback of the detail fetch `loadTitle` in a run:
the first answer when `start()` issued the detail fetch itself, the second when
`start()` issued the discovery fetch and its callback issued the detail fetch;
nothing when the detail fetch was not issued or not answered. -/
def Job.detailReply (c : ImdbCollaborators) (objectId : Nat) (config : Config)
    (replies : List (String × ScraperError)) : Option (String × ScraperError) :=
  match (Job.start c (Job.create objectId config)).2, replies with
  | Pending.titleCallback, r :: _ => some r
  | Pending.seasonCallback, r :: rest =>
    match (Job.onLoadSeason c (Job.start c (Job.create objectId config)).1 r.1 r.2).2, rest with
    | Pending.titleCallback, r2 :: _ => some r2
    | _, _ => none
  | _, _ => none

/-- Whether an event is a call of `ImdbTvEpisodeParser::parseInfos`. -/
def Event.isParseInfos : Event → Bool
  | Event.parseInfos _ => true
  | _ => false

/-! ## Qt XML and JSON values -/

/-- A node of a DOM tree as `QDomDocument::setContent` builds it.  `null` is
the null node that `QDomNodeList::at` gives for an index out of range. -/
inductive QDomNode
  | null
  | element (tagName : String) (attributes : List (String × String)) (children : List QDomNode)
  | textNode (data : String)
  deriving Repr

/-- A parsed document: its top-level nodes (empty when parsing failed). -/
structure QDomDocument where
  children : List QDomNode

mutual
/-- The element itself followed by all elements below it, in document order. -/
def QDomNode.elements : QDomNode → List QDomNode
  | QDomNode.element t a cs => QDomNode.element t a cs :: QDomNode.elementsOfList cs
  | _ => []
/-- All elements of a list of sibling subtrees, in document order. -/
def QDomNode.elementsOfList : List QDomNode → List QDomNode
  | [] => []
  | n :: ns => n.elements ++ QDomNode.elementsOfList ns
end

mutual
/-- `QDomElement::text()`: the text of all text nodes below the element. -/
def QDomNode.text : QDomNode → String
  | QDomNode.element _ _ cs => QDomNode.textOfList cs
  | QDomNode.textNode s => s
  | QDomNode.null => ""
/-- The concatenated text of a list of sibling subtrees. -/
def QDomNode.textOfList : List QDomNode → String
  | [] => ""
  | n :: ns => n.text ++ QDomNode.textOfList ns
end

/-- `QDomElement::tagName()`. -/
def QDomNode.tagName : QDomNode → String
  | QDomNode.element t _ _ => t
  | _ => ""

/-- `QDomElement::attribute(name)`: the value, or the empty string. -/
def QDomNode.attribute (n : QDomNode) (name : String) : String :=
  match n with
  | QDomNode.element _ attrs _ =>
    match attrs.find? (fun a => a.1 == name) with
    | some a => a.2
    | none => ""
  | _ => ""

/-- `QDomElement::elementsByTagName(tagname)`: the descendant elements with
that tag, in document order (the element itself is not among them). -/
def QDomNode.elementsByTagName (n : QDomNode) (tagname : String) : List QDomNode :=
  match n with
  | QDomNode.element _ _ cs => (QDomNode.elementsOfList cs).filter (fun e => e.tagName == tagname)
  | _ => []

/-- `QDomDocument::elementsByTagName(tagname)`: all elements of the document
with that tag, in document order. -/
def QDomDocument.elementsByTagName (doc : QDomDocument) (tagname : String) : List QDomNode :=
  (QDomNode.elementsOfList doc.children).filter (fun e => e.tagName == tagname)

/-- `QDomNodeList::at(index).toElement()`. -/
def nodeAt (l : List QDomNode) (index : Nat) : QDomNode :=
  l.getD index QDomNode.null

/-- A JSON value as `QJsonDocument::fromJson` builds it.  The payload of a
number is never read by the code embedded here. -/
inductive QJsonValue
  | null
  | undefined
  | bool (b : Bool)
  | number (n : Int)
  | string (s : String)
  | array (items : List QJsonValue)
  | object (members : List (String × QJsonValue))

/-- `QJsonDocument::object()` and `QJsonValue::toObject()`: the members of an
object, no members for every other value. -/
def QJsonValue.toObject : QJsonValue → List (String × QJsonValue)
  | QJsonValue.object members => members
  | _ => []

/-- `QJsonObject::operator[](key)`: the member, or `undefined`. -/
def jsonMember (members : List (String × QJsonValue)) (key : String) : QJsonValue :=
  match members.find? (fun m => m.1 == key) with
  | some m => m.2
  | none => QJsonValue.undefined

/-- `QJsonValue::toString()`: the string, or the empty string. -/
def QJsonValue.toString : QJsonValue → String
  | QJsonValue.string s => s
  | _ => ""

/-! ## MusicBrainz: parse and assign -/

/-- The values of `MusicScraperInfo` that `MusicBrainz.cpp` names. -/
inductive MusicScraperInfo
  | Title
  | Artist
  | Label
  | ReleaseDate
  | Biography
  deriving DecidableEq, Repr

/-- The fields of `Album` that `parseAndAssignAlbum` writes, and the changed
flag of an entity. -/
structure Album where
  title : String
  artist : String
  label : String
  releaseDate : String
  hasChanged : Bool
  deriving DecidableEq, Repr

/-- The field of `Artist` that `parseAndAssignArtist` writes, its name, and the
changed flag of an entity. -/
structure Artist where
  name : String
  biography : String
  hasChanged : Bool
  deriving DecidableEq, Repr

/-- Modelled from the spec: `Album::setTitle` is not part of the sources at
hand; a setter stores the value and leaves the entity flagged as changed. -/
def Album.setTitle (a : Album) (title : String) : Album :=
  { a with title := title, hasChanged := true }

/-- Modelled from the spec: `Album::setArtist`, see `Album.setTitle`. -/
def Album.setArtist (a : Album) (artist : String) : Album :=
  { a with artist := artist, hasChanged := true }

/-- Modelled from the spec: `Album::setLabel`, see `Album.setTitle`. -/
def Album.setLabel (a : Album) (label : String) : Album :=
  { a with label := label, hasChanged := true }

/-- Modelled from the spec: `Album::setReleaseDate`, see `Album.setTitle`. -/
def Album.setReleaseDate (a : Album) (releaseDate : String) : Album :=
  { a with releaseDate := releaseDate, hasChanged := true }

/-- Modelled from the spec: `Artist::setBiography`, see `Album.setTitle`. -/
def Artist.setBiography (a : Artist) (biography : String) : Artist :=
  { a with biography := biography, hasChanged := true }

/-- Modelled from the spec: `UniversalMusicScraper::shouldLoad` is not part of
the sources at hand.  It returns true iff the field is in the requested set;
the entity is not looked at. -/
def shouldLoad {Entity : Type} (field : MusicScraperInfo) (infos : List MusicScraperInfo)
    (_entity : Entity) : Bool :=
  infos.contains field

/-- What `MusicBrainz.cpp` calls but does not define: the two Qt parsers
(`QDomDocument::setContent`, `QJsonDocument::fromJson`, which gives nothing on
a parse error) and `removeHtmlEntities`.  They are parameters of the
embedding. -/
structure TextLibrary where
  setContent : String → QDomDocument
  fromJson : String → Option QJsonValue
  removeHtmlEntities : String → String

/-- One round of the loop over the `name-credit` elements: `artist` is the
string built so far. -/
def artistCreditStep (artist : String) (artistElem : QDomNode) : String :=
  let joinPhrase := artistElem.attribute "joinphrase"
  if (artistElem.elementsByTagName "artist").isEmpty then
    artist
  else if ((nodeAt (artistElem.elementsByTagName "artist") 0).elementsByTagName "name").isEmpty then
    artist
  else
    (if !artist.isEmpty then artist ++ (if joinPhrase.isEmpty then ", " else joinPhrase)
      else artist) ++
      (nodeAt ((nodeAt (artistElem.elementsByTagName "artist") 0).elementsByTagName "name") 0).text

/-- One round of the loop over the `label-info` elements: `labels` is the list
built so far. -/
def labelInfoStep (labels : List String) (labelElem : QDomNode) : List String :=
  if (labelElem.elementsByTagName "label").isEmpty then
    labels
  else if ((nodeAt (labelElem.elementsByTagName "label") 0).elementsByTagName "name").isEmpty then
    labels
  else
    labels ++
      [(nodeAt ((nodeAt (labelElem.elementsByTagName "label") 0).elementsByTagName "name") 0).text]

/-- First block of `parseAndAssignAlbum`: the title. -/
def assignAlbumTitle (domDoc : QDomDocument) (album : Album) (infos : List MusicScraperInfo) :
    Album :=
  if shouldLoad MusicScraperInfo.Title infos album
      && !(domDoc.elementsByTagName "title").isEmpty then
    album.setTitle (nodeAt (domDoc.elementsByTagName "title") 0).text
  else album

/-- Second block of `parseAndAssignAlbum`: the artist. -/
def assignAlbumArtist (domDoc : QDomDocument) (album : Album) (infos : List MusicScraperInfo) :
    Album :=
  if shouldLoad MusicScraperInfo.Artist infos album
      && !(domDoc.elementsByTagName "artist-credit").isEmpty then
    let artistList :=
      (nodeAt (domDoc.elementsByTagName "artist-credit") 0).elementsByTagName "name-credit"
    let artist := artistList.foldl artistCreditStep ""
    if !artist.isEmpty then album.setArtist artist else album
  else album

/-- Third block of `parseAndAssignAlbum`: the label. -/
def assignAlbumLabel (domDoc : QDomDocument) (album : Album) (infos : List MusicScraperInfo) :
    Album :=
  if shouldLoad MusicScraperInfo.Label infos album
      && !(domDoc.elementsByTagName "label-info-list").isEmpty then
    let labelList :=
      (nodeAt (domDoc.elementsByTagName "label-info-list") 0).elementsByTagName "label-info"
    let labels := labelList.foldl labelInfoStep []
    if !labels.isEmpty then album.setLabel (", ".intercalate labels) else album
  else album

/-- Fourth block of `parseAndAssignAlbum`: the release date. -/
def assignAlbumReleaseDate (domDoc : QDomDocument) (album : Album)
    (infos : List MusicScraperInfo) : Album :=
  if shouldLoad MusicScraperInfo.ReleaseDate infos album
      && !(domDoc.elementsByTagName "release-event-list").isEmpty then
    let releaseList :=
      (nodeAt (domDoc.elementsByTagName "release-event-list") 0).elementsByTagName "release-event"
    if !releaseList.isEmpty && !((nodeAt releaseList 0).elementsByTagName "date").isEmpty then
      album.setReleaseDate (nodeAt ((nodeAt releaseList 0).elementsByTagName "date") 0).text
    else album
  else album

/-- `MusicBrainz::parseAndAssignAlbum`: the album after the call. -/
def parseAndAssignAlbum (lib : TextLibrary) (xml : String) (album : Album)
    (infos : List MusicScraperInfo) : Album :=
  let domDoc := lib.setContent xml
  let album1 := assignAlbumTitle domDoc album infos
  let album2 := assignAlbumArtist domDoc album1 infos
  let album3 := assignAlbumLabel domDoc album2 infos
  assignAlbumReleaseDate domDoc album3 infos

/-- `MusicBrainz::parseAndAssignArtist`: the artist after the call. -/
def parseAndAssignArtist (lib : TextLibrary) (data : String) (artist : Artist)
    (infos : List MusicScraperInfo) : Artist :=
  if data.isEmpty then
    artist
  else if !shouldLoad MusicScraperInfo.Biography infos artist then
    artist
  else
    match lib.fromJson data with
    | none => artist
    | some json =>
      let biography :=
        (jsonMember (jsonMember json.toObject "wikipediaExtract").toObject "content").toString
      if !biography.isEmpty then artist.setBiography (lib.removeHtmlEntities biography)
      else artist

/-- Text of a release as MusicBrainz answers it (shortened). -/
def sampleReleaseXml : String :=
  "<release><title>Collision Course</title><artist-credit><name-credit joinphrase=\" / \"><artist><name>Jay-Z</name></artist></name-credit><name-credit><artist><name>Linkin Park</name></artist></name-credit></artist-credit><label-info-list><label-info><label><name>Warner Bros.</name></label></label-info></label-info-list><release-event-list><release-event><date>2004-11-30</date></release-event></release-event-list></release>"

/-- The DOM tree of `sampleReleaseXml`. -/
def sampleReleaseDom : QDomDocument :=
  ⟨[QDomNode.element "release" [] [
    QDomNode.element "title" [] [QDomNode.textNode "Collision Course"],
    QDomNode.element "artist-credit" [] [
      QDomNode.element "name-credit" [("joinphrase", " / ")] [
        QDomNode.element "artist" [] [QDomNode.element "name" [] [QDomNode.textNode "Jay-Z"]]],
      QDomNode.element "name-credit" [] [
        QDomNode.element "artist" [] [
          QDomNode.element "name" [] [QDomNode.textNode "Linkin Park"]]]],
    QDomNode.element "label-info-list" [] [
      QDomNode.element "label-info" [] [
        QDomNode.element "label" [] [
          QDomNode.element "name" [] [QDomNode.textNode "Warner Bros."]]]],
    QDomNode.element "release-event-list" [] [
      QDomNode.element "release-event" [] [
        QDomNode.element "date" [] [QDomNode.textNode "2004-11-30"]]]]]⟩

/-- Text of an artist page extract (shortened). -/
def sampleArtistJson : String :=
  "\x7b\"wikipediaExtract\": \x7b\"content\": \"An American rock band.\"\x7d\x7d"

/-- The JSON value of `sampleArtistJson`. -/
def sampleArtistValue : QJsonValue :=
  QJsonValue.object [("wikipediaExtract",
    QJsonValue.object [("content", QJsonValue.string "An American rock band.")])]

/-- Stand-in library for concrete runs: it knows the two sample texts, every
other text fails to parse; `removeHtmlEntities` finds nothing to remove. -/
def sampleLibrary : TextLibrary where
  setContent := fun xml => if xml = sampleReleaseXml then sampleReleaseDom else ⟨[]⟩
  fromJson := fun data => if data = sampleArtistJson then some sampleArtistValue else none
  removeHtmlEntities := fun s => s

/-- An album as loaded from disk, before scraping. -/
def sampleAlbum : Album := ⟨"collision course (rip)", "", "", "", false⟩

/-- An artist as loaded from disk, before scraping. -/
def sampleArtist : Artist := ⟨"Linkin Park", "", false⟩

/-- The artist name a `name-credit` element contributes in the loop of
`parseAndAssignAlbum`: the text of the first `name` below its first `artist`,
nothing when it has no `artist` or that artist has no `name`. -/
def creditArtistName (artistElem : QDomNode) : Option String :=
  if (artistElem.elementsByTagName "artist").isEmpty then none
  else if ((nodeAt (artistElem.elementsByTagName "artist") 0).elementsByTagName "name").isEmpty then
    none
  else
    some (nodeAt ((nodeAt (artistElem.elementsByTagName "artist") 0).elementsByTagName
      "name") 0).text

/-- The separator a `name-credit` element brings along: its own `joinphrase`
attribute when that is not empty, a comma and a blank otherwise. -/
def creditSeparator (artistElem : QDomNode) : String :=
  if (artistElem.attribute "joinphrase").isEmpty then ", " else artistElem.attribute "joinphrase"

/-- The name-credits that have an artist name, in document order, each as the
pair of its separator and its name. -/
def contributingCredits (artistList : List QDomNode) : List (String × String) :=
  artistList.filterMap (fun e => (creditArtistName e).map (fun name => (creditSeparator e, name)))

/-- Following the words of the claim on the artist string: the names in order,
and before every name except the first the separator of its own credit. -/
def artistAsClaimed : List (String × String) → String
  | [] => ""
  | credit :: rest => credit.2 ++ String.join (rest.map (fun c => c.1 ++ c.2))

/-- The name a `label-info` element contributes in the loop of
`parseAndAssignAlbum`: the text of the first `name` below its first `label`. -/
def labelInfoName (labelElem : QDomNode) : Option String :=
  if (labelElem.elementsByTagName "label").isEmpty then none
  else if ((nodeAt (labelElem.elementsByTagName "label") 0).elementsByTagName "name").isEmpty then
    none
  else
    some (nodeAt ((nodeAt (labelElem.elementsByTagName "label") 0).elementsByTagName
      "name") 0).text

/-- The `name-credit` elements that the artist block loops over. -/
def nameCreditsOf (domDoc : QDomDocument) : List QDomNode :=
  (nodeAt (domDoc.elementsByTagName "artist-credit") 0).elementsByTagName "name-credit"

/-- The `label-info` elements that the label block loops over. -/
def labelInfosOf (domDoc : QDomDocument) : List QDomNode :=
  (nodeAt (domDoc.elementsByTagName "label-info-list") 0).elementsByTagName "label-info"

/-- The `release-event` elements that the release-date block looks at. -/
def releaseEventsOf (domDoc : QDomDocument) : List QDomNode :=
  (nodeAt (domDoc.elementsByTagName "release-event-list") 0).elementsByTagName "release-event"

/-- A release with four credited artists, the first and the third of which
have an empty `name` element. -/
def emptyFirstNameDom : QDomDocument :=
  ⟨[QDomNode.element "release" [] [
    QDomNode.element "artist-credit" [] [
      QDomNode.element "name-credit" [("joinphrase", " & ")] [
        QDomNode.element "artist" [] [QDomNode.element "name" [] []]],
      QDomNode.element "name-credit" [("joinphrase", " / ")] [
        QDomNode.element "artist" [] [QDomNode.element "name" [] [QDomNode.textNode "Jay-Z"]]],
      QDomNode.element "name-credit" [] [
        QDomNode.element "artist" [] [QDomNode.element "name" [] []]],
      QDomNode.element "name-credit" [] [
        QDomNode.element "artist" [] [
          QDomNode.element "name" [] [QDomNode.textNode "Linkin Park"]]]]]]⟩

/-- Stand-in library whose XML parser answers every text with
`emptyFirstNameDom`. -/
def emptyFirstNameLibrary : TextLibrary where
  setContent := fun _ => emptyFirstNameDom
  fromJson := fun _ => none
  removeHtmlEntities := fun s => s

/-! ## MusicBrainz: AllMusic id and Discogs URL -/

/-- An AllMusic identifier as handed to `AllMusicId(QString)`; the
default-constructed one holds the empty text. -/
structure AllMusicId where
  toString : String
  deriving DecidableEq, Repr

/-- What the code reads from a `QRegularExpressionMatch`. -/
structure QRegularExpressionMatch where
  hasMatch : Bool
  captured : Nat → String

/-- The Qt regular expression engine, `QRegularExpression(pattern).match(subject)`.
It is a parameter of the embedding. -/
abbrev RegexEngine := String → String → QRegularExpressionMatch

/-- One round of the loop over the `relation` elements; the accumulator holds
`allMusicId` and `discogsUrl`. -/
def extractStep (rx : RegexEngine) (acc : AllMusicId × String) (elem : QDomNode) :
    AllMusicId × String :=
  let acc1 : AllMusicId × String :=
    if elem.attribute "type" == "allmusic"
        && decide ((elem.elementsByTagName "target").length > 0) then
      let url := (nodeAt (elem.elementsByTagName "target") 0).text
      let found := rx "allmusic\\.com/album/(.*)$" url
      if found.hasMatch then (AllMusicId.mk (found.captured 1), acc.2) else acc
    else acc
  if elem.attribute "type" == "discogs"
      && decide ((elem.elementsByTagName "target").length > 0) then
    (acc1.1, (nodeAt (elem.elementsByTagName "target") 0).text)
  else acc1

/-- `MusicBrainz::extractAllMusicIdAndDiscogsUrl`. -/
def extractAllMusicIdAndDiscogsUrl (lib : TextLibrary) (rx : RegexEngine) (xml : String) :
    AllMusicId × String :=
  ((lib.setContent xml).elementsByTagName "relation").foldl (extractStep rx) (⟨""⟩, "")

/-- The Discogs URL a relation supplies: the text of its first target, when
its type is `discogs` and it has a target. -/
def discogsTarget (elem : QDomNode) : Option String :=
  if elem.attribute "type" == "discogs"
      && decide ((elem.elementsByTagName "target").length > 0) then
    some (nodeAt (elem.elementsByTagName "target") 0).text
  else none

/-- The AllMusic id a relation supplies: what group 1 of the pattern captures
in the text of its first target, when its type is `allmusic`, it has a target
and the pattern matches. -/
def allMusicCapture (rx : RegexEngine) (elem : QDomNode) : Option String :=
  if elem.attribute "type" == "allmusic"
      && decide ((elem.elementsByTagName "target").length > 0) then
    if (rx "allmusic\\.com/album/(.*)$" (nodeAt (elem.elementsByTagName "target") 0).text).hasMatch
    then some ((rx "allmusic\\.com/album/(.*)$"
      (nodeAt (elem.elementsByTagName "target") 0).text).captured 1)
    else none
  else none

/-- The text after the first occurrence of `needle`, if it occurs. -/
def afterFirst (needle : List Char) : List Char → Option (List Char)
  | [] => none
  | c :: cs =>
    if (c :: cs).take needle.length = needle then some ((c :: cs).drop needle.length)
    else afterFirst needle cs

/-- Stand-in regular expression engine for concrete runs: it knows the one
pattern of `extractAllMusicIdAndDiscogsUrl` and reads it on texts of one line:
the match starts at the first `allmusic.com/album/` and group 1 is the rest. -/
def sampleRegex : RegexEngine := fun pattern subject =>
  if pattern = "allmusic\\.com/album/(.*)$" then
    match afterFirst "allmusic.com/album/".data subject.data with
    | some rest => ⟨true, fun n => if n = 1 then String.mk rest else ""⟩
    | none => ⟨false, fun _ => ""⟩
  else ⟨false, fun _ => ""⟩

/-- A release group with an AllMusic relation, a Wikidata relation, two
Discogs relations and a relation without a target. -/
def sampleRelationsDom : QDomDocument :=
  ⟨[QDomNode.element "release-group" [] [
    QDomNode.element "relation-list" [("target-type", "url")] [
      QDomNode.element "relation" [("type", "allmusic")] [
        QDomNode.element "target" []
          [QDomNode.textNode "https://www.allmusic.com/album/mw0000698631"]],
      QDomNode.element "relation" [("type", "wikidata")] [
        QDomNode.element "target" [] [QDomNode.textNode "https://www.wikidata.org/wiki/Q1"]],
      QDomNode.element "relation" [("type", "discogs")] [
        QDomNode.element "target" [] [QDomNode.textNode "https://www.discogs.com/master/1"]],
      QDomNode.element "relation" [("type", "discogs")] [
        QDomNode.element "target" [] [QDomNode.textNode "https://www.discogs.com/master/2"]],
      QDomNode.element "relation" [("type", "discogs")] []]]]⟩

/-- Stand-in library whose XML parser answers every text with
`sampleRelationsDom`. -/
def sampleRelationsLibrary : TextLibrary where
  setContent := fun _ => sampleRelationsDom
  fromJson := fun _ => none
  removeHtmlEntities := fun s => s

/-! ## MusicBrainzApi: requests through the response cache -/

/-- A URL, compared as the URL type compares it. -/
structure QUrl where
  toString : String
  deriving DecidableEq, Repr

/-- A locale. -/
structure Locale where
  toString : String
  deriving DecidableEq, Repr

/-- Modelled from the spec: the class of `m_cache` is not part of the sources
at hand.  The response cache maps the exact (URL, locale) pair to the stored
body; there is no expiry and no eviction.  Newest entries come first. -/
structure WebsiteCache where
  entries : List ((QUrl × Locale) × String)
  deriving DecidableEq, Repr

/-- The entry stored under the exact pair, if there is one. -/
def WebsiteCache.find (cache : WebsiteCache) (url : QUrl) (locale : Locale) :
    Option ((QUrl × Locale) × String) :=
  cache.entries.find? (fun e => decide (e.1 = (url, locale)))

/-- Modelled from the spec: `hasValidElement(url, locale)`; an element is valid
when one is stored under the pair. -/
def WebsiteCache.hasValidElement (cache : WebsiteCache) (url : QUrl) (locale : Locale) : Bool :=
  (cache.find url locale).isSome

/-- Modelled from the spec: `getElement(url, locale)`; the stored body (the
empty text when there is none). -/
def WebsiteCache.getElement (cache : WebsiteCache) (url : QUrl) (locale : Locale) : String :=
  match cache.find url locale with
  | some e => e.2
  | none => ""

/-- Modelled from the spec: `addElement(url, locale, body)`; an upsert, the
last write wins. -/
def WebsiteCache.addElement (cache : WebsiteCache) (url : QUrl) (locale : Locale)
    (body : String) : WebsiteCache :=
  ⟨((url, locale), body) :: cache.entries.filter (fun e => !decide (e.1 = (url, locale)))⟩

/-- The request built by `mediaelch::network::requestWithDefaults(url)`; its
default headers are not modelled. -/
structure QNetworkRequest where
  url : QUrl
  deriving DecidableEq, Repr

/-- The function `mediaelch::network::requestWithDefaults`. -/
def requestWithDefaults (url : QUrl) : QNetworkRequest := ⟨url⟩

/-- What the `finished` handler reads from a `QNetworkReply`: `error()` (0 is
`QNetworkReply::NoError`), `errorString()`, `url()` and the text of
`readAll()`. -/
structure QNetworkReply where
  error : Nat
  errorString : String
  url : QUrl
  body : String
  deriving DecidableEq, Repr

/-- Modelled from the spec: `makeScraperError(data, reply, parseError)` with an
empty parse error is not part of the sources at hand.  A network-layer error
becomes a NetworkError with the transport's message; otherwise there is no
error. -/
def makeScraperError (_data : String) (reply : QNetworkReply) : ScraperError :=
  if reply.error ≠ 0 then ⟨ScraperErrorType.NetworkError, reply.errorString⟩
  else ScraperError.empty

/-- Observable actions of the API object, in the order they happen. -/
inductive ApiEvent
  | networkGet (request : QNetworkRequest)
  | singleShot (element : String)
  | callback (data : String) (error : ScraperError)
  deriving DecidableEq, Repr

/-- State of a `MusicBrainzApi`: the cache and the actions so far. -/
structure MusicBrainzApi where
  m_cache : WebsiteCache
  log : List ApiEvent
  deriving DecidableEq, Repr

/-- The continuation that `sendGetRequest` leaves behind: the zero-delay timer
with the element it captured, or the handler connected to the reply's
`finished` signal with the locale it captured. -/
inductive ApiPending
  | timer (element : String)
  | reply (locale : Locale)
  deriving DecidableEq, Repr

/-- `MusicBrainzApi::sendGetRequest` up to its return. -/
def MusicBrainzApi.sendGetRequest (api : MusicBrainzApi) (locale : Locale) (url : QUrl) :
    MusicBrainzApi × ApiPending :=
  if api.m_cache.hasValidElement url locale then
    ({ api with log := api.log ++ [ApiEvent.singleShot (api.m_cache.getElement url locale)] },
      ApiPending.timer (api.m_cache.getElement url locale))
  else
    ({ api with log := api.log ++ [ApiEvent.networkGet (requestWithDefaults url)] },
      ApiPending.reply locale)

/-- Body of the function given to `QTimer::singleShot`. -/
def MusicBrainzApi.onTimer (api : MusicBrainzApi) (element : String) : MusicBrainzApi :=
  { api with log := api.log ++ [ApiEvent.callback element ScraperError.empty] }

/-- Body of the function connected to `QNetworkReply::finished`. -/
def MusicBrainzApi.onReplyFinished (api : MusicBrainzApi) (locale : Locale)
    (reply : QNetworkReply) : MusicBrainzApi :=
  let data : String := if reply.error = 0 then reply.body else ""
  let cache : WebsiteCache :=
    if !data.isEmpty then api.m_cache.addElement reply.url locale data else api.m_cache
  { m_cache := cache, log := api.log ++ [ApiEvent.callback data (makeScraperError data reply)] }

/-- The continuation runs: the timer fires, or the network delivers `reply`. -/
def MusicBrainzApi.resume (api : MusicBrainzApi) (pending : ApiPending)
    (reply : QNetworkReply) : MusicBrainzApi :=
  match pending with
  | ApiPending.timer element => api.onTimer element
  | ApiPending.reply locale => api.onReplyFinished locale reply

/-- A whole request: `sendGetRequest`, then its continuation; `reply` is what
the network answers in case it is asked. -/
def MusicBrainzApi.request (api : MusicBrainzApi) (locale : Locale) (url : QUrl)
    (reply : QNetworkReply) : MusicBrainzApi :=
  (api.sendGetRequest locale url).1.resume (api.sendGetRequest locale url).2 reply

/-- Whether an action is a network request. -/
def ApiEvent.isNetworkGet : ApiEvent → Bool
  | ApiEvent.networkGet _ => true
  | _ => false

/-- Whether an action is an invocation of the caller's callback. -/
def ApiEvent.isCallback : ApiEvent → Bool
  | ApiEvent.callback _ _ => true
  | _ => false

/-- An API object whose cache holds one release for the locale `en`. -/
def sampleApi : MusicBrainzApi :=
  ⟨⟨[((⟨"https://musicbrainz.org/ws/2/release/1"⟩, ⟨"en"⟩), "<release/>")]⟩, []⟩

/-- An API object with an empty cache. -/
def freshApi : MusicBrainzApi := ⟨⟨[]⟩, []⟩

/-- A URL as `loadArtist` builds it, for an artist whose address the server
answers with a redirect. -/
def mergedArtistUrl : QUrl := ⟨"https://musicbrainz.org/ws/2/artist/old?inc=url-rels"⟩

/-- A reply to the request for `mergedArtistUrl` after a redirect was followed:
no error, a body, and `url()` is the address the redirect led to. -/
def redirectedReply : QNetworkReply :=
  ⟨0, "", ⟨"https://musicbrainz.org/ws/2/artist/new?inc=url-rels"⟩, "<artist/>"⟩

/-! ## ExportTemplateLoader: unpacking a template archive -/

/-- An entry of the ZIP archive: its name as `getCurrentFileName` gives it and
the bytes `readAll` gives. -/
structure ZipEntry where
  name : String
  data : String
  deriving DecidableEq, Repr

/-- What `unpackTemplate` reads from the `ExportTemplate`. -/
structure ExportTemplateInfo where
  identifier : String
  isInstalled : Bool
  deriving DecidableEq, Repr

/-- The answers of the file system and of the ZIP library that
`unpackTemplate` tests.  They are parameters of the embedding. -/
structure UnpackEnvironment where
  storageDirExists : Bool
  mkpathStorageDir : Bool
  templateDirExists : Bool
  uninstallTemplate : Bool
  mkpathTemplateDir : Bool
  zipOpens : Bool
  mkdir : String → Bool
  fileOpens : String → Bool
  zipErrorIsOk : Bool

/-- What `unpackTemplate` does to the storage directory. -/
inductive FileAction
  | mkdir (name : String)
  | write (name : String) (data : String)
  deriving DecidableEq, Repr

/-- `QString::startsWith`. -/
def qStartsWith (s start : String) : Bool :=
  decide (s.data.take start.data.length = start.data)

/-- `QString::mid(position)`. -/
def qMid (s : String) (position : Nat) : String :=
  String.mk (s.data.drop position)

/-- `QString::endsWith("/")`. -/
def qEndsWithSlash (s : String) : Bool :=
  decide (s.data.getLast? = some '/')

/-- The test `std::all_of(entries, entry.startsWith(baseDir))` with
`baseDir = entries.first()`. -/
def isGitHubReleaseFormat (entries : List ZipEntry) : Bool :=
  match entries with
  | [] => true
  | first :: _ => entries.all (fun entry => qStartsWith entry.name first.name)

/-- The `for` loop of `unpackTemplate` over the files from the current one on.
The result is the value returned so far (false after a failed `mkdir`) and
the actions done. -/
def unpackLoop (env : UnpackEnvironment) (gitHubFormat : Bool) (baseDir : String) :
    List ZipEntry → List FileAction → Bool × List FileAction
  | [], done => (true, done)
  | entry :: more, done =>
    let filename := if gitHubFormat then qMid entry.name baseDir.length else entry.name
    if filename.isEmpty then
      unpackLoop env gitHubFormat baseDir more done
    else if qEndsWithSlash filename then
      if !env.mkdir filename then (false, done)
      else unpackLoop env gitHubFormat baseDir more (done ++ [FileAction.mkdir filename])
    else if env.fileOpens filename then
      unpackLoop env gitHubFormat baseDir more (done ++ [FileAction.write filename entry.data])
    else
      unpackLoop env gitHubFormat baseDir more done

/-- `ExportTemplateLoader::unpackTemplate`: the returned value and the actions
done in the storage directory of the template. -/
def unpackTemplate (env : UnpackEnvironment) (exportTemplate : ExportTemplateInfo)
    (entries : List ZipEntry) : Bool × List FileAction :=
  if !env.storageDirExists && !env.mkpathStorageDir then (false, [])
  else if (exportTemplate.isInstalled || env.templateDirExists) && !env.uninstallTemplate then
    (false, [])
  else if !env.mkpathTemplateDir then (false, [])
  else if !env.zipOpens then (false, [])
  else
    match entries with
    | [] => (false, [])
    | first :: rest =>
      let gitHubFormat := isGitHubReleaseFormat (first :: rest)
      let files := if gitHubFormat then rest else first :: rest
      let result := unpackLoop env gitHubFormat first.name files []
      if !result.1 then (false, result.2)
      else if !env.zipErrorIsOk then (false, result.2)
      else (true, result.2)

/-- Following the words of the claim: the archive has one folder at top level
that holds all other entries, that is, its first entry is a folder name without
a further level and every other entry lies below it. -/
def hasSingleTopLevelFolder (entries : List ZipEntry) : Bool :=
  match entries with
  | [] => false
  | first :: rest =>
    qEndsWithSlash first.name
      && decide ((first.name.data.filter (fun ch => ch == '/')).length = 1)
      && rest.all (fun entry => qStartsWith entry.name first.name)

/-- Following the words of the claim: what an old-format archive unpacks to;
no entry is skipped, folders are made and every file is written under its full
entry name. -/
def unpackedAsOldFormat (entries : List ZipEntry) : List FileAction :=
  entries.map (fun entry =>
    if qEndsWithSlash entry.name then FileAction.mkdir entry.name
    else FileAction.write entry.name entry.data)

/-- A file system and ZIP library on which every operation succeeds; the
storage directory of the template does not exist yet. -/
def allSucceeds : UnpackEnvironment where
  storageDirExists := true
  mkpathStorageDir := true
  templateDirExists := false
  uninstallTemplate := true
  mkpathTemplateDir := true
  zipOpens := true
  mkdir := fun _ => true
  fileOpens := fun _ => true
  zipErrorIsOk := true

/-- An old-format archive: two theme files stored directly. -/
def oldFormatArchive : List ZipEntry :=
  [⟨"template.xml", "<template/>"⟩, ⟨"template.xml.sig", "0a1b"⟩]

/-- A GitHub release archive: one folder that holds the theme files. -/
def gitHubArchive : List ZipEntry :=
  [⟨"simple-1.0/", ""⟩, ⟨"simple-1.0/template.xml", "<template/>"⟩,
    ⟨"simple-1.0/css/", ""⟩, ⟨"simple-1.0/css/style.css", "body"⟩]

/-! ## MovieFileSearcher: the load queue -/

/-- A configured root directory, together with what the disk holds for it:
whether it can be read and the movies a scan of it finds. -/
structure SettingsDir where
  path : String
  readable : Bool
  movies : List String
  deriving DecidableEq, Repr

/-- The signals of `MovieFileSearcher` (`started`, `progress`, `progressText`,
`finished`; the message bar id of `progress` is a constant and left out), and
the start and the completion of a directory job. -/
inductive SearcherEvent
  | started
  | jobStarted (path : String)
  | jobDone (path : String)
  | progress (current : Nat) (max : Nat)
  | progressText (text : String)
  | finished
  deriving DecidableEq, Repr

/-- The members of `MovieFileSearcher` as the header declares them
(`m_directories`, `m_directoryQueue`, `m_store`, `m_currentJob`, `m_running`,
`m_aborted`), and the signals emitted so far. -/
structure MovieFileSearcher where
  m_directories : List SettingsDir
  m_directoryQueue : List SettingsDir
  m_store : List String
  m_currentJob : Option SettingsDir
  m_running : Bool
  m_aborted : Bool
  trace : List SearcherEvent
  deriving DecidableEq, Repr

/-- A searcher as constructed: nothing configured, nothing running. -/
def MovieFileSearcher.create : MovieFileSearcher :=
  ⟨[], [], [], none, false, false, []⟩

/-- The arguments of a `progress` signal. -/
def SearcherEvent.progressArgs : SearcherEvent → Option (Nat × Nat)
  | SearcherEvent.progress current max => some (current, max)
  | _ => none

/-- A show of the model, by its position in `tvShows()`, or an episode, by the
position of its show and its own position in `episodes()`. -/
inductive SaveItem
  | show (i : Nat)
  | episode (i : Nat) (x : Nat)
  deriving DecidableEq, Repr

/-- What `onSaveAll` does in its saving loops: a call of `hasChanged()` with
its result, a call of `saveData`, a call of `progressBarProgress`. -/
inductive SaveEvent
  | hasChanged (item : SaveItem) (result : Bool)
  | saveData (item : SaveItem)
  | progressBarProgress (current : Nat) (max : Nat)
  deriving DecidableEq, Repr

/-- The state of the saving loops: the changed flags of the items, the counter
`episodesSaved`, and the calls so far. -/
structure SaveState where
  changed : SaveItem → Bool
  episodesSaved : Nat
  trace : List SaveEvent

/-- The effect of `saveData` of an item on the changed flags of the model.
`TvShow::saveData` and `TvShowEpisode::saveData` are not part of the sources
at hand; the effect is a parameter of the embedding. -/
abbrev SaveDataEffect := SaveItem → (SaveItem → Bool) → (SaveItem → Bool)

/-- The inner counting loop over the episodes of show `i`. -/
def countChangedEpisodes (changed : SaveItem → Bool) (i : Nat) (y : Nat)
    (episodesToSave : Nat) : Nat :=
  (List.range y).foldl
    (fun n x => if changed (SaveItem.episode i x) then n + 1 else n) episodesToSave

/-- The first loop of `onSaveAll` from show `i` on; `episodeCounts` holds
`episodes().count()` of the shows still to visit. -/
def countChangedShows (changed : SaveItem → Bool) : Nat → List Nat → Nat → Nat
  | _, [], episodesToSave => episodesToSave
  | i, y :: more, episodesToSave =>
    countChangedShows changed (i + 1) more
      (countChangedEpisodes changed i y
        (if changed (SaveItem.show i) then episodesToSave + 1 else episodesToSave))

/-- The body shared by the two saving loops: the item is asked
`hasChanged()`; if so it is saved and the progress bar is advanced with
`++episodesSaved`. -/
def saveIfChanged (saveData : SaveDataEffect) (episodesToSave : Nat) (s : SaveState)
    (item : SaveItem) : SaveState :=
  if s.changed item then
    { changed := saveData item s.changed
      episodesSaved := s.episodesSaved + 1
      trace := s.trace ++ [SaveEvent.hasChanged item true, SaveEvent.saveData item,
        SaveEvent.progressBarProgress (s.episodesSaved + 1) episodesToSave] }
  else
    { s with trace := s.trace ++ [SaveEvent.hasChanged item false] }

/-- The second loop of `onSaveAll` from show `i` on. -/
def saveChangedShows (saveData : SaveDataEffect) (episodesToSave : Nat) :
    Nat → List Nat → SaveState → SaveState
  | _, [], s => s
  | i, y :: more, s =>
    saveChangedShows saveData episodesToSave (i + 1) more
      ((List.range y).foldl
        (fun st x => saveIfChanged saveData episodesToSave st (SaveItem.episode i x))
        (saveIfChanged saveData episodesToSave s (SaveItem.show i)))

/-- `TvShowWidget::onSaveAll` on a model whose shows have `episodeCounts`
episodes and whose items have the flags `changed`. -/
def onSaveAll (saveData : SaveDataEffect) (episodeCounts : List Nat)
    (changed : SaveItem → Bool) : SaveState :=
  saveChangedShows saveData (countChangedShows changed 0 episodeCounts 0) 0 episodeCounts
    ⟨changed, 0, []⟩

/-- The shows and episodes of the model in the order the loops visit them,
from show `i` on. -/
def itemsFrom : Nat → List Nat → List SaveItem
  | _, [] => []
  | i, y :: more =>
    (SaveItem.show i :: (List.range y).map (SaveItem.episode i)) ++ itemsFrom (i + 1) more

/-- The position of the show an item belongs to. -/
def SaveItem.showIndex : SaveItem → Nat
  | SaveItem.show i => i
  | SaveItem.episode i _ => i

/-- The item of a `hasChanged()` call. -/
def SaveEvent.examined : SaveEvent → Option SaveItem
  | SaveEvent.hasChanged item _ => some item
  | _ => none

/-- The item of a `hasChanged()` call that returned true. -/
def SaveEvent.examinedChanged : SaveEvent → Option SaveItem
  | SaveEvent.hasChanged item true => some item
  | _ => none

/-- The item of a `saveData` call. -/
def SaveEvent.saved : SaveEvent → Option SaveItem
  | SaveEvent.saveData item => some item
  | _ => none

/-- The arguments of a `progressBarProgress` call. -/
def SaveEvent.progressArgs : SaveEvent → Option (Nat × Nat)
  | SaveEvent.progressBarProgress current max => some (current, max)
  | _ => none

/-- A `saveData` that clears the changed flag of the saved item and touches no
other flag. -/
def clearsOwnFlag : SaveDataEffect :=
  fun item flags other => if other = item then false else flags other

/-- Flags of a model with two shows: the first show is unchanged but its
second episode is changed, the second show is changed. -/
def sampleChanged : SaveItem → Bool :=
  fun item => decide (item = SaveItem.episode 0 1) || decide (item = SaveItem.show 1)

/-! ## ExportTemplateLoader: checksum and merge of template lists -/

/-- The members of `ExportTemplate` that the loader reads and writes through
`name()`, `identifier()`, `version()`, `isInstalled()`, `setRemote`,
`setRemoteVersion`, `setRemoteFile`, `remoteFile()` and
`remoteFileChecksum()`.  A setter stores its argument. -/
structure ExportTemplate where
  name : String
  identifier : String
  version : String
  installed : Bool
  remote : Bool
  remoteVersion : String
  remoteFile : String
  remoteFileChecksum : String
  deriving DecidableEq, Repr

/-- The Qt functions that `validateChecksum` calls:
`QCryptographicHash::hash(data, Sha256)`, from bytes to the bytes of the
digest, and `QString::toLower`.  They are parameters of the embedding. -/
structure ChecksumLibrary where
  sha256 : List Nat → List Nat
  toLower : String → String

/-- The lower-case hexadecimal digit of a value below sixteen. -/
def hexDigit (value : Nat) : Char :=
  if value < 10 then Char.ofNat (48 + value) else Char.ofNat (87 + value)

/-- `QByteArray::toHex()`: two lower-case hexadecimal digits for every byte. -/
def toHex (bytes : List Nat) : String :=
  String.mk (bytes.flatMap (fun byte => [hexDigit (byte / 16 % 16), hexDigit (byte % 16)]))

/-- `ExportTemplateLoader::validateChecksum`. -/
def validateChecksum (lib : ChecksumLibrary) (data : List Nat)
    (exportTemplate : ExportTemplate) : Bool :=
  if exportTemplate.remoteFileChecksum.isEmpty then
    true
  else
    let epected := lib.toLower exportTemplate.remoteFileChecksum
    let actual := toHex (lib.sha256 data)
    if epected ≠ actual then false else true

/-- `ExportTemplateLoader::onDownloadTemplateFinished` up to the signal
`sigTemplateInstalled`: the flag the signal carries and what was done in the
storage directory.  `replyError` is `reply->error()` (0 is `NoError`), `ba` the
bytes of `readAll()`, `entries` what the ZIP library reads from them. -/
def onDownloadTemplateFinished (lib : ChecksumLibrary) (env : UnpackEnvironment)
    (replyError : Nat) (ba : List Nat) (exportTemplate : ExportTemplate)
    (entries : List ZipEntry) : Bool × List FileAction :=
  if replyError ≠ 0 then (false, [])
  else if !validateChecksum lib ba exportTemplate then (false, [])
  else if !(unpackTemplate env ⟨exportTemplate.identifier, exportTemplate.installed⟩
      entries).1 then
    (false, (unpackTemplate env ⟨exportTemplate.identifier, exportTemplate.installed⟩
      entries).2)
  else
    (true, (unpackTemplate env ⟨exportTemplate.identifier, exportTemplate.installed⟩
      entries).2)

/-- The three setter calls on a template whose identifier matches the one of
`remoteTemplate`. -/
def ExportTemplate.markRemote (localTemplate remoteTemplate : ExportTemplate) :
    ExportTemplate :=
  { localTemplate with
    remote := true
    remoteVersion := remoteTemplate.version
    remoteFile := remoteTemplate.remoteFile }

/-- The inner loop of `mergeTemplates` over `templates`: the flag `found` and
the templates after the loop. -/
def markLoop (remoteTemplate : ExportTemplate) (templates : List ExportTemplate) :
    Bool × List ExportTemplate :=
  templates.foldl
    (fun state localTemplate =>
      if localTemplate.identifier = remoteTemplate.identifier then
        (true, state.2 ++ [localTemplate.markRemote remoteTemplate])
      else (state.1, state.2 ++ [localTemplate]))
    (false, [])

/-- One round of the outer loop of `mergeTemplates`. -/
def mergeStep (templates : List ExportTemplate) (remoteTemplate : ExportTemplate) :
    List ExportTemplate :=
  if !(markLoop remoteTemplate templates).1 then
    (markLoop remoteTemplate templates).2 ++ [remoteTemplate]
  else (markLoop remoteTemplate templates).2

/-- The list `templates` of `mergeTemplates` after the outer loop, before it
is sorted. -/
def mergeUnsorted (localTemplates remoteTemplates : List ExportTemplate) :
    List ExportTemplate :=
  remoteTemplates.foldl mergeStep localTemplates

/-- Insertion of one element into a list sorted by `lessThan`: behind the
elements that are less than it, in front of the first that is not. -/
def insertSorted (lessThan : ExportTemplate → ExportTemplate → Bool) (t : ExportTemplate) :
    List ExportTemplate → List ExportTemplate
  | [] => [t]
  | x :: xs => if lessThan x t then x :: insertSorted lessThan t xs else t :: x :: xs

/-- The call `std::sort(begin, end, lessThan)`, embedded as a sort by
insertion.  Elements that `lessThan` does not tell apart stay in the order of
the input; the language fixes no order for them, and nothing proved about
`mergeTemplates` depends on it. -/
def stdSort (lessThan : ExportTemplate → ExportTemplate → Bool) :
    List ExportTemplate → List ExportTemplate
  | [] => []
  | x :: xs => insertSorted lessThan x (stdSort lessThan xs)

/-- `ExportTemplateLoader::mergeTemplates`; `ExportTemplate::lessThan` is not
part of the sources at hand and is a parameter. -/
def mergeTemplates (lessThan : ExportTemplate → ExportTemplate → Bool)
    (localTemplates remoteTemplates : List ExportTemplate) : List ExportTemplate :=
  stdSort lessThan (mergeUnsorted localTemplates remoteTemplates)

/-- Following the words of the claim: the remote templates whose identifier
equals the identifier of no local template and of no earlier kept remote
template; `seen` holds the identifiers of the local templates and of the
remote templates kept so far. -/
def keptRemotes (seen : List String) : List ExportTemplate → List ExportTemplate
  | [] => []
  | remoteTemplate :: more =>
    if remoteTemplate.identifier ∈ seen then keptRemotes seen more
    else remoteTemplate :: keptRemotes (seen ++ [remoteTemplate.identifier]) more

/-- A template without the marks that `mergeTemplates` sets: what identifies
it apart from `remote`, `remoteVersion` and `remoteFile`. -/
def ExportTemplate.unmarked (t : ExportTemplate) : ExportTemplate :=
  { t with remote := false, remoteVersion := "", remoteFile := "" }

/-- A local template after the merge: marked by the last remote template with
its identifier, unchanged when there is none. -/
def ExportTemplate.markedBy (remoteTemplates : List ExportTemplate) (t : ExportTemplate) :
    ExportTemplate :=
  match (remoteTemplates.filter (fun r => decide (t.identifier = r.identifier))).getLast? with
  | some remoteTemplate => t.markRemote remoteTemplate
  | none => t

/-- The remote templates that `mergeTemplates` appends, as they are after the
call: a kept remote template is itself one of `templates` in the later rounds
of the loop, so it is marked by the last later remote template with its
identifier, and unchanged when there is none. -/
def keptRemotesMarked (seen : List String) : List ExportTemplate → List ExportTemplate
  | [] => []
  | remoteTemplate :: more =>
    if remoteTemplate.identifier ∈ seen then keptRemotesMarked seen more
    else
      remoteTemplate.markedBy more ::
        keptRemotesMarked (seen ++ [remoteTemplate.identifier]) more

/-- Stand-in Qt functions for concrete runs: the digest of the empty data is
the SHA-256 digest of the empty message, every other data is given the digest
of zeros; `toLower` lowers the letters A to Z. -/
def sampleChecksumLibrary : ChecksumLibrary where
  sha256 := fun data =>
    if data = [] then
      [0xe3, 0xb0, 0xc4, 0x42, 0x98, 0xfc, 0x1c, 0x14, 0x9a, 0xfb, 0xf4, 0xc8, 0x99, 0x6f,
        0xb9, 0x24, 0x27, 0xae, 0x41, 0xe4, 0x64, 0x9b, 0x93, 0x4c, 0xa4, 0x95, 0x99, 0x1b,
        0x78, 0x52, 0xb8, 0x55]
    else List.replicate 32 0
  toLower := fun text => String.mk (text.data.map Char.toLower)

/-- A remote theme whose checksum is the digest of the empty message, written
in capitals. -/
def sampleRemoteTemplate : ExportTemplate :=
  ⟨"Simple", "simple", "1.2", false, true, "", "https://example.org/simple-1.2.zip",
    "E3B0C44298FC1C149AFBF4C8996FB92427AE41E4649B934CA495991B7852B855"⟩

/-- The same theme as installed on disk in an older version. -/
def sampleLocalTemplate : ExportTemplate :=
  ⟨"Simple", "simple", "1.0", true, false, "", "", ""⟩

/-- A second remote theme that is not installed. -/
def sampleOtherTemplate : ExportTemplate :=
  ⟨"Dark", "dark", "0.9", false, true, "", "https://example.org/dark-0.9.zip", ""⟩

/-- A second remote entry for the theme `simple`, in a newer version. -/
def sampleNewerTemplate : ExportTemplate :=
  ⟨"Simple", "simple", "1.3", false, true, "", "https://example.org/simple-1.3.zip", ""⟩

/-- Stand-in for `ExportTemplate::lessThan` in concrete runs: by name. -/
def lessThanByName (a b : ExportTemplate) : Bool :=
  decide (a.name.data.map Char.toNat < b.name.data.map Char.toNat)

/-! ## Theorems: ImdbTvEpisodeScrapeJob -/

theorem Job.foldl_deliver_idle (c : ImdbCollaborators) (j : Job)
    (replies : List (String × ScraperError)) :
    replies.foldl (Job.deliver c) (j, Pending.idle) = (j, Pending.idle) := by
  induction replies with
  | nil => rfl
  | cons r rs ih => simpa [Job.deliver] using ih

theorem Job.run_nil (c : ImdbCollaborators) (oid : Nat) (cfg : Config) :
    Job.run c oid cfg [] = Job.start c (Job.create oid cfg) := rfl

theorem Job.onLoadTitle_trace (c : ImdbCollaborators) (j : Job) (html : String)
    (error : ScraperError) :
    (Job.onLoadTitle c j html error).trace =
      j.trace ++ (if error.hasError = false ∧ html.isEmpty = false then [Event.parseInfos html]
        else []) ++ [Event.sigFinished j.objectId (Job.onLoadTitle c j html error).m_error] := by
  unfold Job.onLoadTitle Job.emitSigFinished
  by_cases h1 : error.hasError = true
  · simp [h1]
  · by_cases h2 : html.isEmpty = true
    · simp [h1, h2]
    · simp [h1, h2]

theorem Job.start_invalid (c : ImdbCollaborators) (oid : Nat) (cfg : Config)
    (hBad : (cfg.identifier.hasEpisodeIdentifier = true ∧
          c.isValid ⟨cfg.identifier.episodeIdentifier⟩ = false) ∨
        (cfg.identifier.hasEpisodeIdentifier = false ∧
          c.isValid ⟨cfg.identifier.showIdentifier⟩ = false)) :
    ∃ msg : String, Job.start c (Job.create oid cfg) =
      (⟨oid, cfg, ⟨ScraperErrorType.ConfigError, msg⟩, TvShowEpisode.fresh,
        [Event.sigFinished oid ⟨ScraperErrorType.ConfigError, msg⟩]⟩, Pending.idle) := by
  rcases hBad with ⟨h1, h2⟩ | ⟨h1, h2⟩
  · exact ⟨"IMDb ID is invalid! Cannot load requested episode.",
      by simp [Job.start, Job.loadEpisode, Job.create, Job.emitSigFinished, h1, h2]⟩
  · exact ⟨"Neither IMDb show ID nor episode ID are valid! Cannot load requested episode.",
      by simp [Job.start, Job.loadSeason, Job.create, Job.emitSigFinished, h1, h2]⟩

theorem Job.start_direct (c : ImdbCollaborators) (oid : Nat) (cfg : Config)
    (hHas : cfg.identifier.hasEpisodeIdentifier = true)
    (hValid : c.isValid ⟨cfg.identifier.episodeIdentifier⟩ = true) :
    Job.start c (Job.create oid cfg) =
      (⟨oid, cfg, ScraperError.empty, TvShowEpisode.fresh,
          [Event.loadTitle cfg.locale ⟨cfg.identifier.episodeIdentifier⟩]⟩,
        Pending.titleCallback) := by
  simp [Job.start, Job.loadEpisode, Job.create, hHas, hValid]

/-- C1: with a direct episode identifier that is a valid IMDb ID, `start()`
issues the detail fetch `loadTitle` for exactly that ID and leaves its callback
pending, and over the whole run, whatever the API answers, the fetches of the
job are this one `loadTitle` and nothing else (so no `loadSeason`). -/
theorem start_direct_valid_issues_one_loadTitle (c : ImdbCollaborators) (oid : Nat)
    (cfg : Config) (replies : List (String × ScraperError))
    (hHas : cfg.identifier.hasEpisodeIdentifier = true)
    (hValid : c.isValid ⟨cfg.identifier.episodeIdentifier⟩ = true) :
    (Job.start c (Job.create oid cfg)).1.trace =
        [Event.loadTitle cfg.locale ⟨cfg.identifier.episodeIdentifier⟩] ∧
      (Job.start c (Job.create oid cfg)).2 = Pending.titleCallback ∧
      (Job.run c oid cfg replies).1.trace.filter Event.isFetch =
        [Event.loadTitle cfg.locale ⟨cfg.identifier.episodeIdentifier⟩] ∧
      (Job.run c oid cfg replies).1.trace.filter Event.isLoadSeason = [] := by
  have hs := Job.start_direct c oid cfg hHas hValid
  refine ⟨by rw [hs], by rw [hs], ?_, ?_⟩
  · cases replies with
    | nil => rw [Job.run_nil, hs]; simp [Event.isFetch, Event.isLoadSeason, Event.isLoadTitle]
    | cons r rs =>
      simp only [Job.run, List.foldl_cons, hs, Job.deliver, Job.foldl_deliver_idle,
        Job.onLoadTitle_trace]
      by_cases h : r.2.hasError = false ∧ r.1.isEmpty = false <;>
        simp [h, Event.isFetch, Event.isLoadSeason, Event.isLoadTitle]
  · cases replies with
    | nil => rw [Job.run_nil, hs]; simp [Event.isLoadSeason]
    | cons r rs =>
      simp only [Job.run, List.foldl_cons, hs, Job.deliver, Job.foldl_deliver_idle,
        Job.onLoadTitle_trace]
      by_cases h : r.2.hasError = false ∧ r.1.isEmpty = false <;>
        simp [h, Event.isLoadSeason]

theorem start_direct_valid_issues_one_loadTitle_witness :
    directConfig.identifier.hasEpisodeIdentifier = true ∧
      sampleCollaborators.isValid ⟨directConfig.identifier.episodeIdentifier⟩ = true ∧
      (Job.run sampleCollaborators 7 directConfig
        [("<html>Bart the Daredevil</html>", ScraperError.empty)]).1.trace.filter Event.isFetch =
      [Event.loadTitle directConfig.locale ⟨directConfig.identifier.episodeIdentifier⟩] :=
  ⟨by decide, by decide,
    (start_direct_valid_issues_one_loadTitle sampleCollaborators 7 directConfig
      [("<html>Bart the Daredevil</html>", ScraperError.empty)] (by decide) (by decide)).2.2.1⟩

theorem Job.start_discovery (c : ImdbCollaborators) (oid : Nat) (cfg : Config)
    (hNo : cfg.identifier.hasEpisodeIdentifier = false)
    (hShow : c.isValid ⟨cfg.identifier.showIdentifier⟩ = true) :
    Job.start c (Job.create oid cfg) =
      (⟨oid, cfg, ScraperError.empty, Job.discoveryEpisode cfg,
          [Event.loadSeason cfg.locale ⟨cfg.identifier.showIdentifier⟩
            cfg.identifier.seasonNumber]⟩, Pending.seasonCallback) := by
  simp [Job.start, Job.loadSeason, Job.create, Job.discoveryEpisode, hNo, hShow]

theorem Job.onLoadSeason_error (c : ImdbCollaborators) (j : Job) (html : String)
    (error : ScraperError) (h : error.hasError = true) :
    Job.onLoadSeason c j html error =
      (⟨j.objectId, j.config, error, j.episode,
        j.trace ++ [Event.sigFinished j.objectId error]⟩, Pending.idle) := by
  simp [Job.onLoadSeason, Job.emitSigFinished, h]

theorem Job.onLoadSeason_invalid (c : ImdbCollaborators) (j : Job) (html : String)
    (error : ScraperError) (h : error.hasError = false)
    (hId : c.isValid (c.parseIdFromSeason j.episode html).imdbId = false) :
    Job.onLoadSeason c j html error =
      (⟨j.objectId, j.config,
        ⟨ScraperErrorType.ConfigError,
          "IMDb ID could not be loaded from season page! Cannot load requested episode."⟩,
        c.parseIdFromSeason j.episode html,
        j.trace ++ [Event.parseIdFromSeason html] ++
          [Event.sigFinished j.objectId ⟨ScraperErrorType.ConfigError,
            "IMDb ID could not be loaded from season page! Cannot load requested episode."⟩]⟩,
        Pending.idle) := by
  simp [Job.onLoadSeason, Job.emitSigFinished, h, hId]

theorem Job.onLoadSeason_valid (c : ImdbCollaborators) (j : Job) (html : String)
    (error : ScraperError) (h : error.hasError = false)
    (hId : c.isValid (c.parseIdFromSeason j.episode html).imdbId = true) :
    Job.onLoadSeason c j html error =
      (⟨j.objectId, j.config, j.m_error, c.parseIdFromSeason j.episode html,
        j.trace ++ [Event.parseIdFromSeason html] ++
          [Event.loadTitle j.config.locale (c.parseIdFromSeason j.episode html).imdbId]⟩,
        Pending.titleCallback) := by
  simp [Job.onLoadSeason, Job.loadEpisode, h, hId]

theorem Job.onLoadTitle_error (c : ImdbCollaborators) (j : Job) (html : String)
    (error : ScraperError) (h : error.hasError = true) :
    Job.onLoadTitle c j html error =
      ⟨j.objectId, j.config, error, j.episode,
        j.trace ++ [Event.sigFinished j.objectId error]⟩ := by
  simp [Job.onLoadTitle, Job.emitSigFinished, h]

theorem Job.onLoadTitle_empty (c : ImdbCollaborators) (j : Job) (html : String)
    (error : ScraperError) (h : error.hasError = false) (hE : html.isEmpty = true) :
    Job.onLoadTitle c j html error =
      ⟨j.objectId, j.config,
        ⟨ScraperErrorType.NetworkError,
          "Loaded IMDb content is empty. Cannot load requested episode."⟩, j.episode,
        j.trace ++ [Event.sigFinished j.objectId ⟨ScraperErrorType.NetworkError,
          "Loaded IMDb content is empty. Cannot load requested episode."⟩]⟩ := by
  simp [Job.onLoadTitle, Job.emitSigFinished, h, hE]

theorem Job.onLoadTitle_parsed (c : ImdbCollaborators) (j : Job) (html : String)
    (error : ScraperError) (h : error.hasError = false) (hE : html.isEmpty = false) :
    Job.onLoadTitle c j html error =
      ⟨j.objectId, j.config, j.m_error, c.parseInfos j.episode html,
        j.trace ++ [Event.parseInfos html] ++ [Event.sigFinished j.objectId j.m_error]⟩ := by
  simp [Job.onLoadTitle, Job.emitSigFinished, h, hE]

/-- After the detail fetch was issued, whatever is answered adds neither a
fetch nor a change of configuration or identity. -/
theorem Job.foldl_deliver_title (c : ImdbCollaborators) (j : Job)
    (replies : List (String × ScraperError)) :
    ∃ tl : List Event,
      (replies.foldl (Job.deliver c) (j, Pending.titleCallback)).1.trace = j.trace ++ tl ∧
      ∀ e ∈ tl, e.isFetch = false := by
  cases replies with
  | nil => exact ⟨[], by simp, by simp⟩
  | cons r rs =>
    simp only [List.foldl_cons, Job.deliver, Job.foldl_deliver_idle, Job.onLoadTitle_trace]
    refine ⟨_, by rw [List.append_assoc], ?_⟩
    intro e he
    by_cases h : r.2.hasError = false ∧ r.1.isEmpty = false
    · simp [h] at he
      rcases he with rfl | rfl <;> rfl
    · simp [h] at he
      subst he; rfl

/-- C2 (as stated) fails: a job with a valid show identifier and no episode
identifier whose discovery fetch is answered with a transport error, so that no
episode ID is extracted, terminates with the transport's NetworkError and not
with ConfigError. -/
theorem discovery_transport_error_is_not_ConfigError :
    discoveryConfig.identifier.hasEpisodeIdentifier = false ∧
      sampleCollaborators.isValid ⟨discoveryConfig.identifier.showIdentifier⟩ = true ∧
      (Job.run sampleCollaborators 7 discoveryConfig
        [("", ⟨ScraperErrorType.NetworkError, "Host not found"⟩)]).2 = Pending.idle ∧
      (Job.run sampleCollaborators 7 discoveryConfig
        [("", ⟨ScraperErrorType.NetworkError, "Host not found"⟩)]).1.trace =
        [Event.loadSeason "en" ⟨"tt0096697"⟩ 4,
          Event.sigFinished 7 ⟨ScraperErrorType.NetworkError, "Host not found"⟩] ∧
      (Job.run sampleCollaborators 7 discoveryConfig
        [("", ⟨ScraperErrorType.NetworkError, "Host not found"⟩)]).1.m_error.error ≠
        ScraperErrorType.ConfigError := by
  decide

/-- C2 (amended): for a job without episode identifier whose show identifier is
a valid IMDb ID, the first action is the discovery fetch `loadSeason`, issued
once.  A detail fetch `loadTitle` is issued only when the discovery answer has
no transport error and `parseIdFromSeason` leaves a valid episode ID, and then
it is issued once, for that ID.  When the discovery answer has no transport
error but no valid ID results, the job terminates with ConfigError and no
detail fetch; when it has a transport error, the job terminates with that
error and no detail fetch. -/
theorem discovery_first_then_detail_only_on_valid_id (c : ImdbCollaborators) (oid : Nat)
    (cfg : Config) (replies : List (String × ScraperError))
    (hNo : cfg.identifier.hasEpisodeIdentifier = false)
    (hShow : c.isValid ⟨cfg.identifier.showIdentifier⟩ = true) :
    (Job.start c (Job.create oid cfg)).1.trace =
        [Event.loadSeason cfg.locale ⟨cfg.identifier.showIdentifier⟩
          cfg.identifier.seasonNumber] ∧
      (Job.run c oid cfg replies).1.trace.head? =
        some (Event.loadSeason cfg.locale ⟨cfg.identifier.showIdentifier⟩
          cfg.identifier.seasonNumber) ∧
      (Job.run c oid cfg replies).1.trace.filter Event.isLoadSeason =
        [Event.loadSeason cfg.locale ⟨cfg.identifier.showIdentifier⟩
          cfg.identifier.seasonNumber] ∧
      ((Job.run c oid cfg replies).1.trace.filter Event.isLoadTitle ≠ [] →
        ∃ html error rest, replies = (html, error) :: rest ∧ error.hasError = false ∧
          c.isValid (c.parseIdFromSeason (Job.discoveryEpisode cfg) html).imdbId = true) ∧
      (∀ html error rest, replies = (html, error) :: rest → error.hasError = false →
        c.isValid (c.parseIdFromSeason (Job.discoveryEpisode cfg) html).imdbId = true →
        (Job.run c oid cfg replies).1.trace.filter Event.isLoadTitle =
          [Event.loadTitle cfg.locale
            (c.parseIdFromSeason (Job.discoveryEpisode cfg) html).imdbId]) ∧
      (∀ html error rest, replies = (html, error) :: rest → error.hasError = false →
        c.isValid (c.parseIdFromSeason (Job.discoveryEpisode cfg) html).imdbId = false →
        (Job.run c oid cfg replies).2 = Pending.idle ∧
          (Job.run c oid cfg replies).1.m_error.error = ScraperErrorType.ConfigError ∧
          (Job.run c oid cfg replies).1.trace.getLast? =
            some (Event.sigFinished oid (Job.run c oid cfg replies).1.m_error) ∧
          (Job.run c oid cfg replies).1.trace.filter Event.isLoadTitle = []) ∧
      (∀ html error rest, replies = (html, error) :: rest → error.hasError = true →
        (Job.run c oid cfg replies).2 = Pending.idle ∧
          (Job.run c oid cfg replies).1.m_error = error ∧
          (Job.run c oid cfg replies).1.trace.getLast? =
            some (Event.sigFinished oid error) ∧
          (Job.run c oid cfg replies).1.trace.filter Event.isLoadTitle = []) := by
  have hs := Job.start_discovery c oid cfg hNo hShow
  have hrun : ∀ html error rest, Job.run c oid cfg ((html, error) :: rest) =
      rest.foldl (Job.deliver c) (Job.onLoadSeason c
        ⟨oid, cfg, ScraperError.empty, Job.discoveryEpisode cfg,
          [Event.loadSeason cfg.locale ⟨cfg.identifier.showIdentifier⟩
            cfg.identifier.seasonNumber]⟩ html error) := by
    intro html error rest
    simp [Job.run, hs, Job.deliver]
  -- the three shapes of a run whose discovery fetch was answered
  have hErr : ∀ html error rest, error.hasError = true →
      Job.run c oid cfg ((html, error) :: rest) =
        (⟨oid, cfg, error, Job.discoveryEpisode cfg,
          [Event.loadSeason cfg.locale ⟨cfg.identifier.showIdentifier⟩
            cfg.identifier.seasonNumber] ++ [Event.sigFinished oid error]⟩, Pending.idle) := by
    intro html error rest h
    rw [hrun, Job.onLoadSeason_error c _ html error h, Job.foldl_deliver_idle]
  have hInv : ∀ html error rest, error.hasError = false →
      c.isValid (c.parseIdFromSeason (Job.discoveryEpisode cfg) html).imdbId = false →
      Job.run c oid cfg ((html, error) :: rest) =
        (⟨oid, cfg, ⟨ScraperErrorType.ConfigError,
            "IMDb ID could not be loaded from season page! Cannot load requested episode."⟩,
          c.parseIdFromSeason (Job.discoveryEpisode cfg) html,
          [Event.loadSeason cfg.locale ⟨cfg.identifier.showIdentifier⟩
            cfg.identifier.seasonNumber] ++ [Event.parseIdFromSeason html] ++
            [Event.sigFinished oid ⟨ScraperErrorType.ConfigError,
            "IMDb ID could not be loaded from season page! Cannot load requested episode."⟩]⟩,
          Pending.idle) := by
    intro html error rest h hId
    rw [hrun, Job.onLoadSeason_invalid c _ html error h hId, Job.foldl_deliver_idle]
  have hVal : ∀ html error rest, error.hasError = false →
      c.isValid (c.parseIdFromSeason (Job.discoveryEpisode cfg) html).imdbId = true →
      ∃ tl : List Event, (Job.run c oid cfg ((html, error) :: rest)).1.trace =
        [Event.loadSeason cfg.locale ⟨cfg.identifier.showIdentifier⟩
            cfg.identifier.seasonNumber] ++ [Event.parseIdFromSeason html] ++
          [Event.loadTitle cfg.locale
            (c.parseIdFromSeason (Job.discoveryEpisode cfg) html).imdbId] ++ tl ∧
        ∀ e ∈ tl, e.isFetch = false := by
    intro html error rest h hId
    rw [hrun, Job.onLoadSeason_valid c _ html error h hId]
    exact Job.foldl_deliver_title c _ rest
  have hfilt : ∀ (p : Event → Bool) (tl : List Event), (∀ e ∈ tl, e.isFetch = false) →
      (∀ e, p e = true → e.isFetch = true) → tl.filter p = [] := by
    intro p tl h1 h2
    rw [List.filter_eq_nil_iff]
    intro e he hp
    have := h1 e he
    rw [h2 e hp] at this
    exact Bool.noConfusion this
  have hS : ∀ e : Event, e.isLoadSeason = true → e.isFetch = true := by
    intro e h; simp [Event.isFetch, h]
  have hT : ∀ e : Event, e.isLoadTitle = true → e.isFetch = true := by
    intro e h; simp [Event.isFetch, h]
  refine ⟨by rw [hs], ?_, ?_, ?_, ?_, ?_, ?_⟩
  · cases replies with
    | nil => rw [Job.run_nil, hs]; rfl
    | cons r rs =>
      obtain ⟨html, error⟩ := r
      by_cases h : error.hasError = true
      · rw [hErr html error rs h]; rfl
      · have h' : error.hasError = false := by simpa using h
        by_cases hId :
            c.isValid (c.parseIdFromSeason (Job.discoveryEpisode cfg) html).imdbId = true
        · obtain ⟨tl, htl, -⟩ := hVal html error rs h' hId
          rw [htl]; rfl
        · have hId' : c.isValid
              (c.parseIdFromSeason (Job.discoveryEpisode cfg) html).imdbId = false := by
            simpa using hId
          rw [hInv html error rs h' hId']; rfl
  · cases replies with
    | nil => rw [Job.run_nil, hs]; rfl
    | cons r rs =>
      obtain ⟨html, error⟩ := r
      by_cases h : error.hasError = true
      · rw [hErr html error rs h]; rfl
      · have h' : error.hasError = false := by simpa using h
        by_cases hId :
            c.isValid (c.parseIdFromSeason (Job.discoveryEpisode cfg) html).imdbId = true
        · obtain ⟨tl, htl, hfetch⟩ := hVal html error rs h' hId
          rw [htl, List.filter_append, hfilt _ tl hfetch hS]; rfl
        · have hId' : c.isValid
              (c.parseIdFromSeason (Job.discoveryEpisode cfg) html).imdbId = false := by
            simpa using hId
          rw [hInv html error rs h' hId']; rfl
  · intro hne
    cases replies with
    | nil => rw [Job.run_nil, hs] at hne; exact absurd rfl hne
    | cons r rs =>
      obtain ⟨html, error⟩ := r
      by_cases h : error.hasError = true
      · rw [hErr html error rs h] at hne; exact absurd rfl hne
      · have h' : error.hasError = false := by simpa using h
        by_cases hId :
            c.isValid (c.parseIdFromSeason (Job.discoveryEpisode cfg) html).imdbId = true
        · exact ⟨html, error, rs, rfl, h', hId⟩
        · have hId' : c.isValid
              (c.parseIdFromSeason (Job.discoveryEpisode cfg) html).imdbId = false := by
            simpa using hId
          rw [hInv html error rs h' hId'] at hne; exact absurd rfl hne
  · intro html error rest hre h hId
    subst hre
    obtain ⟨tl, htl, hfetch⟩ := hVal html error rest h hId
    rw [htl, List.filter_append, hfilt _ tl hfetch hT]; rfl
  · intro html error rest hre h hId
    subst hre
    rw [hInv html error rest h hId]
    exact ⟨rfl, rfl, by simp, rfl⟩
  · intro html error rest hre h
    subst hre
    rw [hErr html error rest h]
    exact ⟨rfl, rfl, by simp, rfl⟩

theorem discovery_first_then_detail_only_on_valid_id_witness :
    discoveryConfig.identifier.hasEpisodeIdentifier = false ∧
      sampleCollaborators.isValid ⟨discoveryConfig.identifier.showIdentifier⟩ = true ∧
      (Job.run sampleCollaborators 7 discoveryConfig
        [("tt0701142", ScraperError.empty), ("<html>page</html>", ScraperError.empty)]).1.trace.head? =
        some (Event.loadSeason discoveryConfig.locale
          ⟨discoveryConfig.identifier.showIdentifier⟩ discoveryConfig.identifier.seasonNumber) :=
  ⟨by decide, by decide,
    (discovery_first_then_detail_only_on_valid_id sampleCollaborators 7 discoveryConfig
      [("tt0701142", ScraperError.empty), ("<html>page</html>", ScraperError.empty)]
      (by decide) (by decide)).2.1⟩

/-- C3 (as stated) fails on the discovery fetch: when `loadSeason` is answered
with an empty body and no transport error, the job terminates with ConfigError,
not with NetworkError. -/
theorem discovery_empty_body_is_ConfigError :
    ("" : String).isEmpty = true ∧ ScraperError.empty.hasError = false ∧
      (Job.run sampleCollaborators 7 discoveryConfig [("", ScraperError.empty)]).2 =
        Pending.idle ∧
      (Job.run sampleCollaborators 7 discoveryConfig [("", ScraperError.empty)]).1.trace =
        [Event.loadSeason "en" ⟨"tt0096697"⟩ 4, Event.parseIdFromSeason "",
          Event.sigFinished 7 ⟨ScraperErrorType.ConfigError,
            "IMDb ID could not be loaded from season page! Cannot load requested episode."⟩] ∧
      (Job.run sampleCollaborators 7 discoveryConfig [("", ScraperError.empty)]).1.m_error.error ≠
        ScraperErrorType.NetworkError := by
  decide

/-- C3 (amended): when the detail fetch `loadTitle` is answered with an empty
body and no transport error, the job terminates with NetworkError: the error is
set, `sigFinished` is emitted with it, the parser is not called and nothing is
left pending.  When the discovery fetch `loadSeason` is answered with an empty
body and no transport error, the body is handed to `parseIdFromSeason`; the job
terminates with ConfigError if that leaves no valid episode ID, and otherwise
issues the detail fetch. -/
theorem empty_body_detail_NetworkError_discovery_by_id (c : ImdbCollaborators) (j : Job)
    (html : String) (error : ScraperError)
    (hNoErr : error.hasError = false) (hEmpty : html.isEmpty = true) :
    ((Job.deliver c (j, Pending.titleCallback) (html, error)).2 = Pending.idle ∧
        (Job.deliver c (j, Pending.titleCallback) (html, error)).1.m_error.error =
          ScraperErrorType.NetworkError ∧
        (Job.deliver c (j, Pending.titleCallback) (html, error)).1.trace =
          j.trace ++ [Event.sigFinished j.objectId
            (Job.deliver c (j, Pending.titleCallback) (html, error)).1.m_error]) ∧
      (c.isValid (c.parseIdFromSeason j.episode html).imdbId = false →
        (Job.deliver c (j, Pending.seasonCallback) (html, error)).2 = Pending.idle ∧
          (Job.deliver c (j, Pending.seasonCallback) (html, error)).1.m_error.error =
            ScraperErrorType.ConfigError ∧
          (Job.deliver c (j, Pending.seasonCallback) (html, error)).1.trace =
            j.trace ++ [Event.parseIdFromSeason html, Event.sigFinished j.objectId
              (Job.deliver c (j, Pending.seasonCallback) (html, error)).1.m_error]) ∧
      (c.isValid (c.parseIdFromSeason j.episode html).imdbId = true →
        (Job.deliver c (j, Pending.seasonCallback) (html, error)).2 = Pending.titleCallback ∧
          (Job.deliver c (j, Pending.seasonCallback) (html, error)).1.trace =
            j.trace ++ [Event.parseIdFromSeason html,
              Event.loadTitle j.config.locale (c.parseIdFromSeason j.episode html).imdbId]) := by
  refine ⟨?_, ?_, ?_⟩
  · simp [Job.deliver, Job.onLoadTitle_empty c j html error hNoErr hEmpty]
  · intro hId
    simp [Job.deliver, Job.onLoadSeason_invalid c j html error hNoErr hId]
  · intro hId
    simp [Job.deliver, Job.onLoadSeason_valid c j html error hNoErr hId]

theorem empty_body_detail_NetworkError_discovery_by_id_witness :
    ScraperError.empty.hasError = false ∧ ("" : String).isEmpty = true ∧
      (Job.deliver sampleCollaborators
        ((Job.start sampleCollaborators (Job.create 7 directConfig)).1, Pending.titleCallback)
        ("", ScraperError.empty)).1.m_error.error = ScraperErrorType.NetworkError :=
  ⟨by decide, by decide,
    (empty_body_detail_NetworkError_discovery_by_id sampleCollaborators
      (Job.start sampleCollaborators (Job.create 7 directConfig)).1 "" ScraperError.empty
      (by decide) (by decide)).1.2.1⟩

/-- C4: when the episode identifier is present but not a valid IMDb ID, or when
there is no episode identifier and the show ID is not valid, `start()` itself
terminates the job: nothing is left pending, the error kind is ConfigError, and
the only action of the whole run is the emission of `sigFinished`, so neither
`loadSeason` nor `loadTitle` is called. -/
theorem start_invalid_identifier_ConfigError_without_fetch (c : ImdbCollaborators) (oid : Nat)
    (cfg : Config) (replies : List (String × ScraperError))
    (hBad : (cfg.identifier.hasEpisodeIdentifier = true ∧
          c.isValid ⟨cfg.identifier.episodeIdentifier⟩ = false) ∨
        (cfg.identifier.hasEpisodeIdentifier = false ∧
          c.isValid ⟨cfg.identifier.showIdentifier⟩ = false)) :
    (Job.start c (Job.create oid cfg)).2 = Pending.idle ∧
      (Job.start c (Job.create oid cfg)).1.m_error.error = ScraperErrorType.ConfigError ∧
      (Job.start c (Job.create oid cfg)).1.trace =
        [Event.sigFinished oid (Job.start c (Job.create oid cfg)).1.m_error] ∧
      (Job.start c (Job.create oid cfg)).1.trace.filter Event.isFetch = [] ∧
      Job.run c oid cfg replies = Job.start c (Job.create oid cfg) := by
  obtain ⟨msg, hs⟩ := Job.start_invalid c oid cfg hBad
  refine ⟨by rw [hs], by rw [hs], by rw [hs], by rw [hs]; rfl, ?_⟩
  rw [Job.run, hs, Job.foldl_deliver_idle]

theorem start_invalid_identifier_ConfigError_without_fetch_witness :
    ((⟨⟨"tt0096697", 4, 2, "no-id"⟩, "en"⟩ : Config).identifier.hasEpisodeIdentifier = true ∧
        sampleCollaborators.isValid ⟨"no-id"⟩ = false) ∧
      (Job.start sampleCollaborators (Job.create 7 ⟨⟨"tt0096697", 4, 2, "no-id"⟩, "en"⟩)).1.trace =
        [Event.sigFinished 7
          (Job.start sampleCollaborators
            (Job.create 7 ⟨⟨"tt0096697", 4, 2, "no-id"⟩, "en"⟩)).1.m_error] :=
  ⟨by decide,
    (start_invalid_identifier_ConfigError_without_fetch sampleCollaborators 7
      ⟨⟨"tt0096697", 4, 2, "no-id"⟩, "en"⟩ [] (Or.inl (by decide))).2.2.1⟩

/-- C5: when the callback of the discovery fetch or of the detail fetch is
invoked with an error, the job terminates with exactly that error, kind and
message unchanged: the only action is the emission of `sigFinished` with the
error, so no fetch is issued and no parser is called, the episode is untouched,
nothing is left pending, and later answers change nothing.  The error a
transport reports is a NetworkError with the transport's message (for every
reply with an error that is what `makeScraperError` hands on), so the job
terminates with NetworkError and that message. -/
theorem transport_error_is_propagated_unchanged (c : ImdbCollaborators) (j : Job)
    (html : String) (error : ScraperError) (rest : List (String × ScraperError))
    (p : Pending) (hPending : p = Pending.seasonCallback ∨ p = Pending.titleCallback)
    (hErr : error.hasError = true) :
    (Job.deliver c (j, p) (html, error)).2 = Pending.idle ∧
      (Job.deliver c (j, p) (html, error)).1.m_error = error ∧
      (error.error = ScraperErrorType.NetworkError →
        (Job.deliver c (j, p) (html, error)).1.m_error.error = ScraperErrorType.NetworkError) ∧
      (Job.deliver c (j, p) (html, error)).1.trace =
        j.trace ++ [Event.sigFinished j.objectId error] ∧
      (Job.deliver c (j, p) (html, error)).1.episode = j.episode ∧
      rest.foldl (Job.deliver c) (Job.deliver c (j, p) (html, error)) =
        Job.deliver c (j, p) (html, error) ∧
      (∀ (data : String) (reply : QNetworkReply), reply.error ≠ 0 →
        Job.deliver c (j, p) (html, makeScraperError data reply) =
          (⟨j.objectId, j.config, ⟨ScraperErrorType.NetworkError, reply.errorString⟩,
            j.episode,
            j.trace ++ [Event.sigFinished j.objectId
              ⟨ScraperErrorType.NetworkError, reply.errorString⟩]⟩, Pending.idle)) := by
  have key : ∀ e : ScraperError, e.hasError = true → Job.deliver c (j, p) (html, e) =
      (⟨j.objectId, j.config, e, j.episode,
        j.trace ++ [Event.sigFinished j.objectId e]⟩, Pending.idle) := by
    intro e he
    rcases hPending with rfl | rfl
    · simp [Job.deliver, Job.onLoadSeason_error c j html e he]
    · simp [Job.deliver, Job.onLoadTitle_error c j html e he]
  refine ⟨?_, ?_, ?_, ?_, ?_, ?_, ?_⟩
  · rw [key error hErr]
  · rw [key error hErr]
  · intro h
    rw [key error hErr]
    exact h
  · rw [key error hErr]
  · rw [key error hErr]
  · rw [key error hErr]
    exact Job.foldl_deliver_idle c _ rest
  · intro data reply hreply
    have hmake : makeScraperError data reply =
        ⟨ScraperErrorType.NetworkError, reply.errorString⟩ := by
      simp [makeScraperError, hreply]
    rw [hmake]
    exact key _ rfl

theorem transport_error_is_propagated_unchanged_witness :
    (Pending.titleCallback = Pending.seasonCallback ∨
        Pending.titleCallback = Pending.titleCallback) ∧
      (⟨ScraperErrorType.NetworkError, "Connection refused"⟩ : ScraperError).hasError = true ∧
      (Job.deliver sampleCollaborators
        ((Job.start sampleCollaborators (Job.create 7 directConfig)).1, Pending.titleCallback)
        ("", ⟨ScraperErrorType.NetworkError, "Connection refused"⟩)).1.m_error =
        ⟨ScraperErrorType.NetworkError, "Connection refused"⟩ :=
  ⟨Or.inr rfl, by decide,
    (transport_error_is_propagated_unchanged sampleCollaborators
      (Job.start sampleCollaborators (Job.create 7 directConfig)).1 ""
      ⟨ScraperErrorType.NetworkError, "Connection refused"⟩ [] Pending.titleCallback
      (Or.inr rfl) (by decide)).2.1⟩

/-- Once the detail fetch is pending and nothing was emitted yet: as long as
it is unanswered no `sigFinished` is in the trace, and once it is answered the
trace ends in the one `sigFinished`, carrying the job and its error. -/
theorem Job.title_stage_finishes_once (c : ImdbCollaborators) (j : Job)
    (rest : List (String × ScraperError))
    (hj : ∀ e ∈ j.trace, e.isSigFinished = false) :
    (1 ≤ rest.length → (rest.foldl (Job.deliver c) (j, Pending.titleCallback)).2 =
        Pending.idle) ∧
      ((rest.foldl (Job.deliver c) (j, Pending.titleCallback)).2 = Pending.idle →
        ∃ pre : List Event,
          (rest.foldl (Job.deliver c) (j, Pending.titleCallback)).1.trace =
            pre ++ [Event.sigFinished j.objectId
              (rest.foldl (Job.deliver c) (j, Pending.titleCallback)).1.m_error] ∧
          ∀ e ∈ pre, e.isSigFinished = false) ∧
      ((rest.foldl (Job.deliver c) (j, Pending.titleCallback)).2 ≠ Pending.idle →
        ∀ e ∈ (rest.foldl (Job.deliver c) (j, Pending.titleCallback)).1.trace,
          e.isSigFinished = false) := by
  cases rest with
  | nil => simpa using hj
  | cons r rs =>
    have hfold : List.foldl (Job.deliver c) (j, Pending.titleCallback) (r :: rs) =
        (Job.onLoadTitle c j r.1 r.2, Pending.idle) := by
      simp only [List.foldl_cons, Job.deliver, Job.foldl_deliver_idle]
    rw [hfold]
    refine ⟨fun _ => rfl, fun _ => ?_, fun h => absurd rfl h⟩
    refine ⟨j.trace ++ (if r.2.hasError = false ∧ r.1.isEmpty = false then
      [Event.parseInfos r.1] else []), Job.onLoadTitle_trace c j r.1 r.2, ?_⟩
    intro e he
    rw [List.mem_append] at he
    rcases he with he | he
    · exact hj e he
    · split_ifs at he
      · simp at he; subst he; rfl
      · simp at he

/-- The shape of every run: while a callback is pending no `sigFinished` was
emitted; once nothing is pending the trace is some actions without
`sigFinished` followed by one `sigFinished` carrying the job and its error;
and two answers are always enough to reach that state. -/
theorem Job.run_finishes_once (c : ImdbCollaborators) (oid : Nat) (cfg : Config)
    (replies : List (String × ScraperError)) :
    (2 ≤ replies.length → (Job.run c oid cfg replies).2 = Pending.idle) ∧
      ((Job.run c oid cfg replies).2 = Pending.idle →
        ∃ pre : List Event,
          (Job.run c oid cfg replies).1.trace =
            pre ++ [Event.sigFinished oid (Job.run c oid cfg replies).1.m_error] ∧
          ∀ e ∈ pre, e.isSigFinished = false) ∧
      ((Job.run c oid cfg replies).2 ≠ Pending.idle →
        ∀ e ∈ (Job.run c oid cfg replies).1.trace, e.isSigFinished = false) := by
  have hdone : ∀ (kind : ScraperErrorType) (msg : String) (ep : TvShowEpisode)
      (pre : List Event), (∀ e ∈ pre, e.isSigFinished = false) →
      Job.run c oid cfg replies =
        (⟨oid, cfg, ⟨kind, msg⟩, ep, pre ++ [Event.sigFinished oid ⟨kind, msg⟩]⟩,
          Pending.idle) →
      ((2 ≤ replies.length → (Job.run c oid cfg replies).2 = Pending.idle) ∧
      ((Job.run c oid cfg replies).2 = Pending.idle →
        ∃ pre : List Event,
          (Job.run c oid cfg replies).1.trace =
            pre ++ [Event.sigFinished oid (Job.run c oid cfg replies).1.m_error] ∧
          ∀ e ∈ pre, e.isSigFinished = false) ∧
      ((Job.run c oid cfg replies).2 ≠ Pending.idle →
        ∀ e ∈ (Job.run c oid cfg replies).1.trace, e.isSigFinished = false)) := by
    intro kind msg ep pre hpre h
    rw [h]
    exact ⟨fun _ => rfl, fun _ => ⟨pre, rfl, hpre⟩, fun hne => absurd rfl hne⟩
  by_cases hHas : cfg.identifier.hasEpisodeIdentifier = true
  · by_cases hValid : c.isValid ⟨cfg.identifier.episodeIdentifier⟩ = true
    · have hs := Job.start_direct c oid cfg hHas hValid
      have ht := Job.title_stage_finishes_once c
        ⟨oid, cfg, ScraperError.empty, TvShowEpisode.fresh,
          [Event.loadTitle cfg.locale ⟨cfg.identifier.episodeIdentifier⟩]⟩ replies
        (by intro e he; simp at he; subst he; rfl)
      rw [Job.run, hs]
      exact ⟨fun h => ht.1 (by omega), ht.2.1, ht.2.2⟩
    · have hValid' : c.isValid ⟨cfg.identifier.episodeIdentifier⟩ = false := by
        simpa using hValid
      obtain ⟨msg, hs⟩ := Job.start_invalid c oid cfg (Or.inl ⟨hHas, hValid'⟩)
      exact hdone _ msg _ [] (by simp) (by rw [Job.run, hs, Job.foldl_deliver_idle]; rfl)
  · have hNo : cfg.identifier.hasEpisodeIdentifier = false := by simpa using hHas
    by_cases hShow : c.isValid ⟨cfg.identifier.showIdentifier⟩ = true
    · have hs := Job.start_discovery c oid cfg hNo hShow
      cases replies with
      | nil =>
        rw [Job.run_nil, hs]
        refine ⟨fun h => absurd h (by simp), fun h => absurd h (by simp), fun _ => ?_⟩
        intro e he
        simp at he; subst he; rfl
      | cons r rs =>
        obtain ⟨html, error⟩ := r
        have hrun : Job.run c oid cfg ((html, error) :: rs) =
            rs.foldl (Job.deliver c) (Job.onLoadSeason c
              ⟨oid, cfg, ScraperError.empty, Job.discoveryEpisode cfg,
                [Event.loadSeason cfg.locale ⟨cfg.identifier.showIdentifier⟩
                  cfg.identifier.seasonNumber]⟩ html error) := by
          simp [Job.run, hs, Job.deliver]
        by_cases h : error.hasError = true
        · obtain ⟨kind, msg⟩ := error
          refine hdone kind msg (Job.discoveryEpisode cfg) [Event.loadSeason cfg.locale
            ⟨cfg.identifier.showIdentifier⟩ cfg.identifier.seasonNumber] ?_ ?_
          · intro e he; simp at he; subst he; rfl
          · rw [hrun, Job.onLoadSeason_error c _ html _ h, Job.foldl_deliver_idle]
        · have h' : error.hasError = false := by simpa using h
          by_cases hId :
              c.isValid (c.parseIdFromSeason (Job.discoveryEpisode cfg) html).imdbId = true
          · have ht := Job.title_stage_finishes_once c
              ⟨oid, cfg, ScraperError.empty,
                c.parseIdFromSeason (Job.discoveryEpisode cfg) html,
                [Event.loadSeason cfg.locale ⟨cfg.identifier.showIdentifier⟩
                  cfg.identifier.seasonNumber] ++ [Event.parseIdFromSeason html] ++
                [Event.loadTitle cfg.locale
                  (c.parseIdFromSeason (Job.discoveryEpisode cfg) html).imdbId]⟩ rs
              (by intro e he; simp at he; rcases he with rfl | rfl | rfl <;> rfl)
            rw [hrun, Job.onLoadSeason_valid c _ html error h' hId]
            exact ⟨fun hlen => ht.1 (by simp at hlen; omega), ht.2.1, ht.2.2⟩
          · have hId' : c.isValid
                (c.parseIdFromSeason (Job.discoveryEpisode cfg) html).imdbId = false := by
              simpa using hId
            refine hdone ScraperErrorType.ConfigError
              "IMDb ID could not be loaded from season page! Cannot load requested episode."
              (c.parseIdFromSeason (Job.discoveryEpisode cfg) html)
              ([Event.loadSeason cfg.locale
              ⟨cfg.identifier.showIdentifier⟩ cfg.identifier.seasonNumber] ++
                [Event.parseIdFromSeason html]) ?_ ?_
            · intro e he; simp at he; rcases he with rfl | rfl <;> rfl
            · rw [hrun, Job.onLoadSeason_invalid c _ html error h' hId',
                Job.foldl_deliver_idle]
    · have hShow' : c.isValid ⟨cfg.identifier.showIdentifier⟩ = false := by
        simpa using hShow
      obtain ⟨msg, hs⟩ := Job.start_invalid c oid cfg (Or.inr ⟨hNo, hShow'⟩)
      exact hdone _ msg _ [] (by simp) (by rw [Job.run, hs, Job.foldl_deliver_idle]; rfl)

/-- C6: `start()` is called once and the API invokes each callback it was given
once.  As soon as no callback is pending, and after two answers at the latest,
`sigFinished` was emitted exactly once, it carries the job itself (and the
job's error state), and it is the last action of the run, so no fetch follows
it.  While a callback is still pending it was not emitted at all. -/
theorem sigFinished_emitted_exactly_once (c : ImdbCollaborators) (oid : Nat) (cfg : Config)
    (replies : List (String × ScraperError)) :
    (2 ≤ replies.length → (Job.run c oid cfg replies).2 = Pending.idle) ∧
      ((Job.run c oid cfg replies).2 = Pending.idle →
        (Job.run c oid cfg replies).1.trace.filter Event.isSigFinished =
            [Event.sigFinished oid (Job.run c oid cfg replies).1.m_error] ∧
          (Job.run c oid cfg replies).1.trace.getLast? =
            some (Event.sigFinished oid (Job.run c oid cfg replies).1.m_error)) ∧
      ((Job.run c oid cfg replies).2 ≠ Pending.idle →
        (Job.run c oid cfg replies).1.trace.filter Event.isSigFinished = []) := by
  obtain ⟨h1, h2, h3⟩ := Job.run_finishes_once c oid cfg replies
  refine ⟨h1, fun hidle => ?_, fun hne => ?_⟩
  · obtain ⟨pre, htrace, hpre⟩ := h2 hidle
    have hnil : pre.filter Event.isSigFinished = [] := by
      rw [List.filter_eq_nil_iff]
      intro e he
      simp [hpre e he]
    constructor
    · rw [htrace, List.filter_append, hnil]; rfl
    · rw [htrace]; simp
  · rw [List.filter_eq_nil_iff]
    intro e he
    simp [h3 hne e he]

theorem sigFinished_emitted_exactly_once_witness :
    (2 ≤ [("tt0701142", ScraperError.empty),
          ("<html>page</html>", ScraperError.empty)].length) ∧
      (Job.run sampleCollaborators 7 discoveryConfig
        [("tt0701142", ScraperError.empty), ("<html>page</html>", ScraperError.empty)]).2 =
        Pending.idle ∧
      (Job.run sampleCollaborators 7 discoveryConfig
        [("tt0701142", ScraperError.empty),
          ("<html>page</html>", ScraperError.empty)]).1.trace.filter Event.isSigFinished =
        [Event.sigFinished 7 (Job.run sampleCollaborators 7 discoveryConfig
          [("tt0701142", ScraperError.empty),
            ("<html>page</html>", ScraperError.empty)]).1.m_error] :=
  ⟨by decide,
    (sigFinished_emitted_exactly_once sampleCollaborators 7 discoveryConfig
      [("tt0701142", ScraperError.empty), ("<html>page</html>", ScraperError.empty)]).1
      (by decide),
    ((sigFinished_emitted_exactly_once sampleCollaborators 7 discoveryConfig
      [("tt0701142", ScraperError.empty), ("<html>page</html>", ScraperError.empty)]).2.1
      (by decide)).1⟩

/-! ## Theorems: MusicBrainz parse and assign -/

/-- The title block either leaves every album as it is, or the title was
requested and it stores the same text in every album. -/
theorem assignAlbumTitle_eq (domDoc : QDomDocument) (infos : List MusicScraperInfo) :
    (∀ album : Album, assignAlbumTitle domDoc album infos = album) ∨
      (MusicScraperInfo.Title ∈ infos ∧
        ∀ album : Album, assignAlbumTitle domDoc album infos =
          { album with
            title := (nodeAt (domDoc.elementsByTagName "title") 0).text
            hasChanged := true }) := by
  unfold assignAlbumTitle shouldLoad Album.setTitle
  by_cases h : MusicScraperInfo.Title ∈ infos
  · by_cases h2 : (domDoc.elementsByTagName "title").isEmpty = true
    · left; intro album; simp [h2]
    · right; exact ⟨h, fun album => by simp [h, h2]⟩
  · left; intro album; simp [h]

/-- The artist block either leaves every album as it is, or the artist was
requested and it stores the same text in every album. -/
theorem assignAlbumArtist_eq (domDoc : QDomDocument) (infos : List MusicScraperInfo) :
    (∀ album : Album, assignAlbumArtist domDoc album infos = album) ∨
      (MusicScraperInfo.Artist ∈ infos ∧
        ∀ album : Album, assignAlbumArtist domDoc album infos =
          { album with
            artist := ((nodeAt (domDoc.elementsByTagName "artist-credit") 0).elementsByTagName
              "name-credit").foldl artistCreditStep ""
            hasChanged := true }) := by
  unfold assignAlbumArtist shouldLoad Album.setArtist
  by_cases h : MusicScraperInfo.Artist ∈ infos
  · by_cases h2 : (domDoc.elementsByTagName "artist-credit").isEmpty = true
    · left; intro album; simp [h2]
    · by_cases h3 : (((nodeAt (domDoc.elementsByTagName "artist-credit") 0).elementsByTagName
          "name-credit").foldl artistCreditStep "").isEmpty = true
      · left; intro album; simp [h3]
      · right; exact ⟨h, fun album => by simp [h, h2, h3]⟩
  · left; intro album; simp [h]

/-- The label block either leaves every album as it is, or the label was
requested and it stores the same text in every album. -/
theorem assignAlbumLabel_eq (domDoc : QDomDocument) (infos : List MusicScraperInfo) :
    (∀ album : Album, assignAlbumLabel domDoc album infos = album) ∨
      (MusicScraperInfo.Label ∈ infos ∧
        ∀ album : Album, assignAlbumLabel domDoc album infos =
          { album with
            label := ", ".intercalate
              (((nodeAt (domDoc.elementsByTagName "label-info-list") 0).elementsByTagName
                "label-info").foldl labelInfoStep [])
            hasChanged := true }) := by
  unfold assignAlbumLabel shouldLoad Album.setLabel
  by_cases h : MusicScraperInfo.Label ∈ infos
  · by_cases h2 : (domDoc.elementsByTagName "label-info-list").isEmpty = true
    · left; intro album; simp [h2]
    · by_cases h3 : (((nodeAt (domDoc.elementsByTagName "label-info-list") 0).elementsByTagName
          "label-info").foldl labelInfoStep []).isEmpty = true
      · left; intro album; simp [h3]
      · right; exact ⟨h, fun album => by simp [h, h2, h3]⟩
  · left; intro album; simp [h]

/-- The release-date block either leaves every album as it is, or the release
date was requested and it stores the same text in every album. -/
theorem assignAlbumReleaseDate_eq (domDoc : QDomDocument) (infos : List MusicScraperInfo) :
    (∀ album : Album, assignAlbumReleaseDate domDoc album infos = album) ∨
      (MusicScraperInfo.ReleaseDate ∈ infos ∧
        ∀ album : Album, assignAlbumReleaseDate domDoc album infos =
          { album with
            releaseDate := (nodeAt ((nodeAt
              ((nodeAt (domDoc.elementsByTagName "release-event-list") 0).elementsByTagName
                "release-event") 0).elementsByTagName "date") 0).text
            hasChanged := true }) := by
  unfold assignAlbumReleaseDate shouldLoad Album.setReleaseDate
  by_cases h : MusicScraperInfo.ReleaseDate ∈ infos
  · by_cases h2 : (domDoc.elementsByTagName "release-event-list").isEmpty = true
    · left; intro album; simp [h2]
    · by_cases h3 : (!((nodeAt (domDoc.elementsByTagName "release-event-list")
          0).elementsByTagName "release-event").isEmpty && !((nodeAt
            ((nodeAt (domDoc.elementsByTagName "release-event-list") 0).elementsByTagName
              "release-event") 0).elementsByTagName "date").isEmpty) = true
      · right; exact ⟨h, fun album => by simp only [h3]; simp [h, h2]⟩
      · left; intro album; simp only [h3]; simp
  · left; intro album; simp [h]

/-- The artist call either leaves every artist as it is, or the biography was
requested and it stores the same text in every artist. -/
theorem parseAndAssignArtist_eq (lib : TextLibrary) (data : String)
    (infos : List MusicScraperInfo) :
    (∀ artist : Artist, parseAndAssignArtist lib data artist infos = artist) ∨
      (MusicScraperInfo.Biography ∈ infos ∧ ∃ biography : String,
        ∀ artist : Artist, parseAndAssignArtist lib data artist infos =
          { artist with biography := biography, hasChanged := true }) := by
  unfold parseAndAssignArtist shouldLoad Artist.setBiography
  by_cases h0 : data.isEmpty = true
  · left; intro artist; simp [h0]
  by_cases h : MusicScraperInfo.Biography ∈ infos
  · cases hj : lib.fromJson data with
    | none => left; intro artist; simp
    | some json =>
      by_cases h3 : (jsonMember (jsonMember json.toObject "wikipediaExtract").toObject
          "content").toString.isEmpty = true
      · left; intro artist; simp [h3]
      · right
        exact ⟨h, lib.removeHtmlEntities (jsonMember (jsonMember json.toObject
          "wikipediaExtract").toObject "content").toString,
          fun artist => by simp [h0, h, h3]⟩
  · left; intro artist; simp [h]

/-- C7: `parseAndAssignAlbum` changes the title, artist, label or release date
of the album only if Title, Artist, Label or ReleaseDate, respectively, is in
`infos`, and `parseAndAssignArtist` changes the biography only if Biography is
in `infos`; `shouldLoad` is membership in `infos`. -/
theorem parse_and_assign_changes_only_requested_fields (lib : TextLibrary) (xml data : String)
    (album : Album) (artist : Artist) (infos : List MusicScraperInfo) :
    ((parseAndAssignAlbum lib xml album infos).title ≠ album.title →
        MusicScraperInfo.Title ∈ infos) ∧
      ((parseAndAssignAlbum lib xml album infos).artist ≠ album.artist →
        MusicScraperInfo.Artist ∈ infos) ∧
      ((parseAndAssignAlbum lib xml album infos).label ≠ album.label →
        MusicScraperInfo.Label ∈ infos) ∧
      ((parseAndAssignAlbum lib xml album infos).releaseDate ≠ album.releaseDate →
        MusicScraperInfo.ReleaseDate ∈ infos) ∧
      ((parseAndAssignArtist lib data artist infos).biography ≠ artist.biography →
        MusicScraperInfo.Biography ∈ infos) ∧
      (∀ field : MusicScraperInfo,
        (shouldLoad field infos album = true ↔ field ∈ infos) ∧
        (shouldLoad field infos artist = true ↔ field ∈ infos)) := by
  refine ⟨?_, ?_, ?_, ?_, ?_, fun field => by simp [shouldLoad]⟩
  · intro hne
    by_contra hn
    apply hne
    unfold parseAndAssignAlbum
    rcases assignAlbumTitle_eq (lib.setContent xml) infos with h1 | ⟨h1, -⟩
    · rcases assignAlbumArtist_eq (lib.setContent xml) infos with h2 | ⟨-, h2⟩ <;>
      rcases assignAlbumLabel_eq (lib.setContent xml) infos with h3 | ⟨-, h3⟩ <;>
      rcases assignAlbumReleaseDate_eq (lib.setContent xml) infos with h4 | ⟨-, h4⟩ <;>
      simp only [h1, h2, h3, h4]
    · exact absurd h1 hn
  · intro hne
    by_contra hn
    apply hne
    unfold parseAndAssignAlbum
    rcases assignAlbumArtist_eq (lib.setContent xml) infos with h2 | ⟨h2, -⟩
    · rcases assignAlbumTitle_eq (lib.setContent xml) infos with h1 | ⟨-, h1⟩ <;>
      rcases assignAlbumLabel_eq (lib.setContent xml) infos with h3 | ⟨-, h3⟩ <;>
      rcases assignAlbumReleaseDate_eq (lib.setContent xml) infos with h4 | ⟨-, h4⟩ <;>
      simp only [h1, h2, h3, h4]
    · exact absurd h2 hn
  · intro hne
    by_contra hn
    apply hne
    unfold parseAndAssignAlbum
    rcases assignAlbumLabel_eq (lib.setContent xml) infos with h3 | ⟨h3, -⟩
    · rcases assignAlbumTitle_eq (lib.setContent xml) infos with h1 | ⟨-, h1⟩ <;>
      rcases assignAlbumArtist_eq (lib.setContent xml) infos with h2 | ⟨-, h2⟩ <;>
      rcases assignAlbumReleaseDate_eq (lib.setContent xml) infos with h4 | ⟨-, h4⟩ <;>
      simp only [h1, h2, h3, h4]
    · exact absurd h3 hn
  · intro hne
    by_contra hn
    apply hne
    unfold parseAndAssignAlbum
    rcases assignAlbumReleaseDate_eq (lib.setContent xml) infos with h4 | ⟨h4, -⟩
    · rcases assignAlbumTitle_eq (lib.setContent xml) infos with h1 | ⟨-, h1⟩ <;>
      rcases assignAlbumArtist_eq (lib.setContent xml) infos with h2 | ⟨-, h2⟩ <;>
      rcases assignAlbumLabel_eq (lib.setContent xml) infos with h3 | ⟨-, h3⟩ <;>
      simp only [h1, h2, h3, h4]
    · exact absurd h4 hn
  · intro hne
    rcases parseAndAssignArtist_eq lib data infos with h | ⟨h, -⟩
    · exact absurd (by rw [h artist]) hne
    · exact h

/-- C8: applying `parseAndAssignAlbum` a second time with the same response and
the same fields gives the album the first application gave, and likewise for
`parseAndAssignArtist`. -/
theorem parse_and_assign_twice_is_once (lib : TextLibrary) (xml data : String)
    (album : Album) (artist : Artist) (infos : List MusicScraperInfo) :
    parseAndAssignAlbum lib xml (parseAndAssignAlbum lib xml album infos) infos =
        parseAndAssignAlbum lib xml album infos ∧
      parseAndAssignArtist lib data (parseAndAssignArtist lib data artist infos) infos =
        parseAndAssignArtist lib data artist infos := by
  constructor
  · unfold parseAndAssignAlbum
    rcases assignAlbumTitle_eq (lib.setContent xml) infos with h1 | ⟨-, h1⟩ <;>
    rcases assignAlbumArtist_eq (lib.setContent xml) infos with h2 | ⟨-, h2⟩ <;>
    rcases assignAlbumLabel_eq (lib.setContent xml) infos with h3 | ⟨-, h3⟩ <;>
    rcases assignAlbumReleaseDate_eq (lib.setContent xml) infos with h4 | ⟨-, h4⟩ <;>
    simp only [h1, h2, h3, h4]
  · rcases parseAndAssignArtist_eq lib data infos with h | ⟨-, b, h⟩
    · rw [h, h]
    · rw [h, h]

set_option maxRecDepth 8000 in
theorem parse_and_assign_changes_only_requested_fields_witness :
    (parseAndAssignAlbum sampleLibrary sampleReleaseXml sampleAlbum
        [MusicScraperInfo.Title]).title ≠ sampleAlbum.title ∧
      MusicScraperInfo.Title ∈ [MusicScraperInfo.Title] :=
  ⟨by decide,
    (parse_and_assign_changes_only_requested_fields sampleLibrary sampleReleaseXml
      sampleArtistJson sampleAlbum sampleArtist [MusicScraperInfo.Title]).1 (by decide)⟩

/-! ## Theorems: MusicBrainzApi -/

theorem MusicBrainzApi.request_hit (api : MusicBrainzApi) (locale : Locale) (url : QUrl)
    (reply : QNetworkReply) (h : api.m_cache.hasValidElement url locale = true) :
    api.request locale url reply =
      ⟨api.m_cache, api.log ++ [ApiEvent.singleShot (api.m_cache.getElement url locale),
        ApiEvent.callback (api.m_cache.getElement url locale) ScraperError.empty]⟩ := by
  simp [MusicBrainzApi.request, MusicBrainzApi.sendGetRequest, MusicBrainzApi.resume,
    MusicBrainzApi.onTimer, h]

theorem MusicBrainzApi.request_miss (api : MusicBrainzApi) (locale : Locale) (url : QUrl)
    (reply : QNetworkReply) (h : api.m_cache.hasValidElement url locale = false) :
    api.request locale url reply =
      MusicBrainzApi.onReplyFinished
        ⟨api.m_cache, api.log ++ [ApiEvent.networkGet (requestWithDefaults url)]⟩ locale
        reply := by
  simp [MusicBrainzApi.request, MusicBrainzApi.sendGetRequest, MusicBrainzApi.resume, h]

theorem MusicBrainzApi.onReplyFinished_failed (api : MusicBrainzApi) (locale : Locale)
    (reply : QNetworkReply) (h : reply.error ≠ 0 ∨ reply.body.isEmpty = true) :
    api.onReplyFinished locale reply =
      ⟨api.m_cache, api.log ++
        [ApiEvent.callback "" (makeScraperError "" reply)]⟩ := by
  unfold MusicBrainzApi.onReplyFinished
  by_cases he : reply.error = 0
  · have hb : reply.body.isEmpty = true := h.resolve_left (fun hne => hne he)
    have hb2 : reply.body = "" := by
      have := hb
      rw [String.isEmpty_iff] at this
      exact this
    have hE : ("" : String).isEmpty = true := by decide
    simp [he, hb2, hE]
  · have hE : ("" : String).isEmpty = true := by decide
    simp [he, hE]

theorem MusicBrainzApi.onReplyFinished_stored (api : MusicBrainzApi) (locale : Locale)
    (reply : QNetworkReply) (he : reply.error = 0) (hb : reply.body.isEmpty = false) :
    api.onReplyFinished locale reply =
      ⟨api.m_cache.addElement reply.url locale reply.body, api.log ++
        [ApiEvent.callback reply.body ScraperError.empty]⟩ := by
  simp [MusicBrainzApi.onReplyFinished, makeScraperError, he, hb]

/-- C9: `sendGetRequest` and its continuation add to the cache only on a
successful fetch with a non-empty body.  If the reply has a transport error or
an empty body the cache is unchanged; a request answered from the cache leaves
the cache unchanged; the call itself, before any answer, leaves it unchanged;
and whenever the cache did change, the request was not answered from the
cache, the reply had no error and a non-empty body, and the change is the
`addElement` of that body. -/
theorem cache_entry_added_only_on_successful_nonempty_fetch (api : MusicBrainzApi)
    (locale : Locale) (url : QUrl) (reply : QNetworkReply) :
    ((reply.error ≠ 0 ∨ reply.body.isEmpty = true) →
        (api.onReplyFinished locale reply).m_cache = api.m_cache ∧
        (api.request locale url reply).m_cache = api.m_cache) ∧
      (api.m_cache.hasValidElement url locale = true →
        (api.request locale url reply).m_cache = api.m_cache) ∧
      (api.sendGetRequest locale url).1.m_cache = api.m_cache ∧
      ((api.request locale url reply).m_cache ≠ api.m_cache →
        api.m_cache.hasValidElement url locale = false ∧ reply.error = 0 ∧
        reply.body.isEmpty = false ∧
        (api.request locale url reply).m_cache =
          api.m_cache.addElement reply.url locale reply.body) := by
  have hfail : (reply.error ≠ 0 ∨ reply.body.isEmpty = true) →
      (api.request locale url reply).m_cache = api.m_cache := by
    intro h
    by_cases hv : api.m_cache.hasValidElement url locale = true
    · rw [MusicBrainzApi.request_hit api locale url reply hv]
    · have hv' : api.m_cache.hasValidElement url locale = false := by simpa using hv
      rw [MusicBrainzApi.request_miss api locale url reply hv',
        MusicBrainzApi.onReplyFinished_failed _ locale reply h]
  refine ⟨fun h => ⟨?_, hfail h⟩, ?_, ?_, ?_⟩
  · rw [MusicBrainzApi.onReplyFinished_failed api locale reply h]
  · intro hv
    rw [MusicBrainzApi.request_hit api locale url reply hv]
  · unfold MusicBrainzApi.sendGetRequest
    split_ifs <;> rfl
  · intro hne
    by_cases hv : api.m_cache.hasValidElement url locale = true
    · exact absurd (by rw [MusicBrainzApi.request_hit api locale url reply hv]) hne
    · have hv' : api.m_cache.hasValidElement url locale = false := by simpa using hv
      by_cases he : reply.error = 0
      · by_cases hb : reply.body.isEmpty = true
        · exact absurd (hfail (Or.inr hb)) hne
        · have hb' : reply.body.isEmpty = false := by simpa using hb
          refine ⟨hv', he, hb', ?_⟩
          rw [MusicBrainzApi.request_miss api locale url reply hv',
            MusicBrainzApi.onReplyFinished_stored _ locale reply he hb']
      · exact absurd (hfail (Or.inl he)) hne

theorem cache_entry_added_only_on_successful_nonempty_fetch_witness :
    ((⟨203, "Host not found", ⟨"https://musicbrainz.org/ws/2/release/2"⟩, ""⟩ :
          QNetworkReply).error ≠ 0 ∨
        (⟨203, "Host not found", ⟨"https://musicbrainz.org/ws/2/release/2"⟩, ""⟩ :
          QNetworkReply).body.isEmpty = true) ∧
      (sampleApi.request ⟨"en"⟩ ⟨"https://musicbrainz.org/ws/2/release/2"⟩
        ⟨203, "Host not found", ⟨"https://musicbrainz.org/ws/2/release/2"⟩, ""⟩).m_cache =
        sampleApi.m_cache :=
  ⟨Or.inl (by decide),
    ((cache_entry_added_only_on_successful_nonempty_fetch sampleApi ⟨"en"⟩
      ⟨"https://musicbrainz.org/ws/2/release/2"⟩
      ⟨203, "Host not found", ⟨"https://musicbrainz.org/ws/2/release/2"⟩, ""⟩).1
      (Or.inl (by decide))).2⟩

/-- C10: `sendGetRequest` checks the cache first.  When the cache has a valid
element for (url, locale), no network request is issued: the only actions are
the arming of the zero-delay timer and, when it fires, one invocation of the
callback with the cached body and the empty `ScraperError`.  When it has none,
exactly one network request is issued, for that URL, and the callback is
invoked once when the reply has finished, after the body was stored in case
the fetch succeeded with a non-empty body. -/
theorem sendGetRequest_check_then_fetch_then_store (api : MusicBrainzApi) (locale : Locale)
    (url : QUrl) (reply : QNetworkReply) :
    (api.m_cache.hasValidElement url locale = true →
        (api.sendGetRequest locale url).1.log =
          api.log ++ [ApiEvent.singleShot (api.m_cache.getElement url locale)] ∧
        (api.sendGetRequest locale url).2 =
          ApiPending.timer (api.m_cache.getElement url locale) ∧
        (api.request locale url reply).log =
          api.log ++ [ApiEvent.singleShot (api.m_cache.getElement url locale),
            ApiEvent.callback (api.m_cache.getElement url locale) ScraperError.empty] ∧
        ScraperError.empty.hasError = false) ∧
      (api.m_cache.hasValidElement url locale = false →
        (api.sendGetRequest locale url).1.log =
          api.log ++ [ApiEvent.networkGet (requestWithDefaults url)] ∧
        (api.sendGetRequest locale url).2 = ApiPending.reply locale ∧
        (api.request locale url reply).log =
          api.log ++ [ApiEvent.networkGet (requestWithDefaults url),
            ApiEvent.callback (if reply.error = 0 then reply.body else "")
              (makeScraperError (if reply.error = 0 then reply.body else "") reply)] ∧
        (reply.error = 0 → reply.body.isEmpty = false →
          (api.request locale url reply).m_cache =
            api.m_cache.addElement reply.url locale reply.body)) := by
  constructor
  · intro hv
    rw [MusicBrainzApi.request_hit api locale url reply hv]
    simp [MusicBrainzApi.sendGetRequest, hv, ScraperError.hasError, ScraperError.empty]
  · intro hv
    rw [MusicBrainzApi.request_miss api locale url reply hv]
    refine ⟨by simp [MusicBrainzApi.sendGetRequest, hv],
      by simp [MusicBrainzApi.sendGetRequest, hv], ?_, ?_⟩
    · simp only [MusicBrainzApi.onReplyFinished, List.append_assoc, List.singleton_append]
    · intro he hb
      rw [MusicBrainzApi.onReplyFinished_stored _ locale reply he hb]

theorem sendGetRequest_check_then_fetch_then_store_witness :
    sampleApi.m_cache.hasValidElement ⟨"https://musicbrainz.org/ws/2/release/1"⟩ ⟨"en"⟩ = true ∧
      (sampleApi.request ⟨"en"⟩ ⟨"https://musicbrainz.org/ws/2/release/1"⟩
        ⟨0, "", ⟨"https://musicbrainz.org/ws/2/release/1"⟩, "<other/>"⟩).log =
        sampleApi.log ++
          [ApiEvent.singleShot
            (sampleApi.m_cache.getElement ⟨"https://musicbrainz.org/ws/2/release/1"⟩ ⟨"en"⟩),
          ApiEvent.callback
            (sampleApi.m_cache.getElement ⟨"https://musicbrainz.org/ws/2/release/1"⟩ ⟨"en"⟩)
            ScraperError.empty] :=
  ⟨by decide,
    ((sendGetRequest_check_then_fetch_then_store sampleApi ⟨"en"⟩
      ⟨"https://musicbrainz.org/ws/2/release/1"⟩
      ⟨0, "", ⟨"https://musicbrainz.org/ws/2/release/1"⟩, "<other/>"⟩).1 (by decide)).2.2.1⟩

theorem WebsiteCache.find_addElement_same (cache : WebsiteCache) (url : QUrl) (locale : Locale)
    (body : String) :
    (cache.addElement url locale body).find url locale = some ((url, locale), body) := by
  simp [WebsiteCache.find, WebsiteCache.addElement]

theorem WebsiteCache.find_addElement_other (cache : WebsiteCache) (url url2 : QUrl)
    (locale locale2 : Locale) (body : String) (h : (url2, locale2) ≠ (url, locale)) :
    (cache.addElement url locale body).find url2 locale2 = cache.find url2 locale2 := by
  have h1 : ¬ ((url, locale) = (url2, locale2)) := fun e => h e.symm
  simp only [WebsiteCache.find, WebsiteCache.addElement, List.find?_cons, h1, decide_False,
    List.find?_filter]
  congr 1
  funext e
  by_cases he : e.1 = (url2, locale2)
  · have hk : ¬ e.1 = (url, locale) := by rw [he]; exact h
    rw [decide_eq_true he, decide_eq_false hk]
    rfl
  · rw [decide_eq_false he]
    simp

/-- When the reply carries the requested URL, a successful non-empty body is
found again under the pair that was requested. -/
theorem MusicBrainzApi.request_stores_under_reply_url (api : MusicBrainzApi) (locale : Locale)
    (url : QUrl) (reply : QNetworkReply)
    (hv : api.m_cache.hasValidElement url locale = false) (he : reply.error = 0)
    (hb : reply.body.isEmpty = false) :
    (api.request locale url reply).m_cache.find reply.url locale =
        some ((reply.url, locale), reply.body) ∧
      (reply.url = url →
        (api.request locale url reply).m_cache.hasValidElement url locale = true ∧
        (api.request locale url reply).m_cache.getElement url locale = reply.body) ∧
      (reply.url ≠ url →
        (api.request locale url reply).m_cache.hasValidElement url locale = false) := by
  rw [MusicBrainzApi.request_miss api locale url reply hv,
    MusicBrainzApi.onReplyFinished_stored _ locale reply he hb]
  refine ⟨WebsiteCache.find_addElement_same _ _ _ _, ?_, ?_⟩
  · intro hu
    subst hu
    simp [WebsiteCache.hasValidElement, WebsiteCache.getElement,
      WebsiteCache.find_addElement_same]
  · intro hu
    have hne : (url, locale) ≠ (reply.url, locale) := by
      intro e
      exact hu (congrArg Prod.fst e).symm
    simp only [WebsiteCache.hasValidElement,
      WebsiteCache.find_addElement_other api.m_cache reply.url url locale locale reply.body hne]
    simpa [WebsiteCache.hasValidElement] using hv

/-- C11 fails on the code at a redirected reply: the first request for
(`en`, `mergedArtistUrl`) completes with no error and the non-empty body
`<artist/>`, but the handler stores the body under the reply's URL; the cache
then has no valid element for the requested pair, and the identical second
request issues a second network request instead of being served from the
cache. -/
theorem identical_request_after_redirect_is_fetched_again :
    freshApi.m_cache.hasValidElement mergedArtistUrl ⟨"en"⟩ = false ∧
      redirectedReply.error = 0 ∧ redirectedReply.body.isEmpty = false ∧
      (freshApi.request ⟨"en"⟩ mergedArtistUrl redirectedReply).m_cache.entries =
        [((redirectedReply.url, ⟨"en"⟩), "<artist/>")] ∧
      (freshApi.request ⟨"en"⟩ mergedArtistUrl redirectedReply).m_cache.hasValidElement
        mergedArtistUrl ⟨"en"⟩ = false ∧
      (((freshApi.request ⟨"en"⟩ mergedArtistUrl redirectedReply).request ⟨"en"⟩
        mergedArtistUrl redirectedReply).log.filter ApiEvent.isNetworkGet).length = 2 := by
  decide

theorem String.isEmpty_append_eq (s t : String) :
    (s ++ t).isEmpty = (s.isEmpty && t.isEmpty) := by
  rw [Bool.eq_iff_iff]
  simp only [String.isEmpty_iff, Bool.and_eq_true]
  constructor
  · intro h
    have hd : (s ++ t).data = [] := by rw [h]
    rw [String.data_append, List.append_eq_nil] at hd
    exact ⟨String.ext hd.1, String.ext hd.2⟩
  · rintro ⟨rfl, rfl⟩
    rfl

theorem String.foldl_append_start (start : String) (l : List String) :
    List.foldl (fun r s => r ++ s) start l = start ++ List.foldl (fun r s => r ++ s) "" l := by
  induction l generalizing start with
  | nil => simp
  | cons x xs ih =>
    rw [List.foldl_cons, List.foldl_cons, ih (start ++ x), ih ("" ++ x)]
    simp [String.append_assoc]

theorem String.join_cons_eq (x : String) (xs : List String) :
    String.join (x :: xs) = x ++ String.join xs := by
  unfold String.join
  rw [List.foldl_cons, String.foldl_append_start]
  simp

theorem artistCreditStep_eq (artist : String) (artistElem : QDomNode) :
    artistCreditStep artist artistElem =
      match creditArtistName artistElem with
      | none => artist
      | some name =>
        (if artist.isEmpty then artist else artist ++ creditSeparator artistElem) ++ name := by
  unfold artistCreditStep creditArtistName creditSeparator
  by_cases h1 : (artistElem.elementsByTagName "artist").isEmpty = true
  · simp [h1]
  · by_cases h2 : ((nodeAt (artistElem.elementsByTagName "artist") 0).elementsByTagName
        "name").isEmpty = true
    · simp [h1, h2]
    · by_cases h3 : artist.isEmpty = true <;> simp [h1, h2, h3]

theorem labelInfoStep_eq (labels : List String) (labelElem : QDomNode) :
    labelInfoStep labels labelElem =
      match labelInfoName labelElem with
      | none => labels
      | some name => labels ++ [name] := by
  unfold labelInfoStep labelInfoName
  by_cases h1 : (labelElem.elementsByTagName "label").isEmpty = true
  · simp [h1]
  · by_cases h2 : ((nodeAt (labelElem.elementsByTagName "label") 0).elementsByTagName
        "name").isEmpty = true
    · simp [h1, h2]
    · simp [h1, h2]

/-- The label loop collects the names of the label-infos that have one. -/
theorem foldl_labelInfoStep (labels : List String) (labelList : List QDomNode) :
    labelList.foldl labelInfoStep labels = labels ++ labelList.filterMap labelInfoName := by
  induction labelList generalizing labels with
  | nil => simp
  | cons e es ih =>
    rw [List.foldl_cons, ih, labelInfoStep_eq]
    cases h : labelInfoName e with
    | none => simp [List.filterMap_cons, h]
    | some name => simp [List.filterMap_cons, h]

/-- Once the string built so far is not empty, every further credit with a
name appends its separator and its name. -/
theorem foldl_artistCreditStep_nonempty (artist : String) (artistList : List QDomNode)
    (h : artist.isEmpty = false) :
    artistList.foldl artistCreditStep artist =
      artist ++ String.join ((contributingCredits artistList).map (fun c => c.1 ++ c.2)) := by
  induction artistList generalizing artist with
  | nil => simp [contributingCredits, String.join]
  | cons e es ih =>
    rw [List.foldl_cons, artistCreditStep_eq]
    cases hn : creditArtistName e with
    | none =>
      simp only []
      rw [ih artist h]
      simp [contributingCredits, List.filterMap_cons, hn]
    | some name =>
      simp only [h]
      have hne : ((artist ++ creditSeparator e) ++ name).isEmpty = false := by
        rw [String.isEmpty_append_eq, String.isEmpty_append_eq, h]
        rfl
      have hstep : (if false = true then artist else artist ++ creditSeparator e) ++ name =
          (artist ++ creditSeparator e) ++ name := by simp
      rw [hstep, ih _ hne]
      simp [contributingCredits, List.filterMap_cons, hn, String.join_cons_eq,
        String.append_assoc]

/-- The artist loop, started with the empty string: the credits whose names are
empty and that come before the first non-empty name leave the string empty;
from the first non-empty name on, the names are joined as in
`artistAsClaimed`. -/
theorem foldl_artistCreditStep_empty (artistList : List QDomNode) :
    artistList.foldl artistCreditStep "" =
      artistAsClaimed ((contributingCredits artistList).dropWhile (fun c => c.2.isEmpty)) := by
  induction artistList with
  | nil => rfl
  | cons e es ih =>
    rw [List.foldl_cons, artistCreditStep_eq]
    cases hn : creditArtistName e with
    | none =>
      simp only []
      rw [ih]
      simp [contributingCredits, List.filterMap_cons, hn]
    | some name =>
      have hE : ("" : String).isEmpty = true := by decide
      simp only [hE, if_true]
      have hc : contributingCredits (e :: es) =
          (creditSeparator e, name) :: contributingCredits es := by
        simp [contributingCredits, List.filterMap_cons, hn]
      rw [hc]
      by_cases hname : name.isEmpty = true
      · have hname2 : name = "" := by
          rw [String.isEmpty_iff] at hname
          exact hname
        subst hname2
        rw [List.dropWhile_cons_of_pos (by simpa using hE)]
        simpa using ih
      · have hname2 : name.isEmpty = false := by simpa using hname
        rw [List.dropWhile_cons_of_neg (by simpa using hname)]
        have hstart : ("" : String) ++ name = name := by simp
        rw [hstart, foldl_artistCreditStep_nonempty name es hname2]
        rfl

theorem parseAndAssignAlbum_title (lib : TextLibrary) (xml : String) (album : Album)
    (infos : List MusicScraperInfo) :
    (parseAndAssignAlbum lib xml album infos).title =
      (assignAlbumTitle (lib.setContent xml) album infos).title := by
  unfold parseAndAssignAlbum
  rcases assignAlbumArtist_eq (lib.setContent xml) infos with h2 | ⟨-, h2⟩ <;>
  rcases assignAlbumLabel_eq (lib.setContent xml) infos with h3 | ⟨-, h3⟩ <;>
  rcases assignAlbumReleaseDate_eq (lib.setContent xml) infos with h4 | ⟨-, h4⟩ <;>
  simp only [h2, h3, h4]

theorem parseAndAssignAlbum_artist (lib : TextLibrary) (xml : String) (album : Album)
    (infos : List MusicScraperInfo) :
    (parseAndAssignAlbum lib xml album infos).artist =
      (assignAlbumArtist (lib.setContent xml) album infos).artist := by
  unfold parseAndAssignAlbum
  rcases assignAlbumTitle_eq (lib.setContent xml) infos with h1 | ⟨-, h1⟩ <;>
  rcases assignAlbumArtist_eq (lib.setContent xml) infos with h2 | ⟨-, h2⟩ <;>
  rcases assignAlbumLabel_eq (lib.setContent xml) infos with h3 | ⟨-, h3⟩ <;>
  rcases assignAlbumReleaseDate_eq (lib.setContent xml) infos with h4 | ⟨-, h4⟩ <;>
  simp only [h1, h2, h3, h4]

theorem parseAndAssignAlbum_label (lib : TextLibrary) (xml : String) (album : Album)
    (infos : List MusicScraperInfo) :
    (parseAndAssignAlbum lib xml album infos).label =
      (assignAlbumLabel (lib.setContent xml) album infos).label := by
  unfold parseAndAssignAlbum
  rcases assignAlbumTitle_eq (lib.setContent xml) infos with h1 | ⟨-, h1⟩ <;>
  rcases assignAlbumArtist_eq (lib.setContent xml) infos with h2 | ⟨-, h2⟩ <;>
  rcases assignAlbumLabel_eq (lib.setContent xml) infos with h3 | ⟨-, h3⟩ <;>
  rcases assignAlbumReleaseDate_eq (lib.setContent xml) infos with h4 | ⟨-, h4⟩ <;>
  simp only [h1, h2, h3, h4]

theorem parseAndAssignAlbum_releaseDate (lib : TextLibrary) (xml : String) (album : Album)
    (infos : List MusicScraperInfo) :
    (parseAndAssignAlbum lib xml album infos).releaseDate =
      (assignAlbumReleaseDate (lib.setContent xml) album infos).releaseDate := by
  unfold parseAndAssignAlbum
  rcases assignAlbumTitle_eq (lib.setContent xml) infos with h1 | ⟨-, h1⟩ <;>
  rcases assignAlbumArtist_eq (lib.setContent xml) infos with h2 | ⟨-, h2⟩ <;>
  rcases assignAlbumLabel_eq (lib.setContent xml) infos with h3 | ⟨-, h3⟩ <;>
  rcases assignAlbumReleaseDate_eq (lib.setContent xml) infos with h4 | ⟨-, h4⟩ <;>
  simp only [h1, h2, h3, h4]

/-- The title block, by cases. -/
theorem assignAlbumTitle_title (domDoc : QDomDocument) (album : Album)
    (infos : List MusicScraperInfo) :
    (assignAlbumTitle domDoc album infos).title =
      if (infos.contains MusicScraperInfo.Title
          && !(domDoc.elementsByTagName "title").isEmpty) = true then
        (nodeAt (domDoc.elementsByTagName "title") 0).text
      else album.title := by
  unfold assignAlbumTitle shouldLoad Album.setTitle
  split_ifs <;> rfl

/-- The artist block, by cases. -/
theorem assignAlbumArtist_artist (domDoc : QDomDocument) (album : Album)
    (infos : List MusicScraperInfo) :
    (assignAlbumArtist domDoc album infos).artist =
      if (infos.contains MusicScraperInfo.Artist
          && !(domDoc.elementsByTagName "artist-credit").isEmpty
          && !((nameCreditsOf domDoc).foldl artistCreditStep "").isEmpty) = true then
        (nameCreditsOf domDoc).foldl artistCreditStep ""
      else album.artist := by
  unfold assignAlbumArtist shouldLoad Album.setArtist nameCreditsOf
  by_cases h : (infos.contains MusicScraperInfo.Artist
      && !(domDoc.elementsByTagName "artist-credit").isEmpty) = true
  · by_cases h3 : (((nodeAt (domDoc.elementsByTagName "artist-credit") 0).elementsByTagName
      "name-credit").foldl artistCreditStep "").isEmpty = true
    · simp only [h, h3]; simp
    · simp only [h, h3]; simp [h3]
  · simp only [h]; simp

/-- The label block, by cases. -/
theorem assignAlbumLabel_label (domDoc : QDomDocument) (album : Album)
    (infos : List MusicScraperInfo) :
    (assignAlbumLabel domDoc album infos).label =
      if (infos.contains MusicScraperInfo.Label
          && !(domDoc.elementsByTagName "label-info-list").isEmpty
          && !((labelInfosOf domDoc).filterMap labelInfoName).isEmpty) = true then
        ", ".intercalate ((labelInfosOf domDoc).filterMap labelInfoName)
      else album.label := by
  unfold assignAlbumLabel shouldLoad Album.setLabel labelInfosOf
  simp only [foldl_labelInfoStep, List.nil_append]
  by_cases h : (infos.contains MusicScraperInfo.Label
      && !(domDoc.elementsByTagName "label-info-list").isEmpty) = true
  · by_cases h3 : (((nodeAt (domDoc.elementsByTagName "label-info-list") 0).elementsByTagName
      "label-info").filterMap labelInfoName).isEmpty = true
    · simp only [h, h3]; simp
    · simp only [h, h3]; simp [h3]
  · simp only [h]; simp

/-- The release-date block, by cases. -/
theorem assignAlbumReleaseDate_releaseDate (domDoc : QDomDocument) (album : Album)
    (infos : List MusicScraperInfo) :
    (assignAlbumReleaseDate domDoc album infos).releaseDate =
      if (infos.contains MusicScraperInfo.ReleaseDate
          && !(domDoc.elementsByTagName "release-event-list").isEmpty
          && (!(releaseEventsOf domDoc).isEmpty
            && !((nodeAt (releaseEventsOf domDoc) 0).elementsByTagName "date").isEmpty)) = true then
        (nodeAt ((nodeAt (releaseEventsOf domDoc) 0).elementsByTagName "date") 0).text
      else album.releaseDate := by
  unfold assignAlbumReleaseDate shouldLoad Album.setReleaseDate releaseEventsOf
  by_cases h : (infos.contains MusicScraperInfo.ReleaseDate
      && !(domDoc.elementsByTagName "release-event-list").isEmpty) = true
  · by_cases h3 : (!((nodeAt (domDoc.elementsByTagName "release-event-list")
          0).elementsByTagName "release-event").isEmpty && !((nodeAt
            ((nodeAt (domDoc.elementsByTagName "release-event-list") 0).elementsByTagName
              "release-event") 0).elementsByTagName "date").isEmpty) = true
    · simp only [h, h3]; simp
    · simp only [h, h3]; simp
  · simp only [h]; simp

theorem filterMap_eq_nil_of_all_none {α β : Type} (f : α → Option β) (l : List α)
    (h : ∀ e ∈ l, f e = none) : l.filterMap f = [] := by
  induction l with
  | nil => rfl
  | cons x xs ih =>
    rw [List.filterMap_cons, h x (List.mem_cons_self x xs)]
    exact ih (fun e he => h e (List.mem_cons_of_mem x he))

/-- C13: the parsers leave a field as it was when the response lacks the
element the field is read from.  No `title` element: the title is unchanged.
No `artist-credit`, or no name-credit of the first one with an artist name: the
artist is unchanged.  No `label-info-list`, or no label-info of the first one
with a label name: the label is unchanged.  No `release-event-list`, no
`release-event` in the first one, or no `date` in the first release-event: the
release date is unchanged.  Empty data, data that is not valid JSON, or JSON
whose `wikipediaExtract.content` is missing or empty: the artist is unchanged.
All functions are total, so nothing is raised. -/
theorem parsers_leave_field_unchanged_when_element_missing (lib : TextLibrary)
    (xml data : String) (album : Album) (artist : Artist) (infos : List MusicScraperInfo) :
    (((lib.setContent xml).elementsByTagName "title").isEmpty = true →
        (parseAndAssignAlbum lib xml album infos).title = album.title) ∧
      ((((lib.setContent xml).elementsByTagName "artist-credit").isEmpty = true ∨
          ∀ e ∈ nameCreditsOf (lib.setContent xml), creditArtistName e = none) →
        (parseAndAssignAlbum lib xml album infos).artist = album.artist) ∧
      ((((lib.setContent xml).elementsByTagName "label-info-list").isEmpty = true ∨
          ∀ e ∈ labelInfosOf (lib.setContent xml), labelInfoName e = none) →
        (parseAndAssignAlbum lib xml album infos).label = album.label) ∧
      ((((lib.setContent xml).elementsByTagName "release-event-list").isEmpty = true ∨
          (releaseEventsOf (lib.setContent xml)).isEmpty = true ∨
          ((nodeAt (releaseEventsOf (lib.setContent xml)) 0).elementsByTagName
            "date").isEmpty = true) →
        (parseAndAssignAlbum lib xml album infos).releaseDate = album.releaseDate) ∧
      ((data.isEmpty = true ∨ lib.fromJson data = none ∨
          ∃ json, lib.fromJson data = some json ∧
            (jsonMember (jsonMember json.toObject "wikipediaExtract").toObject
              "content").toString.isEmpty = true) →
        parseAndAssignArtist lib data artist infos = artist) := by
  refine ⟨?_, ?_, ?_, ?_, ?_⟩
  · intro h
    rw [parseAndAssignAlbum_title, assignAlbumTitle_title]
    simp [h]
  · intro h
    rw [parseAndAssignAlbum_artist, assignAlbumArtist_artist]
    rcases h with h | h
    · simp [h]
    · have hnil : contributingCredits (nameCreditsOf (lib.setContent xml)) = [] := by
        unfold contributingCredits
        apply filterMap_eq_nil_of_all_none
        intro e he
        rw [h e he]
        rfl
      have hE : (List.foldl artistCreditStep "" (nameCreditsOf (lib.setContent xml))).isEmpty
          = true := by
        rw [foldl_artistCreditStep_empty, hnil]
        rfl
      simp [hE]
  · intro h
    rw [parseAndAssignAlbum_label, assignAlbumLabel_label]
    rcases h with h | h
    · simp [h]
    · rw [filterMap_eq_nil_of_all_none labelInfoName _ h]
      simp
  · intro h
    rw [parseAndAssignAlbum_releaseDate, assignAlbumReleaseDate_releaseDate]
    rcases h with h | h | h <;> simp [h]
  · intro h
    unfold parseAndAssignArtist
    rcases h with h | h | ⟨json, hj, h⟩
    · simp [h]
    · simp [h]
    · simp [hj, h]

theorem parsers_leave_field_unchanged_when_element_missing_witness :
    ((sampleLibrary.setContent "<metadata/>").elementsByTagName "title").isEmpty = true ∧
      (parseAndAssignAlbum sampleLibrary "<metadata/>" sampleAlbum
        [MusicScraperInfo.Title]).title = sampleAlbum.title :=
  ⟨by decide,
    (parsers_leave_field_unchanged_when_element_missing sampleLibrary "<metadata/>" ""
      sampleAlbum sampleArtist [MusicScraperInfo.Title]).1 (by decide)⟩

/-- A name-credit with an artist whose first `name` has a text that is not
empty is among the contributing credits, with that text. -/
theorem named_credit_contributes (artistList : List QDomNode) (e : QDomNode)
    (he : e ∈ artistList)
    (h1 : (e.elementsByTagName "artist").isEmpty = false)
    (h2 : ((nodeAt (e.elementsByTagName "artist") 0).elementsByTagName "name").isEmpty = false)
    (h3 : (nodeAt ((nodeAt (e.elementsByTagName "artist") 0).elementsByTagName
      "name") 0).text.isEmpty = false) :
    ∃ c, c ∈ contributingCredits artistList ∧ c.2.isEmpty = false := by
  refine ⟨(creditSeparator e, (nodeAt ((nodeAt (e.elementsByTagName "artist")
    0).elementsByTagName "name") 0).text), ?_, h3⟩
  unfold contributingCredits
  rw [List.mem_filterMap]
  refine ⟨e, he, ?_⟩
  simp [creditArtistName, h1, h2]

/-- From the first credit with a name that is not empty on, the string of the
claim is not empty. -/
theorem artistAsClaimed_dropWhile_nonempty :
    ∀ credits : List (String × String), (∃ c, c ∈ credits ∧ c.2.isEmpty = false) →
      (artistAsClaimed (credits.dropWhile (fun c => c.2.isEmpty))).isEmpty = false := by
  intro credits
  induction credits with
  | nil =>
    intro h
    obtain ⟨c, hc, _⟩ := h
    simp at hc
  | cons x xs ih =>
    intro h
    by_cases hx : x.2.isEmpty = true
    · rw [List.dropWhile_cons_of_pos (p := fun c : String × String => c.2.isEmpty) hx]
      apply ih
      obtain ⟨c, hc, hne⟩ := h
      rw [List.mem_cons] at hc
      rcases hc with rfl | hc
      · rw [hx] at hne
        exact absurd hne (by decide)
      · exact ⟨c, hc, hne⟩
    · rw [List.dropWhile_cons_of_neg (p := fun c : String × String => c.2.isEmpty) hx]
      have hx2 : x.2.isEmpty = false := by simpa using hx
      unfold artistAsClaimed
      rw [String.isEmpty_append_eq, hx2]
      rfl

/-- C16: when a field is requested and the response supplies it, the field
afterwards holds the parsed value, whatever the album held before: the title is
the text of the first `title` element in document order; the artist, when some
name-credit of the first `artist-credit` has an artist whose first `name` has a
text that is not empty, is the string of the names from the first non-empty one
on, each later name after the separator of its credit, and is not empty; the
label is the label names joined by a comma and a blank; the release date is the
text of the first `date` of the first release-event.  Hence two albums that
differ before the call agree on such a field after it. -/
theorem requested_and_supplied_field_is_overwritten (lib : TextLibrary) (xml : String)
    (album other : Album) (infos : List MusicScraperInfo) :
    (MusicScraperInfo.Title ∈ infos →
        ((lib.setContent xml).elementsByTagName "title").isEmpty = false →
        (∃ first rest, (lib.setContent xml).elementsByTagName "title" = first :: rest ∧
          (parseAndAssignAlbum lib xml album infos).title = first.text) ∧
        (parseAndAssignAlbum lib xml album infos).title =
          (parseAndAssignAlbum lib xml other infos).title) ∧
      (MusicScraperInfo.Artist ∈ infos →
        ((lib.setContent xml).elementsByTagName "artist-credit").isEmpty = false →
        (∃ e, e ∈ nameCreditsOf (lib.setContent xml) ∧
          (e.elementsByTagName "artist").isEmpty = false ∧
          ((nodeAt (e.elementsByTagName "artist") 0).elementsByTagName "name").isEmpty =
            false ∧
          (nodeAt ((nodeAt (e.elementsByTagName "artist") 0).elementsByTagName
            "name") 0).text.isEmpty = false) →
        (parseAndAssignAlbum lib xml album infos).artist =
          artistAsClaimed ((contributingCredits (nameCreditsOf (lib.setContent xml))).dropWhile
            (fun c => c.2.isEmpty)) ∧
        (parseAndAssignAlbum lib xml album infos).artist.isEmpty = false ∧
        (parseAndAssignAlbum lib xml album infos).artist =
          (parseAndAssignAlbum lib xml other infos).artist) ∧
      (MusicScraperInfo.Label ∈ infos →
        ((lib.setContent xml).elementsByTagName "label-info-list").isEmpty = false →
        ((labelInfosOf (lib.setContent xml)).filterMap labelInfoName).isEmpty = false →
        (parseAndAssignAlbum lib xml album infos).label =
          ", ".intercalate ((labelInfosOf (lib.setContent xml)).filterMap labelInfoName) ∧
        (parseAndAssignAlbum lib xml album infos).label =
          (parseAndAssignAlbum lib xml other infos).label) ∧
      (MusicScraperInfo.ReleaseDate ∈ infos →
        ((lib.setContent xml).elementsByTagName "release-event-list").isEmpty = false →
        (releaseEventsOf (lib.setContent xml)).isEmpty = false →
        ((nodeAt (releaseEventsOf (lib.setContent xml)) 0).elementsByTagName
          "date").isEmpty = false →
        (parseAndAssignAlbum lib xml album infos).releaseDate =
          (nodeAt ((nodeAt (releaseEventsOf (lib.setContent xml)) 0).elementsByTagName
            "date") 0).text ∧
        (parseAndAssignAlbum lib xml album infos).releaseDate =
          (parseAndAssignAlbum lib xml other infos).releaseDate) := by
  refine ⟨?_, ?_, ?_, ?_⟩
  · intro hreq h
    have key : ∀ a : Album, (parseAndAssignAlbum lib xml a infos).title =
        (nodeAt ((lib.setContent xml).elementsByTagName "title") 0).text := by
      intro a
      rw [parseAndAssignAlbum_title, assignAlbumTitle_title]
      simp [hreq, h]
    refine ⟨?_, by rw [key album, key other]⟩
    cases hl : (lib.setContent xml).elementsByTagName "title" with
    | nil => rw [hl] at h; exact absurd h (by decide)
    | cons first rest =>
      refine ⟨first, rest, rfl, ?_⟩
      rw [key album, hl]
      rfl
  · intro hreq h hsupplied
    obtain ⟨e, he, h1, h2, h3⟩ := hsupplied
    have hne := artistAsClaimed_dropWhile_nonempty _
      (named_credit_contributes (nameCreditsOf (lib.setContent xml)) e he h1 h2 h3)
    have key : ∀ a : Album, (parseAndAssignAlbum lib xml a infos).artist =
        artistAsClaimed ((contributingCredits (nameCreditsOf (lib.setContent xml))).dropWhile
          (fun c => c.2.isEmpty)) := by
      intro a
      rw [parseAndAssignAlbum_artist, assignAlbumArtist_artist,
        foldl_artistCreditStep_empty]
      simp [hreq, h, hne]
    refine ⟨key album, ?_, by rw [key album, key other]⟩
    rw [key album]
    exact hne
  · intro hreq h h2
    have key : ∀ a : Album, (parseAndAssignAlbum lib xml a infos).label =
        ", ".intercalate ((labelInfosOf (lib.setContent xml)).filterMap labelInfoName) := by
      intro a
      rw [parseAndAssignAlbum_label, assignAlbumLabel_label]
      simp [hreq, h, h2]
    exact ⟨key album, by rw [key album, key other]⟩
  · intro hreq h h2 h3
    have key : ∀ a : Album, (parseAndAssignAlbum lib xml a infos).releaseDate =
        (nodeAt ((nodeAt (releaseEventsOf (lib.setContent xml)) 0).elementsByTagName
          "date") 0).text := by
      intro a
      rw [parseAndAssignAlbum_releaseDate, assignAlbumReleaseDate_releaseDate]
      simp [hreq, h, h2, h3]
    exact ⟨key album, by rw [key album, key other]⟩

set_option maxRecDepth 8000 in
theorem requested_and_supplied_field_is_overwritten_witness :
    MusicScraperInfo.Title ∈ [MusicScraperInfo.Title] ∧
      ((sampleLibrary.setContent sampleReleaseXml).elementsByTagName "title").isEmpty = false ∧
      (parseAndAssignAlbum sampleLibrary sampleReleaseXml sampleAlbum
          [MusicScraperInfo.Title]).title =
        (parseAndAssignAlbum sampleLibrary sampleReleaseXml
          ⟨"Meteora", "Linkin Park", "", "2003", false⟩ [MusicScraperInfo.Title]).title ∧
      (parseAndAssignAlbum sampleLibrary sampleReleaseXml
          ⟨"Meteora", "Linkin Park", "", "2003", false⟩ [MusicScraperInfo.Artist]).artist =
        "Jay-Z, Linkin Park" ∧
      (parseAndAssignAlbum sampleLibrary sampleReleaseXml sampleAlbum
          [MusicScraperInfo.Artist]).artist =
        (parseAndAssignAlbum sampleLibrary sampleReleaseXml
          ⟨"Meteora", "Linkin Park", "", "2003", false⟩ [MusicScraperInfo.Artist]).artist :=
  ⟨by decide, by decide,
    ((requested_and_supplied_field_is_overwritten sampleLibrary sampleReleaseXml sampleAlbum
      ⟨"Meteora", "Linkin Park", "", "2003", false⟩ [MusicScraperInfo.Title]).1
      (by decide) (by decide)).2,
    by decide,
    ((requested_and_supplied_field_is_overwritten sampleLibrary sampleReleaseXml sampleAlbum
      ⟨"Meteora", "Linkin Park", "", "2003", false⟩ [MusicScraperInfo.Artist]).2.1
      (by decide) (by decide)
      ⟨QDomNode.element "name-credit" [("joinphrase", " / ")] [
          QDomNode.element "artist" [] [QDomNode.element "name" [] [QDomNode.textNode "Jay-Z"]]],
        List.Mem.head _, by decide, by decide, by decide⟩).2.2⟩

/-- C19 (as stated) fails: of four name-credits, the first and the third have
an artist whose `name` element is empty, the second and the fourth have the
names `Jay-Z` and `Linkin Park`.  The code inserts no separator before `Jay-Z`,
because the string built so far is empty, and inserts a separator before the
empty third name.  Its result is neither the concatenation over all four
credits with a separator before every name except the first, nor the one over
the two credits with a non-empty name. -/
theorem separators_follow_the_built_string_not_the_position :
    contributingCredits (nameCreditsOf emptyFirstNameDom) =
        [(" & ", ""), (" / ", "Jay-Z"), (", ", ""), (", ", "Linkin Park")] ∧
      (parseAndAssignAlbum emptyFirstNameLibrary "<release/>" sampleAlbum
        [MusicScraperInfo.Artist]).artist = "Jay-Z, , Linkin Park" ∧
      artistAsClaimed (contributingCredits (nameCreditsOf emptyFirstNameDom)) =
        " / Jay-Z, , Linkin Park" ∧
      artistAsClaimed ((contributingCredits (nameCreditsOf emptyFirstNameDom)).filter
        (fun c => !c.2.isEmpty)) = "Jay-Z, Linkin Park" ∧
      (parseAndAssignAlbum emptyFirstNameLibrary "<release/>" sampleAlbum
        [MusicScraperInfo.Artist]).artist ≠
        artistAsClaimed (contributingCredits (nameCreditsOf emptyFirstNameDom)) ∧
      (parseAndAssignAlbum emptyFirstNameLibrary "<release/>" sampleAlbum
        [MusicScraperInfo.Artist]).artist ≠
        artistAsClaimed ((contributingCredits (nameCreditsOf emptyFirstNameDom)).filter
          (fun c => !c.2.isEmpty)) := by
  decide

/-- C19 (amended): with Artist requested and an `artist-credit` present, the
name-credits of the first `artist-credit` that have an artist with a name
contribute, in document order, their names.  Credits with an empty name that
come before the first non-empty name leave the string empty; from the first
non-empty name on, the string is that name followed, for every later credit
with a name, by the separator of that same credit (its `joinphrase` when not
empty, a comma and a blank otherwise) and its name.  If the result is empty
the album's artist is not changed.  Whenever the first contributed name is not
empty this is the concatenation the claim describes. -/
theorem artist_is_joined_from_first_nonempty_name (lib : TextLibrary) (xml : String)
    (album : Album) (infos : List MusicScraperInfo)
    (hReq : MusicScraperInfo.Artist ∈ infos)
    (hCredit : ((lib.setContent xml).elementsByTagName "artist-credit").isEmpty = false) :
    ((artistAsClaimed ((contributingCredits (nameCreditsOf (lib.setContent xml))).dropWhile
          (fun c => c.2.isEmpty))).isEmpty = false →
        (parseAndAssignAlbum lib xml album infos).artist =
          artistAsClaimed ((contributingCredits (nameCreditsOf (lib.setContent xml))).dropWhile
            (fun c => c.2.isEmpty))) ∧
      ((artistAsClaimed ((contributingCredits (nameCreditsOf (lib.setContent xml))).dropWhile
          (fun c => c.2.isEmpty))).isEmpty = true →
        (parseAndAssignAlbum lib xml album infos).artist = album.artist) ∧
      ((∀ c rest, contributingCredits (nameCreditsOf (lib.setContent xml)) = c :: rest →
          c.2.isEmpty = false) →
        artistAsClaimed ((contributingCredits (nameCreditsOf (lib.setContent xml))).dropWhile
            (fun c => c.2.isEmpty)) =
          artistAsClaimed (contributingCredits (nameCreditsOf (lib.setContent xml)))) := by
  have hfold := foldl_artistCreditStep_empty (nameCreditsOf (lib.setContent xml))
  refine ⟨?_, ?_, ?_⟩
  · intro h
    rw [parseAndAssignAlbum_artist, assignAlbumArtist_artist, hfold]
    simp [hReq, hCredit, h]
  · intro h
    rw [parseAndAssignAlbum_artist, assignAlbumArtist_artist, hfold]
    simp [h]
  · intro h
    cases hc : contributingCredits (nameCreditsOf (lib.setContent xml)) with
    | nil => rfl
    | cons c rest =>
      have hne := h c rest hc
      rw [List.dropWhile_cons_of_neg (by simpa using hne)]

set_option maxRecDepth 8000 in
theorem artist_is_joined_from_first_nonempty_name_witness :
    MusicScraperInfo.Artist ∈ [MusicScraperInfo.Artist] ∧
      ((sampleLibrary.setContent sampleReleaseXml).elementsByTagName
        "artist-credit").isEmpty = false ∧
      (artistAsClaimed ((contributingCredits (nameCreditsOf
        (sampleLibrary.setContent sampleReleaseXml))).dropWhile
          (fun c => c.2.isEmpty))).isEmpty = false ∧
      (parseAndAssignAlbum sampleLibrary sampleReleaseXml sampleAlbum
        [MusicScraperInfo.Artist]).artist =
        artistAsClaimed ((contributingCredits (nameCreditsOf
          (sampleLibrary.setContent sampleReleaseXml))).dropWhile (fun c => c.2.isEmpty)) :=
  ⟨by decide, by decide, by decide,
    (artist_is_joined_from_first_nonempty_name sampleLibrary sampleReleaseXml sampleAlbum
      [MusicScraperInfo.Artist] (by decide) (by decide)).1 (by decide)⟩

/-! ## Theorems: AllMusic id and Discogs URL -/

theorem extractStep_eq (rx : RegexEngine) (acc : AllMusicId × String) (elem : QDomNode) :
    extractStep rx acc elem =
      (match allMusicCapture rx elem with
        | some captured => AllMusicId.mk captured
        | none => acc.1,
       match discogsTarget elem with
        | some url => url
        | none => acc.2) := by
  unfold extractStep allMusicCapture discogsTarget
  by_cases h1 : (elem.attribute "type" == "allmusic"
      && decide ((elem.elementsByTagName "target").length > 0)) = true <;>
  by_cases h2 : (elem.attribute "type" == "discogs"
      && decide ((elem.elementsByTagName "target").length > 0)) = true <;>
  by_cases h3 : (rx "allmusic\\.com/album/(.*)$"
      (nodeAt (elem.elementsByTagName "target") 0).text).hasMatch = true <;>
  simp only [h1, h2, h3, if_true, if_false] <;> rfl

theorem getLastD_filterMap_cons {α β : Type} (f : α → Option β) (e : α) (es : List α)
    (start : β) :
    (((e :: es).filterMap f).getLast?).getD start =
      ((es.filterMap f).getLast?).getD (match f e with
        | some b => b
        | none => start) := by
  rw [List.filterMap_cons]
  cases h : f e with
  | none => rfl
  | some b =>
    simp only []
    rw [List.getLast?_cons]
    rfl

/-- The loop over the relations keeps, for each of the two results, what the
last supplying relation supplied. -/
theorem foldl_extractStep (rx : RegexEngine) (acc : AllMusicId × String)
    (relations : List QDomNode) :
    relations.foldl (extractStep rx) acc =
      (AllMusicId.mk (((relations.filterMap (allMusicCapture rx)).getLast?).getD
        acc.1.toString),
       ((relations.filterMap discogsTarget).getLast?).getD acc.2) := by
  induction relations generalizing acc with
  | nil => rfl
  | cons e es ih =>
    rw [List.foldl_cons, ih, getLastD_filterMap_cons, getLastD_filterMap_cons, extractStep_eq]
    cases allMusicCapture rx e <;> cases discogsTarget e <;> rfl

/-- C20: for every XML text, `extractAllMusicIdAndDiscogsUrl` returns the pair
whose URL is the text of the first target of the last relation with type
`discogs` that has a target (the empty text if there is none), and whose id is
what group 1 of the pattern, the part after `allmusic.com/album/` up to the
end, captures in the first target of the last relation with type `allmusic`
that has a target matching the pattern (the empty id if there is none).  A
relation of another type, or without a target, leaves both results as they
are. -/
theorem extract_takes_last_allmusic_and_last_discogs_relation (lib : TextLibrary)
    (rx : RegexEngine) (xml : String) (acc : AllMusicId × String) (elem : QDomNode) :
    extractAllMusicIdAndDiscogsUrl lib rx xml =
        (AllMusicId.mk (((((lib.setContent xml).elementsByTagName "relation").filterMap
          (allMusicCapture rx)).getLast?).getD ""),
         ((((lib.setContent xml).elementsByTagName "relation").filterMap
          discogsTarget).getLast?).getD "") ∧
      (((elem.attribute "type" ≠ "allmusic" ∧ elem.attribute "type" ≠ "discogs") ∨
          elem.elementsByTagName "target" = []) →
        extractStep rx acc elem = acc ∧ allMusicCapture rx elem = none ∧
          discogsTarget elem = none) := by
  constructor
  · unfold extractAllMusicIdAndDiscogsUrl
    rw [foldl_extractStep]
  · intro h
    have h1 : allMusicCapture rx elem = none := by
      unfold allMusicCapture
      rcases h with ⟨h, -⟩ | h
      · simp [h]
      · simp [h]
    have h2 : discogsTarget elem = none := by
      unfold discogsTarget
      rcases h with ⟨-, h⟩ | h
      · simp [h]
      · simp [h]
    refine ⟨?_, h1, h2⟩
    rw [extractStep_eq, h1, h2]

theorem extract_takes_last_allmusic_and_last_discogs_relation_witness :
    (((QDomNode.element "relation" [("type", "wikidata")] [
          QDomNode.element "target" [] [QDomNode.textNode "https://www.wikidata.org/wiki/Q1"]]
        ).attribute "type" ≠ "allmusic" ∧
      (QDomNode.element "relation" [("type", "wikidata")] [
          QDomNode.element "target" [] [QDomNode.textNode "https://www.wikidata.org/wiki/Q1"]]
        ).attribute "type" ≠ "discogs") ∨
      (QDomNode.element "relation" [("type", "wikidata")] [
          QDomNode.element "target" [] [QDomNode.textNode "https://www.wikidata.org/wiki/Q1"]]
        ).elementsByTagName "target" = []) ∧
      extractStep sampleRegex (⟨"mw0000698631"⟩, "")
        (QDomNode.element "relation" [("type", "wikidata")] [
          QDomNode.element "target" [] [QDomNode.textNode "https://www.wikidata.org/wiki/Q1"]]) =
        (⟨"mw0000698631"⟩, "") :=
  ⟨Or.inl (by decide),
    ((extract_takes_last_allmusic_and_last_discogs_relation sampleRelationsLibrary sampleRegex
      "<release-group/>" (⟨"mw0000698631"⟩, "")
      (QDomNode.element "relation" [("type", "wikidata")] [
        QDomNode.element "target" [] [QDomNode.textNode "https://www.wikidata.org/wiki/Q1"]])).2
      (Or.inl (by decide))).1⟩

/-! ## Theorems: success of an ImdbTvEpisodeScrapeJob -/

/-- Every run has one of two shapes.  Either the detail fetch was answered:
the result is what its callback makes of a job that has no error yet and has
not called `parseInfos`.  Or it was not: then `parseInfos` was not called, and
if the job has terminated its error state is not empty. -/
theorem Job.run_shape (c : ImdbCollaborators) (oid : Nat) (cfg : Config)
    (replies : List (String × ScraperError)) :
    (∃ (j : Job) (html : String) (error : ScraperError),
        Job.detailReply c oid cfg replies = some (html, error) ∧
        Job.run c oid cfg replies = (Job.onLoadTitle c j html error, Pending.idle) ∧
        j.objectId = oid ∧ j.m_error = ScraperError.empty ∧
        ∀ ev ∈ j.trace, ev.isParseInfos = false) ∨
      (Job.detailReply c oid cfg replies = none ∧
        (∀ ev ∈ (Job.run c oid cfg replies).1.trace, ev.isParseInfos = false) ∧
        ((Job.run c oid cfg replies).2 = Pending.idle →
          (Job.run c oid cfg replies).1.m_error.hasError = true)) := by
  by_cases hHas : cfg.identifier.hasEpisodeIdentifier = true
  · by_cases hValid : c.isValid ⟨cfg.identifier.episodeIdentifier⟩ = true
    · have hs := Job.start_direct c oid cfg hHas hValid
      cases replies with
      | nil =>
        right
        refine ⟨by simp [Job.detailReply, hs], ?_, ?_⟩
        · rw [Job.run_nil, hs]
          intro ev hev
          simp at hev
          subst hev
          rfl
        · rw [Job.run_nil, hs]
          intro h
          exact absurd h (by simp)
      | cons r rs =>
        left
        refine ⟨⟨oid, cfg, ScraperError.empty, TvShowEpisode.fresh,
          [Event.loadTitle cfg.locale ⟨cfg.identifier.episodeIdentifier⟩]⟩, r.1, r.2,
          by simp [Job.detailReply, hs], ?_, rfl, rfl, ?_⟩
        · simp only [Job.run, List.foldl_cons, hs, Job.deliver, Job.foldl_deliver_idle]
        · intro ev hev
          simp at hev
          subst hev
          rfl
    · have hValid2 : c.isValid ⟨cfg.identifier.episodeIdentifier⟩ = false := by
        simpa using hValid
      obtain ⟨msg, hs⟩ := Job.start_invalid c oid cfg (Or.inl ⟨hHas, hValid2⟩)
      right
      have hrun : Job.run c oid cfg replies = Job.start c (Job.create oid cfg) := by
        rw [Job.run, hs, Job.foldl_deliver_idle]
      refine ⟨?_, ?_, ?_⟩
      · cases replies <;> simp [Job.detailReply, hs]
      · rw [hrun, hs]
        intro ev hev
        simp at hev
        subst hev
        rfl
      · rw [hrun, hs]
        intro _
        rfl
  · have hNo : cfg.identifier.hasEpisodeIdentifier = false := by simpa using hHas
    by_cases hShow : c.isValid ⟨cfg.identifier.showIdentifier⟩ = true
    · have hs := Job.start_discovery c oid cfg hNo hShow
      cases replies with
      | nil =>
        right
        refine ⟨by simp [Job.detailReply, hs], ?_, ?_⟩
        · rw [Job.run_nil, hs]
          intro ev hev
          simp at hev
          subst hev
          rfl
        · rw [Job.run_nil, hs]
          intro h
          exact absurd h (by simp)
      | cons r rs =>
        obtain ⟨html, error⟩ := r
        have hrun : Job.run c oid cfg ((html, error) :: rs) =
            rs.foldl (Job.deliver c) (Job.onLoadSeason c
              ⟨oid, cfg, ScraperError.empty, Job.discoveryEpisode cfg,
                [Event.loadSeason cfg.locale ⟨cfg.identifier.showIdentifier⟩
                  cfg.identifier.seasonNumber]⟩ html error) := by
          simp [Job.run, hs, Job.deliver]
        by_cases h : error.hasError = true
        · right
          have hse := Job.onLoadSeason_error c
            ⟨oid, cfg, ScraperError.empty, Job.discoveryEpisode cfg,
              [Event.loadSeason cfg.locale ⟨cfg.identifier.showIdentifier⟩
                cfg.identifier.seasonNumber]⟩ html error h
          refine ⟨?_, ?_, ?_⟩
          · simp only [Job.detailReply, hs, hse]
          · rw [hrun, hse, Job.foldl_deliver_idle]
            intro ev hev
            simp at hev
            rcases hev with rfl | rfl <;> rfl
          · rw [hrun, hse, Job.foldl_deliver_idle]
            intro _
            exact h
        · have h2 : error.hasError = false := by simpa using h
          by_cases hId :
              c.isValid (c.parseIdFromSeason (Job.discoveryEpisode cfg) html).imdbId = true
          · have hse := Job.onLoadSeason_valid c
              ⟨oid, cfg, ScraperError.empty, Job.discoveryEpisode cfg,
                [Event.loadSeason cfg.locale ⟨cfg.identifier.showIdentifier⟩
                  cfg.identifier.seasonNumber]⟩ html error h2 hId
            cases rs with
            | nil =>
              right
              refine ⟨?_, ?_, ?_⟩
              · simp only [Job.detailReply, hs, hse]
              · rw [hrun, hse]
                intro ev hev
                simp at hev
                rcases hev with rfl | rfl | rfl <;> rfl
              · rw [hrun, hse]
                intro hidle
                exact absurd hidle (by simp)
            | cons r2 rs2 =>
              left
              refine ⟨⟨oid, cfg, ScraperError.empty,
                c.parseIdFromSeason (Job.discoveryEpisode cfg) html,
                [Event.loadSeason cfg.locale ⟨cfg.identifier.showIdentifier⟩
                  cfg.identifier.seasonNumber] ++ [Event.parseIdFromSeason html] ++
                [Event.loadTitle cfg.locale
                  (c.parseIdFromSeason (Job.discoveryEpisode cfg) html).imdbId]⟩,
                r2.1, r2.2, ?_, ?_, rfl, rfl, ?_⟩
              · simp only [Job.detailReply, hs, hse]
              · rw [hrun, hse]
                simp only [List.foldl_cons, Job.deliver, Job.foldl_deliver_idle]
              · intro ev hev
                simp at hev
                rcases hev with rfl | rfl | rfl <;> rfl
          · have hId2 : c.isValid
                (c.parseIdFromSeason (Job.discoveryEpisode cfg) html).imdbId = false := by
              simpa using hId
            right
            have hse := Job.onLoadSeason_invalid c
              ⟨oid, cfg, ScraperError.empty, Job.discoveryEpisode cfg,
                [Event.loadSeason cfg.locale ⟨cfg.identifier.showIdentifier⟩
                  cfg.identifier.seasonNumber]⟩ html error h2 hId2
            refine ⟨?_, ?_, ?_⟩
            · simp only [Job.detailReply, hs, hse]
            · rw [hrun, hse, Job.foldl_deliver_idle]
              intro ev hev
              simp at hev
              rcases hev with rfl | rfl | rfl <;> rfl
            · rw [hrun, hse, Job.foldl_deliver_idle]
              intro _
              rfl
    · have hShow2 : c.isValid ⟨cfg.identifier.showIdentifier⟩ = false := by
        simpa using hShow
      obtain ⟨msg, hs⟩ := Job.start_invalid c oid cfg (Or.inr ⟨hNo, hShow2⟩)
      right
      have hrun : Job.run c oid cfg replies = Job.start c (Job.create oid cfg) := by
        rw [Job.run, hs, Job.foldl_deliver_idle]
      refine ⟨?_, ?_, ?_⟩
      · cases replies <;> simp [Job.detailReply, hs]
      · rw [hrun, hs]
        intro ev hev
        simp at hev
        subst hev
        rfl
      · rw [hrun, hs]
        intro _
        rfl

theorem filter_isParseInfos_eq_nil (l : List Event) (h : ∀ ev ∈ l, ev.isParseInfos = false) :
    l.filter Event.isParseInfos = [] := by
  rw [List.filter_eq_nil_iff]
  intro ev hev
  simp [h ev hev]

/-- C15: a job that has terminated has an empty error state if and only if its
detail fetch `loadTitle` was answered with no transport error and a non-empty
body.  In that case `parseInfos` is applied to the episode exactly once, with
that body, directly before `sigFinished` is emitted with the empty error; in
every other case `parseInfos` is not called at all. -/
theorem success_iff_detail_fetch_delivered_body (c : ImdbCollaborators) (oid : Nat)
    (cfg : Config) (replies : List (String × ScraperError)) :
    ((Job.run c oid cfg replies).2 = Pending.idle →
        ((Job.run c oid cfg replies).1.m_error.hasError = false ↔
          ∃ html error, Job.detailReply c oid cfg replies = some (html, error) ∧
            error.hasError = false ∧ html.isEmpty = false)) ∧
      (∀ html error, Job.detailReply c oid cfg replies = some (html, error) →
        error.hasError = false → html.isEmpty = false →
        (Job.run c oid cfg replies).2 = Pending.idle ∧
          (Job.run c oid cfg replies).1.m_error = ScraperError.empty ∧
          (Job.run c oid cfg replies).1.trace.filter Event.isParseInfos =
            [Event.parseInfos html] ∧
          ∃ (pre : List Event) (before : TvShowEpisode),
            (Job.run c oid cfg replies).1.trace =
              pre ++ [Event.parseInfos html, Event.sigFinished oid ScraperError.empty] ∧
            (Job.run c oid cfg replies).1.episode = c.parseInfos before html) ∧
      ((¬ ∃ html error, Job.detailReply c oid cfg replies = some (html, error) ∧
            error.hasError = false ∧ html.isEmpty = false) →
        (Job.run c oid cfg replies).1.trace.filter Event.isParseInfos = []) := by
  rcases Job.run_shape c oid cfg replies with ⟨j, h, e, hD, hX, hoid, herr, htrace⟩ | ⟨hD, hNo, hErr⟩
  · -- the detail fetch was answered with (h, e)
    have hpre : j.trace.filter Event.isParseInfos = [] :=
      filter_isParseInfos_eq_nil j.trace htrace
    by_cases he : e.hasError = true
    · have hT := Job.onLoadTitle_error c j h e he
      refine ⟨fun _ => ?_, ?_, fun _ => ?_⟩
      · rw [hX, hT, hD]
        constructor
        · intro hno
          simp only [he] at hno
          exact absurd hno (by decide)
        · rintro ⟨html, error, hsome, hne, -⟩
          cases hsome
          rw [he] at hne
          exact absurd hne (by decide)
      · intro html error hsome hne _
        rw [hD] at hsome
        cases hsome
        rw [he] at hne
        exact absurd hne (by decide)
      · rw [hX, hT]
        simp only [List.filter_append, hpre]
        rfl
    · have he2 : e.hasError = false := by simpa using he
      by_cases hh : h.isEmpty = true
      · have hT := Job.onLoadTitle_empty c j h e he2 hh
        refine ⟨fun _ => ?_, ?_, fun _ => ?_⟩
        · rw [hX, hT, hD]
          constructor
          · intro hno
            have hyes : (⟨ScraperErrorType.NetworkError,
                "Loaded IMDb content is empty. Cannot load requested episode."⟩ :
                ScraperError).hasError = true := by decide
            exact absurd (hno.symm.trans hyes) (by decide)
          · rintro ⟨html, error, hsome, -, hne⟩
            cases hsome
            rw [hh] at hne
            exact absurd hne (by decide)
        · intro html error hsome _ hne
          rw [hD] at hsome
          cases hsome
          rw [hh] at hne
          exact absurd hne (by decide)
        · rw [hX, hT]
          simp only [List.filter_append, hpre]
          rfl
      · have hh2 : h.isEmpty = false := by simpa using hh
        have hT := Job.onLoadTitle_parsed c j h e he2 hh2
        refine ⟨fun _ => ?_, ?_, fun hnot => ?_⟩
        · rw [hX, hT, hD, herr]
          constructor
          · intro _
            exact ⟨h, e, rfl, he2, hh2⟩
          · intro _
            rfl
        · intro html error hsome _ _
          rw [hD] at hsome
          cases hsome
          rw [hX, hT, herr, hoid]
          refine ⟨rfl, rfl, ?_, j.trace, j.episode, ?_, rfl⟩
          · simp only [List.filter_append, hpre]
            rfl
          · simp
        · exact absurd ⟨h, e, hD, he2, hh2⟩ hnot
  · -- the detail fetch was not answered
    refine ⟨fun hidle => ?_, ?_, fun _ => ?_⟩
    · rw [hD]
      constructor
      · intro hno
        rw [hErr hidle] at hno
        exact absurd hno (by decide)
      · rintro ⟨html, error, hsome, -, -⟩
        cases hsome
    · intro html error hsome
      rw [hD] at hsome
      cases hsome
    · exact filter_isParseInfos_eq_nil _ hNo

theorem success_iff_detail_fetch_delivered_body_witness :
    Job.detailReply sampleCollaborators 7 discoveryConfig
        [("tt0701142", ScraperError.empty), ("<html>page</html>", ScraperError.empty)] =
        some ("<html>page</html>", ScraperError.empty) ∧
      ScraperError.empty.hasError = false ∧ ("<html>page</html>" : String).isEmpty = false ∧
      (Job.run sampleCollaborators 7 discoveryConfig
        [("tt0701142", ScraperError.empty),
          ("<html>page</html>", ScraperError.empty)]).1.m_error = ScraperError.empty :=
  ⟨by decide, by decide, by decide,
    ((success_iff_detail_fetch_delivered_body sampleCollaborators 7 discoveryConfig
      [("tt0701142", ScraperError.empty), ("<html>page</html>", ScraperError.empty)]).2.1
      "<html>page</html>" ScraperError.empty (by decide) (by decide) (by decide)).2.1⟩

/-! ## Theorems: unpacking a template archive -/

/-- A GitHub release archive: the folder entry is skipped and its name is
stripped from the other entries. -/
theorem gitHub_archive_is_unpacked_below_its_folder :
    hasSingleTopLevelFolder gitHubArchive = true ∧
      isGitHubReleaseFormat gitHubArchive = true ∧
      unpackTemplate allSucceeds ⟨"simple", false⟩ gitHubArchive =
        (true, [FileAction.write "template.xml" "<template/>", FileAction.mkdir "css/",
          FileAction.write "css/style.css" "body"]) := by
  decide

/-- C17 fails on the code at an old-format archive whose entries all begin with
the name of the first one: two theme files `template.xml` and
`template.xml.sig` stored directly.  The archive has no folder at all, yet the
test takes it for the GitHub release format; the first file is skipped, the
second is written under the name `.sig`, and the call reports success.  By the
claim both files are written under their full names. -/
theorem old_format_archive_is_taken_for_release_format :
    hasSingleTopLevelFolder oldFormatArchive = false ∧
      isGitHubReleaseFormat oldFormatArchive = true ∧
      unpackTemplate allSucceeds ⟨"simple", false⟩ oldFormatArchive =
        (true, [FileAction.write ".sig" "0a1b"]) ∧
      unpackedAsOldFormat oldFormatArchive =
        [FileAction.write "template.xml" "<template/>",
          FileAction.write "template.xml.sig" "0a1b"] ∧
      (unpackTemplate allSucceeds ⟨"simple", false⟩ oldFormatArchive).2 ≠
        unpackedAsOldFormat oldFormatArchive ∧
      unpackTemplate allSucceeds ⟨"simple", false⟩ [⟨"template.xml", "<template/>"⟩] =
        (true, []) := by
  decide

/-! ## Theorems: the load queue -/

/-- The nested saving loops visit the items in the order of `itemsFrom`. -/
theorem saveChangedShows_eq_foldl (saveData : SaveDataEffect) (episodesToSave : Nat)
    (episodeCounts : List Nat) :
    ∀ (i : Nat) (s : SaveState),
      saveChangedShows saveData episodesToSave i episodeCounts s =
        (itemsFrom i episodeCounts).foldl (saveIfChanged saveData episodesToSave) s := by
  induction episodeCounts with
  | nil => intro i s; rfl
  | cons y more ih =>
    intro i s
    rw [saveChangedShows, ih, itemsFrom, List.foldl_append, List.foldl_cons, List.foldl_map]

theorem countChangedEpisodes_eq (changed : SaveItem → Bool) (i y n : Nat) :
    countChangedEpisodes changed i y n =
      n + (((List.range y).map (SaveItem.episode i)).filter changed).length := by
  unfold countChangedEpisodes
  induction y generalizing n with
  | zero => simp
  | succ k ih =>
    rw [List.range_succ, List.foldl_append, ih, List.map_append, List.filter_append,
      List.length_append]
    by_cases h : changed (SaveItem.episode i k) = true
    · simp [h, Nat.add_assoc]
    · simp [h]

/-- The counting loops count the items whose flag is set. -/
theorem countChangedShows_eq (changed : SaveItem → Bool) (episodeCounts : List Nat) :
    ∀ (i n : Nat), countChangedShows changed i episodeCounts n =
      n + ((itemsFrom i episodeCounts).filter changed).length := by
  induction episodeCounts with
  | nil => intro i n; simp [countChangedShows, itemsFrom]
  | cons y more ih =>
    intro i n
    rw [countChangedShows, ih, countChangedEpisodes_eq, itemsFrom, List.filter_append,
      List.length_append, List.filter_cons]
    by_cases h : changed (SaveItem.show i) = true
    · simp [h]
      omega
    · simp [h]
      omega

theorem itemsFrom_showIndex (episodeCounts : List Nat) :
    ∀ (i : Nat) (item : SaveItem), item ∈ itemsFrom i episodeCounts → i ≤ item.showIndex := by
  induction episodeCounts with
  | nil => intro i item h; simp [itemsFrom] at h
  | cons y more ih =>
    intro i item h
    rw [itemsFrom, List.mem_append, List.mem_cons, List.mem_map] at h
    rcases h with (rfl | ⟨x, -, rfl⟩) | h
    · exact Nat.le_refl _
    · exact Nat.le_refl _
    · exact Nat.le_of_succ_le (ih (i + 1) item h)

/-- No show and no episode is visited twice. -/
theorem itemsFrom_nodup (episodeCounts : List Nat) :
    ∀ i : Nat, (itemsFrom i episodeCounts).Nodup := by
  induction episodeCounts with
  | nil => intro i; simp [itemsFrom]
  | cons y more ih =>
    intro i
    rw [itemsFrom, List.nodup_append]
    refine ⟨?_, ih (i + 1), ?_⟩
    · rw [List.nodup_cons]
      constructor
      · intro h
        rw [List.mem_map] at h
        obtain ⟨x, -, hx⟩ := h
        cases hx
      · apply List.Nodup.map
        · intro a b hab
          cases hab
          rfl
        · exact List.nodup_range y
    · intro item h1 h2
      have hle := itemsFrom_showIndex more (i + 1) item h2
      rw [List.mem_cons, List.mem_map] at h1
      rcases h1 with rfl | ⟨x, -, rfl⟩
      · simp [SaveItem.showIndex] at hle
      · simp [SaveItem.showIndex] at hle

/-- Whatever `saveData` does: every item of the list is asked `hasChanged()`
once, in order, and `saveData` is called for exactly the items that
answered true. -/
theorem foldl_saveIfChanged_examined (saveData : SaveDataEffect) (episodesToSave : Nat)
    (items : List SaveItem) :
    ∀ s : SaveState,
      ((items.foldl (saveIfChanged saveData episodesToSave) s).trace.filterMap
          SaveEvent.examined = s.trace.filterMap SaveEvent.examined ++ items) ∧
        ((s.trace.filterMap SaveEvent.saved = s.trace.filterMap SaveEvent.examinedChanged) →
          (items.foldl (saveIfChanged saveData episodesToSave) s).trace.filterMap
              SaveEvent.saved =
            (items.foldl (saveIfChanged saveData episodesToSave) s).trace.filterMap
              SaveEvent.examinedChanged) := by
  induction items with
  | nil => intro s; simp
  | cons item rest ih =>
    intro s
    rw [List.foldl_cons]
    obtain ⟨h1, h2⟩ := ih (saveIfChanged saveData episodesToSave s item)
    constructor
    · rw [h1]
      unfold saveIfChanged
      split_ifs <;> simp [SaveEvent.examined]
    · intro hs
      apply h2
      unfold saveIfChanged
      split_ifs <;>
        simp [SaveEvent.saved, SaveEvent.examinedChanged, hs]

/-- When `saveData` of an item leaves the flags of the other items alone, the
items saved are those whose flag was set at the start, and the progress bar
counts them one by one. -/
theorem foldl_saveIfChanged_independent (saveData : SaveDataEffect) (episodesToSave : Nat)
    (changed : SaveItem → Bool)
    (hInd : ∀ (item other : SaveItem) (flags : SaveItem → Bool), other ≠ item →
      saveData item flags other = flags other)
    (items : List SaveItem) :
    ∀ s : SaveState, items.Nodup → (∀ item ∈ items, s.changed item = changed item) →
      (items.foldl (saveIfChanged saveData episodesToSave) s).trace.filterMap SaveEvent.saved =
          s.trace.filterMap SaveEvent.saved ++ items.filter changed ∧
        (items.foldl (saveIfChanged saveData episodesToSave) s).trace.filterMap
            SaveEvent.progressArgs =
          s.trace.filterMap SaveEvent.progressArgs ++
            (List.range (items.filter changed).length).map
              (fun k => (s.episodesSaved + k + 1, episodesToSave)) := by
  induction items with
  | nil => intro s _ _; simp
  | cons item rest ih =>
    intro s hnd hflags
    rw [List.nodup_cons] at hnd
    obtain ⟨hnot, hrest⟩ := hnd
    rw [List.foldl_cons]
    have hitem : s.changed item = changed item := hflags item (List.mem_cons_self item rest)
    by_cases hc : changed item = true
    · have hstep : saveIfChanged saveData episodesToSave s item =
          ⟨saveData item s.changed, s.episodesSaved + 1,
            s.trace ++ [SaveEvent.hasChanged item true, SaveEvent.saveData item,
              SaveEvent.progressBarProgress (s.episodesSaved + 1) episodesToSave]⟩ := by
        simp [saveIfChanged, hitem, hc]
      have hflags2 : ∀ it ∈ rest,
          (saveIfChanged saveData episodesToSave s item).changed it = changed it := by
        intro it hit
        rw [hstep]
        have hne : it ≠ item := fun e => hnot (e ▸ hit)
        show saveData item s.changed it = changed it
        rw [hInd item it s.changed hne]
        exact hflags it (List.mem_cons_of_mem item hit)
      obtain ⟨h1, h2⟩ := ih _ hrest hflags2
      rw [h1, h2, hstep]
      simp only [List.filterMap_append, List.filterMap_cons, SaveEvent.saved,
        SaveEvent.progressArgs, List.filterMap_nil, List.filter_cons, hc, if_true,
        List.length_cons, List.append_assoc, List.singleton_append]
      refine ⟨trivial, ?_⟩
      rw [List.range_succ_eq_map, List.map_cons, List.map_map]
      congr 2
      apply List.map_congr_left
      intro k _
      simp only [Function.comp, Prod.mk.injEq, and_true]
      omega
    · have hc2 : changed item = false := by simpa using hc
      have hstep : saveIfChanged saveData episodesToSave s item =
          ⟨s.changed, s.episodesSaved,
            s.trace ++ [SaveEvent.hasChanged item false]⟩ := by
        simp [saveIfChanged, hitem, hc2]
      have hflags2 : ∀ it ∈ rest,
          (saveIfChanged saveData episodesToSave s item).changed it = changed it := by
        intro it hit
        rw [hstep]
        exact hflags it (List.mem_cons_of_mem item hit)
      obtain ⟨h1, h2⟩ := ih _ hrest hflags2
      rw [h1, h2, hstep]
      simp [SaveEvent.saved, SaveEvent.progressArgs, List.filter_cons, hc2]

/-- C18: `onSaveAll` asks every show and every episode of the model
`hasChanged()` exactly once in its saving loops, and calls `saveData` for
exactly the items that answered true.  When `saveData` of one item does not
alter the changed flag of other items, the items saved are exactly the shows
and episodes that were changed when `onSaveAll` was called, each once and no
other, and the progress updates are `(1, n)`, `(2, n)`, up to `(n, n)`, where
`n` is the number of changed items: every update has `current <= max` and the
last one has `current = max = n`. -/
theorem onSaveAll_saves_each_changed_item_once (saveData : SaveDataEffect)
    (episodeCounts : List Nat) (changed : SaveItem → Bool) :
    (onSaveAll saveData episodeCounts changed).trace.filterMap SaveEvent.examined =
        itemsFrom 0 episodeCounts ∧
      (itemsFrom 0 episodeCounts).Nodup ∧
      (onSaveAll saveData episodeCounts changed).trace.filterMap SaveEvent.saved =
        (onSaveAll saveData episodeCounts changed).trace.filterMap
          SaveEvent.examinedChanged ∧
      ((∀ (item other : SaveItem) (flags : SaveItem → Bool), other ≠ item →
          saveData item flags other = flags other) →
        (onSaveAll saveData episodeCounts changed).trace.filterMap SaveEvent.saved =
            (itemsFrom 0 episodeCounts).filter changed ∧
          (onSaveAll saveData episodeCounts changed).trace.filterMap SaveEvent.progressArgs =
            (List.range ((itemsFrom 0 episodeCounts).filter changed).length).map
              (fun k => (k + 1, ((itemsFrom 0 episodeCounts).filter changed).length)) ∧
          (∀ p ∈ (onSaveAll saveData episodeCounts changed).trace.filterMap
              SaveEvent.progressArgs, p.1 ≤ p.2) ∧
          (0 < ((itemsFrom 0 episodeCounts).filter changed).length →
            ((onSaveAll saveData episodeCounts changed).trace.filterMap
              SaveEvent.progressArgs).getLast? =
              some (((itemsFrom 0 episodeCounts).filter changed).length,
                ((itemsFrom 0 episodeCounts).filter changed).length))) := by
  have hcount : countChangedShows changed 0 episodeCounts 0 =
      ((itemsFrom 0 episodeCounts).filter changed).length := by
    rw [countChangedShows_eq]
    simp
  have hrun : onSaveAll saveData episodeCounts changed =
      (itemsFrom 0 episodeCounts).foldl
        (saveIfChanged saveData ((itemsFrom 0 episodeCounts).filter changed).length)
        ⟨changed, 0, []⟩ := by
    rw [onSaveAll, saveChangedShows_eq_foldl, hcount]
  obtain ⟨he1, he2⟩ := foldl_saveIfChanged_examined saveData
    ((itemsFrom 0 episodeCounts).filter changed).length (itemsFrom 0 episodeCounts)
    ⟨changed, 0, []⟩
  refine ⟨?_, itemsFrom_nodup episodeCounts 0, ?_, ?_⟩
  · rw [hrun, he1]
    rfl
  · rw [hrun]
    exact he2 rfl
  · intro hInd
    obtain ⟨h1, h2⟩ := foldl_saveIfChanged_independent saveData
      ((itemsFrom 0 episodeCounts).filter changed).length changed hInd
      (itemsFrom 0 episodeCounts) ⟨changed, 0, []⟩ (itemsFrom_nodup episodeCounts 0)
      (fun _ _ => rfl)
    have hprog : (onSaveAll saveData episodeCounts changed).trace.filterMap
        SaveEvent.progressArgs =
        (List.range ((itemsFrom 0 episodeCounts).filter changed).length).map
          (fun k => (k + 1, ((itemsFrom 0 episodeCounts).filter changed).length)) := by
      rw [hrun, h2]
      simp
    refine ⟨?_, hprog, ?_, ?_⟩
    · rw [hrun, h1]
      rfl
    · intro p hp
      rw [hprog, List.mem_map] at hp
      obtain ⟨k, hk, rfl⟩ := hp
      rw [List.mem_range] at hk
      exact hk
    · intro hpos
      rw [hprog]
      obtain ⟨m, hm⟩ := Nat.exists_eq_succ_of_ne_zero (Nat.pos_iff_ne_zero.mp hpos)
      rw [hm, List.range_succ, List.map_append, List.getLast?_append]
      rfl

theorem onSaveAll_saves_each_changed_item_once_witness :
    (∀ (item other : SaveItem) (flags : SaveItem → Bool), other ≠ item →
        clearsOwnFlag item flags other = flags other) ∧
      (onSaveAll clearsOwnFlag [2, 1] sampleChanged).trace.filterMap SaveEvent.saved =
        (itemsFrom 0 [2, 1]).filter sampleChanged ∧
      (onSaveAll clearsOwnFlag [2, 1] sampleChanged).trace.filterMap SaveEvent.saved =
        [SaveItem.episode 0 1, SaveItem.show 1] :=
  ⟨fun item other flags h => by simp [clearsOwnFlag, h],
    ((onSaveAll_saves_each_changed_item_once clearsOwnFlag [2, 1] sampleChanged).2.2.2
      (fun item other flags h => by simp [clearsOwnFlag, h])).1,
    by decide⟩

/-! ## Theorems: checksum and merge of template lists -/

theorem hexDigit_is_lower_hex (value : Nat) (h : value < 16) :
    hexDigit value ∈ "0123456789abcdef".data := by
  revert value
  decide

/-- The text `toHex` gives has two characters per byte, all of them digits or
the letters a to f. -/
theorem toHex_is_lower_hex (bytes : List Nat) :
    (toHex bytes).data.length = 2 * bytes.length ∧
      ∀ ch ∈ (toHex bytes).data, ch ∈ "0123456789abcdef".data := by
  unfold toHex
  induction bytes with
  | nil => exact ⟨rfl, fun ch h => by simp at h⟩
  | cons b bs ih =>
    obtain ⟨h1, h2⟩ := ih
    simp only [List.flatMap_cons, List.length_append, List.length_cons, List.length_nil] at *
    constructor
    · rw [h1]
      omega
    · intro ch hch
      rw [List.mem_append] at hch
      rcases hch with hch | hch
      · simp only [List.mem_cons, List.mem_singleton, List.not_mem_nil, or_false] at hch
        rcases hch with rfl | rfl
        · exact hexDigit_is_lower_hex _ (Nat.mod_lt _ (by decide))
        · exact hexDigit_is_lower_hex _ (Nat.mod_lt _ (by decide))
      · exact h2 ch hch

theorem validateChecksum_of_nonempty (lib : ChecksumLibrary) (data : List Nat)
    (exportTemplate : ExportTemplate) (h : exportTemplate.remoteFileChecksum.isEmpty = false) :
    validateChecksum lib data exportTemplate =
      decide (lib.toLower exportTemplate.remoteFileChecksum = toHex (lib.sha256 data)) := by
  unfold validateChecksum
  by_cases he : lib.toLower exportTemplate.remoteFileChecksum = toHex (lib.sha256 data)
  · simp [h, he]
  · simp [h, he]

/-- C21: `validateChecksum` returns true for every data when the remote
checksum of the template is empty.  Otherwise it returns true if and only if
the lower-cased expected checksum equals the hexadecimal text of the SHA-256
digest of the data, which `toHex` writes with digits and the letters a to f.
Hence two non-empty expected checksums with the same lower-case form are
treated alike, and a non-empty checksum whose lower-case form is not the digest
is rejected; after a rejection the download handler reports the template as
not installed and unpacks nothing. -/
theorem validateChecksum_accepts_iff_lowercase_digest (lib : ChecksumLibrary)
    (data : List Nat) (exportTemplate other : ExportTemplate) (env : UnpackEnvironment)
    (entries : List ZipEntry) :
    (exportTemplate.remoteFileChecksum.isEmpty = true →
        validateChecksum lib data exportTemplate = true) ∧
      (exportTemplate.remoteFileChecksum.isEmpty = false →
        (validateChecksum lib data exportTemplate = true ↔
          lib.toLower exportTemplate.remoteFileChecksum = toHex (lib.sha256 data))) ∧
      (∀ ch ∈ (toHex (lib.sha256 data)).data, ch ∈ "0123456789abcdef".data) ∧
      (exportTemplate.remoteFileChecksum.isEmpty = false →
        other.remoteFileChecksum.isEmpty = false →
        lib.toLower exportTemplate.remoteFileChecksum = lib.toLower other.remoteFileChecksum →
        validateChecksum lib data exportTemplate = validateChecksum lib data other) ∧
      (exportTemplate.remoteFileChecksum.isEmpty = false →
        lib.toLower exportTemplate.remoteFileChecksum ≠ toHex (lib.sha256 data) →
        validateChecksum lib data exportTemplate = false ∧
        onDownloadTemplateFinished lib env 0 data exportTemplate entries = (false, [])) := by
  refine ⟨?_, ?_, (toHex_is_lower_hex (lib.sha256 data)).2, ?_, ?_⟩
  · intro h
    simp [validateChecksum, h]
  · intro h
    rw [validateChecksum_of_nonempty lib data exportTemplate h]
    simp
  · intro h1 h2 heq
    rw [validateChecksum_of_nonempty lib data exportTemplate h1,
      validateChecksum_of_nonempty lib data other h2, heq]
  · intro h hne
    have hv : validateChecksum lib data exportTemplate = false := by
      rw [validateChecksum_of_nonempty lib data exportTemplate h]
      simp [hne]
    refine ⟨hv, ?_⟩
    simp [onDownloadTemplateFinished, hv]

theorem validateChecksum_accepts_iff_lowercase_digest_witness :
    sampleRemoteTemplate.remoteFileChecksum.isEmpty = false ∧
      sampleChecksumLibrary.toLower sampleRemoteTemplate.remoteFileChecksum =
        toHex (sampleChecksumLibrary.sha256 []) ∧
      validateChecksum sampleChecksumLibrary [] sampleRemoteTemplate = true :=
  ⟨by decide, by decide,
    ((validateChecksum_accepts_iff_lowercase_digest sampleChecksumLibrary []
      sampleRemoteTemplate sampleLocalTemplate allSucceeds []).2.1 (by decide)).2
      (by decide)⟩

/-- The three setter calls or nothing, by the identifier. -/
theorem markLoop_foldl (remoteTemplate : ExportTemplate) (templates : List ExportTemplate) :
    ∀ (found : Bool) (visited : List ExportTemplate),
      templates.foldl
          (fun state localTemplate =>
            if localTemplate.identifier = remoteTemplate.identifier then
              (true, state.2 ++ [localTemplate.markRemote remoteTemplate])
            else (state.1, state.2 ++ [localTemplate]))
          (found, visited) =
        (found || templates.any (fun t => decide (t.identifier = remoteTemplate.identifier)),
          visited ++ templates.map (fun t =>
            if t.identifier = remoteTemplate.identifier then t.markRemote remoteTemplate
            else t)) := by
  induction templates with
  | nil => intro found visited; simp
  | cons t ts ih =>
    intro found visited
    rw [List.foldl_cons]
    by_cases h : t.identifier = remoteTemplate.identifier
    · simp only [h, if_true]
      rw [ih]
      simp [h]
    · simp only [h, if_false]
      rw [ih]
      simp [h]

/-- The inner loop: `found` says whether some template has the identifier, and
exactly the templates with the identifier were marked. -/
theorem markLoop_eq (remoteTemplate : ExportTemplate) (templates : List ExportTemplate) :
    markLoop remoteTemplate templates =
      (templates.any (fun t => decide (t.identifier = remoteTemplate.identifier)),
        templates.map (fun t =>
          if t.identifier = remoteTemplate.identifier then t.markRemote remoteTemplate
          else t)) := by
  unfold markLoop
  rw [markLoop_foldl]
  simp

theorem mergeStep_eq (templates : List ExportTemplate) (remoteTemplate : ExportTemplate) :
    mergeStep templates remoteTemplate =
      templates.map (fun t =>
          if t.identifier = remoteTemplate.identifier then t.markRemote remoteTemplate
          else t) ++
        (if remoteTemplate.identifier ∈ templates.map (fun t => t.identifier) then []
          else [remoteTemplate]) := by
  unfold mergeStep
  rw [markLoop_eq]
  by_cases h : remoteTemplate.identifier ∈ templates.map (fun t => t.identifier)
  · have hany : templates.any (fun t => decide (t.identifier = remoteTemplate.identifier))
        = true := by
      rw [List.any_eq_true]
      rw [List.mem_map] at h
      obtain ⟨t, ht, hid⟩ := h
      exact ⟨t, ht, by simpa using hid⟩
    simp [hany, h]
  · have hany : templates.any (fun t => decide (t.identifier = remoteTemplate.identifier))
        = false := by
      rw [List.any_eq_false]
      intro t ht hid
      apply h
      rw [List.mem_map]
      exact ⟨t, ht, by simpa using hid⟩
    simp only [hany, h, if_false]
    simp

theorem unmarked_mark (t r : ExportTemplate) :
    (if t.identifier = r.identifier then t.markRemote r else t).unmarked = t.unmarked ∧
      (if t.identifier = r.identifier then t.markRemote r else t).identifier =
        t.identifier := by
  by_cases h : t.identifier = r.identifier
  · simp [h, ExportTemplate.unmarked, ExportTemplate.markRemote]
  · simp [h]

/-- Apart from the marks, the list after the outer loop is the list before it
followed by the remote templates that are kept. -/
theorem foldl_mergeStep_unmarked (remoteTemplates : List ExportTemplate) :
    ∀ templates : List ExportTemplate,
      (remoteTemplates.foldl mergeStep templates).map ExportTemplate.unmarked =
        templates.map ExportTemplate.unmarked ++
          (keptRemotes (templates.map (fun t => t.identifier)) remoteTemplates).map
            ExportTemplate.unmarked := by
  induction remoteTemplates with
  | nil => intro templates; simp [keptRemotes]
  | cons r rs ih =>
    intro templates
    rw [List.foldl_cons, ih, mergeStep_eq]
    have hu : (templates.map (fun t =>
        if t.identifier = r.identifier then t.markRemote r else t)).map
          ExportTemplate.unmarked = templates.map ExportTemplate.unmarked := by
      rw [List.map_map]
      apply List.map_congr_left
      intro t _
      exact (unmarked_mark t r).1
    have hi : (templates.map (fun t =>
        if t.identifier = r.identifier then t.markRemote r else t)).map
          (fun t => t.identifier) = templates.map (fun t => t.identifier) := by
      rw [List.map_map]
      apply List.map_congr_left
      intro t _
      exact (unmarked_mark t r).2
    by_cases h : r.identifier ∈ templates.map (fun t => t.identifier)
    · simp only [h, if_true, List.append_nil, hu, hi, keptRemotes]
    · simp only [h, if_false, List.map_append, hu, hi, keptRemotes, List.map_cons,
        List.map_nil, List.append_assoc, List.singleton_append]

theorem markedBy_cons (r : ExportTemplate) (rs : List ExportTemplate) (t : ExportTemplate) :
    t.markedBy (r :: rs) =
      (if t.identifier = r.identifier then t.markRemote r else t).markedBy rs := by
  unfold ExportTemplate.markedBy
  by_cases h : t.identifier = r.identifier
  · have hid : (t.markRemote r).identifier = t.identifier := rfl
    simp only [h, if_true, List.filter_cons, decide_True, hid]
    rw [List.getLast?_cons]
    cases hl : (rs.filter (fun x => decide (r.identifier = x.identifier))).getLast? with
    | none => simp [hl]
    | some last => simp [hl, ExportTemplate.markRemote]
  · simp only [h, if_false, List.filter_cons, decide_False]
    rfl

/-- The local templates keep their places at the front of the list and are
marked by the last remote template with their identifier. -/
theorem foldl_mergeStep_take (remoteTemplates : List ExportTemplate) :
    ∀ templates : List ExportTemplate,
      (remoteTemplates.foldl mergeStep templates).take templates.length =
        templates.map (ExportTemplate.markedBy remoteTemplates) := by
  induction remoteTemplates with
  | nil =>
    intro templates
    have hid : ExportTemplate.markedBy [] = id := by
      funext t
      simp [ExportTemplate.markedBy]
    simp [hid]
  | cons r rs ih =>
    intro templates
    rw [List.foldl_cons]
    have hlen : templates.length ≤ (mergeStep templates r).length := by
      rw [mergeStep_eq, List.length_append, List.length_map]
      omega
    have h1 := ih (mergeStep templates r)
    have h2 : (List.foldl mergeStep (mergeStep templates r) rs).take templates.length =
        ((List.foldl mergeStep (mergeStep templates r) rs).take
          (mergeStep templates r).length).take templates.length := by
      rw [List.take_take, Nat.min_eq_left hlen]
    rw [h2, h1, mergeStep_eq, List.map_append, List.take_append_of_le_length (by simp),
      List.map_map, List.take_of_length_le (by simp)]
    apply List.map_congr_left
    intro t _
    simp only [Function.comp, markedBy_cons]

theorem keptRemotes_covers (remoteTemplates : List ExportTemplate) :
    ∀ (seen : List String) (r : ExportTemplate), r ∈ remoteTemplates →
      r.identifier ∈ seen ∨
        r.identifier ∈ (keptRemotes seen remoteTemplates).map (fun t => t.identifier) := by
  induction remoteTemplates with
  | nil => intro seen r h; simp at h
  | cons x xs ih =>
    intro seen r hr
    rw [List.mem_cons] at hr
    by_cases hx : x.identifier ∈ seen
    · simp only [keptRemotes, hx, if_true]
      rcases hr with rfl | hr
      · exact Or.inl hx
      · exact ih seen r hr
    · simp only [keptRemotes, hx, if_false, List.map_cons, List.mem_cons]
      rcases hr with rfl | hr
      · exact Or.inr (Or.inl rfl)
      · rcases ih (seen ++ [x.identifier]) r hr with h | h
        · rw [List.mem_append, List.mem_singleton] at h
          rcases h with h | h
          · exact Or.inl h
          · exact Or.inr (Or.inl h)
        · exact Or.inr (Or.inr h)

theorem insertSorted_perm (lessThan : ExportTemplate → ExportTemplate → Bool)
    (t : ExportTemplate) (l : List ExportTemplate) :
    List.Perm (insertSorted lessThan t l) (t :: l) := by
  induction l with
  | nil => exact List.Perm.refl _
  | cons x xs ih =>
    unfold insertSorted
    by_cases h : lessThan x t = true
    · rw [if_pos h]
      exact (List.Perm.cons x ih).trans (List.Perm.swap t x xs)
    · rw [if_neg h]

/-- Sorting rearranges the list and drops or adds nothing. -/
theorem stdSort_perm (lessThan : ExportTemplate → ExportTemplate → Bool)
    (l : List ExportTemplate) : List.Perm (stdSort lessThan l) l := by
  induction l with
  | nil => exact List.Perm.refl _
  | cons x xs ih =>
    unfold stdSort
    exact (insertSorted_perm lessThan x _).trans (List.Perm.cons x ih)

theorem insertSorted_sorted (lessThan : ExportTemplate → ExportTemplate → Bool)
    (hAsymm : ∀ a b, lessThan a b = true → lessThan b a = false)
    (hNeg : ∀ a b c, lessThan a b = false → lessThan b c = false → lessThan a c = false)
    (t : ExportTemplate) (l : List ExportTemplate)
    (h : l.Pairwise (fun a b => lessThan b a = false)) :
    (insertSorted lessThan t l).Pairwise (fun a b => lessThan b a = false) := by
  induction l with
  | nil => simp [insertSorted]
  | cons x xs ih =>
    rw [List.pairwise_cons] at h
    obtain ⟨hx, hxs⟩ := h
    unfold insertSorted
    by_cases hlt : lessThan x t = true
    · rw [if_pos hlt, List.pairwise_cons]
      refine ⟨?_, ih hxs⟩
      intro z hz
      have hz2 : z ∈ t :: xs := (insertSorted_perm lessThan t xs).subset hz
      rw [List.mem_cons] at hz2
      rcases hz2 with rfl | hz2
      · exact hAsymm x z hlt
      · exact hx z hz2
    · have hlt2 : lessThan x t = false := by simpa using hlt
      rw [if_neg hlt, List.pairwise_cons]
      refine ⟨?_, List.pairwise_cons.mpr ⟨hx, hxs⟩⟩
      intro z hz
      rw [List.mem_cons] at hz
      rcases hz with rfl | hz
      · exact hlt2
      · exact hNeg z x t (hx z hz) hlt2

/-- Elements that `lessThan` does not tell apart stay in the order of the
input. -/
theorem stdSort_of_no_order (lessThan : ExportTemplate → ExportTemplate → Bool)
    (l : List ExportTemplate)
    (h : ∀ a b, a ∈ l → b ∈ l → lessThan a b = false) : stdSort lessThan l = l := by
  induction l with
  | nil => rfl
  | cons x xs ih =>
    unfold stdSort
    rw [ih (fun a b ha hb => h a b (List.mem_cons_of_mem x ha) (List.mem_cons_of_mem x hb))]
    cases xs with
    | nil => rfl
    | cons y ys =>
      unfold insertSorted
      rw [if_neg]
      rw [h y x (List.mem_cons_of_mem x (List.mem_cons_self y ys)) (List.mem_cons_self x _)]
      simp

/-- When `lessThan` is a strict weak ordering, as `std::sort` requires, no
element of the sorted list is less than an element before it. -/
theorem stdSort_sorted (lessThan : ExportTemplate → ExportTemplate → Bool)
    (hAsymm : ∀ a b, lessThan a b = true → lessThan b a = false)
    (hNeg : ∀ a b c, lessThan a b = false → lessThan b c = false → lessThan a c = false)
    (l : List ExportTemplate) :
    (stdSort lessThan l).Pairwise (fun a b => lessThan b a = false) := by
  induction l with
  | nil => simp [stdSort]
  | cons x xs ih =>
    unfold stdSort
    exact insertSorted_sorted lessThan hAsymm hNeg x _ ih

theorem mergeUnsorted_identifiers (localTemplates remoteTemplates : List ExportTemplate) :
    (mergeUnsorted localTemplates remoteTemplates).map (fun t => t.identifier) =
      localTemplates.map (fun t => t.identifier) ++
        (keptRemotes (localTemplates.map (fun t => t.identifier)) remoteTemplates).map
          (fun t => t.identifier) := by
  have h := congrArg (List.map (fun t : ExportTemplate => t.identifier))
    (foldl_mergeStep_unmarked remoteTemplates localTemplates)
  rw [List.map_append, List.map_map, List.map_map, List.map_map] at h
  exact h

/-- A kept remote template has an identifier that was not seen before it. -/
theorem keptRemotes_fresh (remoteTemplates : List ExportTemplate) :
    ∀ (seen : List String) (r : ExportTemplate), r ∈ keptRemotes seen remoteTemplates →
      r ∈ remoteTemplates ∧ r.identifier ∉ seen := by
  induction remoteTemplates with
  | nil => intro seen r h; simp [keptRemotes] at h
  | cons x xs ih =>
    intro seen r hr
    by_cases hx : x.identifier ∈ seen
    · simp only [keptRemotes, hx, if_true] at hr
      exact ⟨List.mem_cons_of_mem x (ih seen r hr).1, (ih seen r hr).2⟩
    · simp only [keptRemotes, hx, if_false, List.mem_cons] at hr
      rcases hr with rfl | hr
      · exact ⟨List.mem_cons_self _ _, hx⟩
      · refine ⟨List.mem_cons_of_mem x (ih _ r hr).1, ?_⟩
        intro hmem
        exact (ih _ r hr).2 (List.mem_append_left _ hmem)

/-- No two kept remote templates have the same identifier. -/
theorem keptRemotes_distinct (remoteTemplates : List ExportTemplate) :
    ∀ seen : List String,
      (keptRemotes seen remoteTemplates).Pairwise
        (fun a b => a.identifier ≠ b.identifier) := by
  induction remoteTemplates with
  | nil => intro seen; simp [keptRemotes]
  | cons x xs ih =>
    intro seen
    by_cases hx : x.identifier ∈ seen
    · simp only [keptRemotes, hx, if_true]
      exact ih seen
    · simp only [keptRemotes, hx, if_false]
      rw [List.pairwise_cons]
      refine ⟨?_, ih _⟩
      intro r hr heq
      apply (keptRemotes_fresh xs _ r hr).2
      rw [← heq]
      simp

/-- A template with the identifier of a remote template is marked by the last
remote template with that identifier. -/
theorem markedBy_of_mem (remoteTemplates : List ExportTemplate) (l r : ExportTemplate)
    (hr : r ∈ remoteTemplates) (hid : l.identifier = r.identifier) :
    ∃ last, last ∈ remoteTemplates ∧ l.identifier = last.identifier ∧
      (remoteTemplates.filter (fun x => decide (l.identifier = x.identifier))).getLast? =
        some last ∧
      l.markedBy remoteTemplates = l.markRemote last := by
  have hmem : r ∈ remoteTemplates.filter (fun x => decide (l.identifier = x.identifier)) := by
    rw [List.mem_filter]
    exact ⟨hr, by simpa using hid⟩
  cases hl : (remoteTemplates.filter
      (fun x => decide (l.identifier = x.identifier))).getLast? with
  | none =>
    rw [List.getLast?_eq_none_iff] at hl
    rw [hl] at hmem
    simp at hmem
  | some last =>
    have hlast := List.mem_of_getLast?_eq_some hl
    rw [List.mem_filter] at hlast
    refine ⟨last, hlast.1, by simpa using hlast.2, rfl, ?_⟩
    simp [ExportTemplate.markedBy, hl]

/-- A template with the identifier of no remote template is left as it was. -/
theorem markedBy_of_not_mem (remoteTemplates : List ExportTemplate) (l : ExportTemplate)
    (h : ∀ r, r ∈ remoteTemplates → l.identifier ≠ r.identifier) :
    l.markedBy remoteTemplates = l := by
  have hl : remoteTemplates.filter (fun x => decide (l.identifier = x.identifier)) = [] := by
    rw [List.filter_eq_nil_iff]
    intro r hr
    simpa using h r hr
  simp [ExportTemplate.markedBy, hl]

theorem lessThanByName_asymm (a b : ExportTemplate) (h : lessThanByName a b = true) :
    lessThanByName b a = false := by
  unfold lessThanByName at *
  have h1 : a.name.data.map Char.toNat < b.name.data.map Char.toNat := by simpa using h
  have h2 := lt_asymm h1
  simpa using h2

theorem lessThanByName_negtrans (a b c : ExportTemplate) (h1 : lessThanByName a b = false)
    (h2 : lessThanByName b c = false) : lessThanByName a c = false := by
  unfold lessThanByName at *
  have h1n : ¬ a.name.data.map Char.toNat < b.name.data.map Char.toNat := by simpa using h1
  have h2n : ¬ b.name.data.map Char.toNat < c.name.data.map Char.toNat := by simpa using h2
  have h3 : ¬ a.name.data.map Char.toNat < c.name.data.map Char.toNat := by
    rw [not_lt] at *
    exact le_trans h2n h1n
  simpa using h3

theorem unmarked_markedBy (remoteTemplates : List ExportTemplate) (t : ExportTemplate) :
    (t.markedBy remoteTemplates).unmarked = t.unmarked ∧
      (t.markedBy remoteTemplates).identifier = t.identifier := by
  unfold ExportTemplate.markedBy
  cases (remoteTemplates.filter
      (fun x => decide (t.identifier = x.identifier))).getLast? with
  | none => exact ⟨rfl, rfl⟩
  | some last => exact ⟨rfl, rfl⟩

/-- The list after the outer loop, element by element: the templates it
started from, each marked by the last remote template with its identifier,
then the kept remote templates as the later rounds left them. -/
theorem foldl_mergeStep_exact (remoteTemplates : List ExportTemplate) :
    ∀ templates : List ExportTemplate,
      remoteTemplates.foldl mergeStep templates =
        templates.map (ExportTemplate.markedBy remoteTemplates) ++
          keptRemotesMarked (templates.map (fun t => t.identifier)) remoteTemplates := by
  induction remoteTemplates with
  | nil =>
    intro templates
    have hid : ExportTemplate.markedBy [] = id := by
      funext t
      simp [ExportTemplate.markedBy]
    simp [hid, keptRemotesMarked]
  | cons r rs ih =>
    intro templates
    rw [List.foldl_cons, ih, mergeStep_eq]
    have hi : (templates.map (fun t =>
        if t.identifier = r.identifier then t.markRemote r else t)).map
          (fun t => t.identifier) = templates.map (fun t => t.identifier) := by
      rw [List.map_map]
      apply List.map_congr_left
      intro t _
      exact (unmarked_mark t r).2
    have hm : (templates.map (fun t =>
        if t.identifier = r.identifier then t.markRemote r else t)).map
          (ExportTemplate.markedBy rs) =
        templates.map (ExportTemplate.markedBy (r :: rs)) := by
      rw [List.map_map]
      apply List.map_congr_left
      intro t _
      simp only [Function.comp, markedBy_cons]
    by_cases h : r.identifier ∈ templates.map (fun t => t.identifier)
    · simp only [h, if_true, List.append_nil, hi, hm, keptRemotesMarked]
    · simp only [h, if_false, List.map_append, hi, hm, keptRemotesMarked, List.map_cons,
        List.map_nil, List.append_assoc, List.singleton_append]

theorem keptRemotesMarked_unmarked (remoteTemplates : List ExportTemplate) :
    ∀ seen : List String,
      (keptRemotesMarked seen remoteTemplates).map ExportTemplate.unmarked =
        (keptRemotes seen remoteTemplates).map ExportTemplate.unmarked := by
  induction remoteTemplates with
  | nil => intro seen; rfl
  | cons r rs ih =>
    intro seen
    by_cases h : r.identifier ∈ seen
    · simp only [keptRemotesMarked, keptRemotes, h, if_true]
      exact ih seen
    · simp only [keptRemotesMarked, keptRemotes, h, if_false, List.map_cons]
      rw [ih, (unmarked_markedBy rs r).1]

/-- When no two remote templates have the same identifier, the kept remote
templates are appended as they were handed in. -/
theorem keptRemotesMarked_of_nodup (remoteTemplates : List ExportTemplate) :
    ∀ seen : List String, (remoteTemplates.map (fun t => t.identifier)).Nodup →
      keptRemotesMarked seen remoteTemplates = keptRemotes seen remoteTemplates := by
  induction remoteTemplates with
  | nil => intro seen _; rfl
  | cons r rs ih =>
    intro seen hnd
    rw [List.map_cons, List.nodup_cons] at hnd
    have hsame : r.markedBy rs = r := by
      apply markedBy_of_not_mem
      intro x hx heq
      apply hnd.1
      rw [heq]
      exact List.mem_map_of_mem (fun t => t.identifier) hx
    by_cases h : r.identifier ∈ seen
    · simp only [keptRemotesMarked, keptRemotes, h, if_true]
      exact ih seen hnd.2
    · simp only [keptRemotesMarked, keptRemotes, h, if_false]
      rw [ih _ hnd.2, hsame]

/-- C22 (as stated) fails when two remote templates have the same identifier:
the local template `simple` is first marked with version 1.2 and the file of
the first remote entry, then with version 1.3 and the file of the second.  The
first remote entry is a remote template with the identifier of the local
template, and the local template does not carry its version and file. -/
theorem later_remote_template_overwrites_version_and_file :
    sampleRemoteTemplate ∈ [sampleRemoteTemplate, sampleNewerTemplate] ∧
      sampleLocalTemplate.identifier = sampleRemoteTemplate.identifier ∧
      mergeTemplates lessThanByName [sampleLocalTemplate]
          [sampleRemoteTemplate, sampleNewerTemplate] =
        [⟨"Simple", "simple", "1.0", true, true, "1.3",
          "https://example.org/simple-1.3.zip", ""⟩] ∧
      (∀ t, t ∈ mergeTemplates lessThanByName [sampleLocalTemplate]
          [sampleRemoteTemplate, sampleNewerTemplate] →
        t.remoteVersion ≠ sampleRemoteTemplate.version ∧
          t.remoteFile ≠ sampleRemoteTemplate.remoteFile) := by
  decide

/-- C22 (amended): `mergeTemplates lessThan localTemplates remoteTemplates` is
a rearrangement of the list built by the loops, and that list is, element by
element, the local templates in their order, each marked by the last remote
template with its identifier, followed by the kept remote templates, each
marked by the last later remote template with its identifier.  The kept remote
templates are the remote templates whose identifier is that of no local
template and of no earlier kept remote template; they are appended unchanged
when no two remote templates have the same identifier, and apart from the three
remote marks in every case.  When `lessThan` is a strict weak ordering, as
`std::sort` requires, the result is sorted by it.  Hence every identifier of a
local or remote template occurs in the result, and each local template is in
the result in its marked form, which differs from it at most in the three
marks.  A local template whose identifier occurs in the remote list is marked
remote and carries the version and file of the last remote template with that
identifier, which is the given remote template when the identifier occurs once
in the remote list; a local template whose identifier does not occur in the
remote list is unchanged. -/
theorem mergeTemplates_is_sorted_local_then_new_remote
    (lessThan : ExportTemplate → ExportTemplate → Bool)
    (localTemplates remoteTemplates : List ExportTemplate) :
    List.Perm (mergeTemplates lessThan localTemplates remoteTemplates)
        (mergeUnsorted localTemplates remoteTemplates) ∧
      mergeUnsorted localTemplates remoteTemplates =
        localTemplates.map (ExportTemplate.markedBy remoteTemplates) ++
          keptRemotesMarked (localTemplates.map (fun t => t.identifier)) remoteTemplates ∧
      ((remoteTemplates.map (fun t => t.identifier)).Nodup →
        mergeUnsorted localTemplates remoteTemplates =
          localTemplates.map (ExportTemplate.markedBy remoteTemplates) ++
            keptRemotes (localTemplates.map (fun t => t.identifier)) remoteTemplates) ∧
      (mergeUnsorted localTemplates remoteTemplates).map ExportTemplate.unmarked =
        (localTemplates ++
          keptRemotes (localTemplates.map (fun t => t.identifier)) remoteTemplates).map
            ExportTemplate.unmarked ∧
      (∀ r, r ∈ keptRemotes (localTemplates.map (fun t => t.identifier)) remoteTemplates →
        r ∈ remoteTemplates ∧
          r.identifier ∉ localTemplates.map (fun t => t.identifier)) ∧
      (keptRemotes (localTemplates.map (fun t => t.identifier)) remoteTemplates).Pairwise
        (fun a b => a.identifier ≠ b.identifier) ∧
      (((∀ a b, lessThan a b = true → lessThan b a = false) ∧
          (∀ a b c, lessThan a b = false → lessThan b c = false → lessThan a c = false)) →
        (mergeTemplates lessThan localTemplates remoteTemplates).Pairwise
          (fun a b => lessThan b a = false)) ∧
      (∀ t, t ∈ localTemplates ∨ t ∈ remoteTemplates →
        t.identifier ∈
          (mergeTemplates lessThan localTemplates remoteTemplates).map
            (fun x => x.identifier)) ∧
      (mergeUnsorted localTemplates remoteTemplates).take localTemplates.length =
        localTemplates.map (ExportTemplate.markedBy remoteTemplates) ∧
      (∀ l, l ∈ localTemplates →
        l.markedBy remoteTemplates ∈
            mergeTemplates lessThan localTemplates remoteTemplates ∧
          (l.markedBy remoteTemplates).unmarked = l.unmarked) ∧
      (∀ l r, l ∈ localTemplates → r ∈ remoteTemplates → l.identifier = r.identifier →
        (l.markedBy remoteTemplates).remote = true ∧
          ∃ last, last ∈ remoteTemplates ∧ l.identifier = last.identifier ∧
            (remoteTemplates.filter
              (fun x => decide (l.identifier = x.identifier))).getLast? = some last ∧
            (l.markedBy remoteTemplates).remoteVersion = last.version ∧
            (l.markedBy remoteTemplates).remoteFile = last.remoteFile ∧
            ((∀ other, other ∈ remoteTemplates → l.identifier = other.identifier →
                other = r) → last = r)) ∧
      (∀ l, l ∈ localTemplates →
        (∀ r, r ∈ remoteTemplates → l.identifier ≠ r.identifier) →
        l.markedBy remoteTemplates = l) := by
  have hperm : List.Perm (mergeTemplates lessThan localTemplates remoteTemplates)
      (mergeUnsorted localTemplates remoteTemplates) := stdSort_perm lessThan _
  have hexact : mergeUnsorted localTemplates remoteTemplates =
      localTemplates.map (ExportTemplate.markedBy remoteTemplates) ++
        keptRemotesMarked (localTemplates.map (fun t => t.identifier)) remoteTemplates :=
    foldl_mergeStep_exact remoteTemplates localTemplates
  have htake : (mergeUnsorted localTemplates remoteTemplates).take localTemplates.length =
      localTemplates.map (ExportTemplate.markedBy remoteTemplates) :=
    foldl_mergeStep_take remoteTemplates localTemplates
  refine ⟨hperm, hexact, ?_, ?_, ?_, keptRemotes_distinct remoteTemplates _, ?_, ?_, htake,
    ?_, ?_, ?_⟩
  · intro hnd
    rw [hexact, keptRemotesMarked_of_nodup remoteTemplates _ hnd]
  · rw [List.map_append]
    exact foldl_mergeStep_unmarked remoteTemplates localTemplates
  · intro r hr
    exact keptRemotes_fresh remoteTemplates _ r hr
  · intro h
    exact stdSort_sorted lessThan h.1 h.2 _
  · intro t ht
    rw [(hperm.map (fun x => x.identifier)).mem_iff, mergeUnsorted_identifiers,
      List.mem_append]
    rcases ht with ht | ht
    · exact Or.inl (List.mem_map_of_mem (fun x => x.identifier) ht)
    · exact keptRemotes_covers remoteTemplates _ t ht
  · intro l hl
    refine ⟨?_, (unmarked_markedBy remoteTemplates l).1⟩
    rw [hperm.mem_iff]
    apply List.mem_of_mem_take (n := localTemplates.length)
    rw [htake]
    exact List.mem_map_of_mem _ hl
  · intro l r _ hr hid
    obtain ⟨last, hmem, hlid, hlast, hmark⟩ := markedBy_of_mem remoteTemplates l r hr hid
    rw [hmark]
    refine ⟨rfl, last, hmem, hlid, hlast, rfl, rfl, ?_⟩
    intro honly
    exact honly last hmem hlid
  · intro l _ h
    exact markedBy_of_not_mem remoteTemplates l h

theorem mergeTemplates_is_sorted_local_then_new_remote_witness :
    mergeTemplates lessThanByName [sampleLocalTemplate]
        [sampleRemoteTemplate, sampleOtherTemplate] =
      [sampleOtherTemplate,
        ⟨"Simple", "simple", "1.0", true, true, "1.2",
          "https://example.org/simple-1.2.zip", ""⟩] ∧
      ([sampleRemoteTemplate, sampleOtherTemplate].map (fun t => t.identifier)).Nodup ∧
      mergeUnsorted [sampleLocalTemplate] [sampleRemoteTemplate, sampleOtherTemplate] =
        [sampleLocalTemplate].map
            (ExportTemplate.markedBy [sampleRemoteTemplate, sampleOtherTemplate]) ++
          keptRemotes ([sampleLocalTemplate].map (fun t => t.identifier))
            [sampleRemoteTemplate, sampleOtherTemplate] ∧
      (mergeTemplates lessThanByName [sampleLocalTemplate]
        [sampleRemoteTemplate, sampleOtherTemplate]).Pairwise
          (fun a b => lessThanByName b a = false) ∧
      (sampleLocalTemplate.markedBy
        [sampleRemoteTemplate, sampleOtherTemplate]).remote = true :=
  ⟨by decide, by decide,
    (mergeTemplates_is_sorted_local_then_new_remote lessThanByName [sampleLocalTemplate]
      [sampleRemoteTemplate, sampleOtherTemplate]).2.2.1 (by decide),
    (mergeTemplates_is_sorted_local_then_new_remote lessThanByName [sampleLocalTemplate]
      [sampleRemoteTemplate, sampleOtherTemplate]).2.2.2.2.2.2.1
      ⟨lessThanByName_asymm, lessThanByName_negtrans⟩,
    ((mergeTemplates_is_sorted_local_then_new_remote lessThanByName [sampleLocalTemplate]
      [sampleRemoteTemplate, sampleOtherTemplate]).2.2.2.2.2.2.2.2.2.2.1
      sampleLocalTemplate sampleRemoteTemplate (by decide) (by decide) (by decide)).1⟩

end MediaElch
